import Mathlib

/-!
# paroduscl: session object of the parodus client library

A shallow embedding of `src/paroduscl.c` (and the result codes of
`src/paroduscl.h`).

Conventions of the embedding.

* A `const char *` is a `List Nat`: the bytes stored from the pointer on.
  The C string it denotes ends at the first `0`; a read at or past the end of
  the list yields the terminator `0`.
* `int` values are `Int`; `pcl_result_t` is the C enum, an integer type, so a
  caller-supplied handler may return any integer.
* The transport (nanomsg), the codec (wrp-c), the allocator and the semaphore
  are external.  Every call into them is recorded in a trace of `Event`s and
  its outcome is taken from an explicit environment record.
* A handler slot holds a function from the message to the result code; what a
  caller-supplied handler does besides returning a code is outside the session.
  Every invocation of a handler is an `Event` of the trace.
* Destination fields of decoded messages are non-NULL C strings.
-/

namespace Paroduscl

/-! ## C strings -/

/-- Bytes of an ASCII literal. -/
def ascii (s : String) : List Nat := s.toList.map Char.toNat

/-- C `strlen`: number of bytes before the first NUL. -/
def strlen : List Nat → Nat
  | [] => 0
  | c :: cs => if c = 0 then 0 else strlen cs + 1

/-- C `strncmp`: compares at most `n` bytes, stopping after a NUL; the sign of
the result is that of the first differing pair. -/
def strncmp (a b : List Nat) : Nat → Int
  | 0 => 0
  | n + 1 =>
    if a.headD 0 ≠ b.headD 0 then (a.headD 0 : Int) - (b.headD 0 : Int)
    else if a.headD 0 = 0 then 0
    else strncmp a.tail b.tail n

/-- C `strchr`: the suffix starting at the first occurrence of `c`, `none`
for a NULL result. -/
def strchr : List Nat → Nat → Option (List Nat)
  | [], c => if c = 0 then some [] else none
  | x :: xs, c =>
    if x = c then some (x :: xs)
    else if x = 0 then none
    else strchr xs c

/-- `snprintf(buf, size, "%s", s)`: the buffer receives the string `s`
truncated to `size - 1` bytes (followed by the terminator). -/
def snprintf_s (size : Nat) (s : List Nat) : List Nat :=
  (s.take (strlen s)).take (size - 1)

/-! ## Result codes (`paroduscl.h`) -/

/-- The C enum `pcl_result_t`: an integer type. -/
abbrev pcl_result_t := Int

def PCL_RESULT_SUCCESS : pcl_result_t := 0
def PCL_RESULT_ERROR_PARAMS : pcl_result_t := 1
def PCL_RESULT_ERROR_OUT_OF_MEMORY : pcl_result_t := 2
def PCL_RESULT_ERROR_SOCK_RECV_CREATE : pcl_result_t := 3
def PCL_RESULT_ERROR_SOCK_RECV_SETOPT : pcl_result_t := 4
def PCL_RESULT_ERROR_SOCK_RECV_GETOPT : pcl_result_t := 5
def PCL_RESULT_ERROR_SOCK_RECV_BIND : pcl_result_t := 6
def PCL_RESULT_ERROR_SOCK_RECV_TIMEOUT : pcl_result_t := 7
def PCL_RESULT_ERROR_SOCK_RECV_READ : pcl_result_t := 8
def PCL_RESULT_ERROR_SOCK_RECV_WRP : pcl_result_t := 9
def PCL_RESULT_ERROR_SOCK_RECV_SVCNAME : pcl_result_t := 10
def PCL_RESULT_ERROR_SOCK_RECV_MSGTYPE : pcl_result_t := 11
def PCL_RESULT_ERROR_SOCK_RECV_CONTENT : pcl_result_t := 12
def PCL_RESULT_ERROR_SOCK_RECV_PAYLOAD : pcl_result_t := 13
def PCL_RESULT_ERROR_SOCK_SEND_CREATE : pcl_result_t := 14
def PCL_RESULT_ERROR_SOCK_SEND_SETOPT : pcl_result_t := 15
def PCL_RESULT_ERROR_SOCK_SEND_GETOPT : pcl_result_t := 16
def PCL_RESULT_ERROR_SOCK_SEND_CONNECT : pcl_result_t := 17
def PCL_RESULT_ERROR_SOCK_SEND_WRP : pcl_result_t := 18
def PCL_RESULT_ERROR_SOCK_SEND_WRITE : pcl_result_t := 19
def PCL_RESULT_ERROR_SOCK_SEND_PARTIAL : pcl_result_t := 20
def PCL_RESULT_ERROR_SOCK_SEND_AUTH : pcl_result_t := 21
def PCL_RESULT_ERROR_REGISTER : pcl_result_t := 22
def PCL_RESULT_ERROR_INTERNAL : pcl_result_t := 23
def PCL_RESULT_INVALID : pcl_result_t := 24

/-! ## Messages of the codec (wrp-c, external) -/

/-- Modelled from the spec: the message kinds of the external codec header
`wrp-c.h`, which is not part of the sources.  `other v` stands for any value of
the C enum outside the ten named kinds. -/
inductive wrp_msg_type
  | AUTH | REQ | EVENT | CREATE | RETREIVE | UPDATE | DELETE
  | SVC_REGISTRATION | SVC_ALIVE | UNKNOWN
  | other (v : Int)
  deriving DecidableEq, Repr, Inhabited

/-- Modelled from the spec: the AUTH payload, of which the session reads `status`. -/
structure wrp_auth_msg where
  status : Int
  deriving DecidableEq, Repr, Inhabited

/-- Modelled from the spec: the REQUEST payload, of which the session reads `dest`. -/
structure wrp_req_msg where
  dest : List Nat
  payload : List Nat
  deriving DecidableEq, Repr, Inhabited

/-- Modelled from the spec: the EVENT payload, of which the session reads `dest`. -/
structure wrp_event_msg where
  dest : List Nat
  payload : List Nat
  deriving DecidableEq, Repr, Inhabited

/-- Modelled from the spec: the CREATE/RETRIEVE/UPDATE/DELETE payload, of which
the session reads `dest`. -/
structure wrp_crud_msg where
  dest : List Nat
  payload : List Nat
  deriving DecidableEq, Repr, Inhabited

/-- Modelled from the spec: the SVC_REGISTRATION payload. -/
structure wrp_svc_registration_msg where
  service_name : List Nat
  url : List Nat
  deriving DecidableEq, Repr, Inhabited

/-- The union `u` of `wrp_msg_t`, kept as a record of its members: each
branch of the session reads only the member of its own kind. -/
structure wrp_union where
  auth : wrp_auth_msg
  req : wrp_req_msg
  event : wrp_event_msg
  crud : wrp_crud_msg
  reg : wrp_svc_registration_msg
  deriving DecidableEq, Repr, Inhabited

structure wrp_msg_t where
  msg_type : wrp_msg_type
  u : wrp_union
  deriving DecidableEq, Repr, Inhabited

/-! ## Session object (`paroduscl.c`) -/

def PCL_SERVICE_NAME_LEN_MAX : Nat := 64
def PCL_URL_LEN_MAX : Nat := 256
def PCL_SERVICE_NAME_DEFAULT : List Nat := ascii "iot"
def PCL_URL_PARODUS_DEFAULT : List Nat := ascii "tcp://127.0.0.1:6666"
def PCL_URL_CLIENT_DEFAULT : List Nat := ascii "tcp://127.0.0.1:6667"
def PCL_RECV_TIMEOUT_DEFAULT : Int := 2
def PCL_SEND_TIMEOUT_DEFAULT : Int := 2

/-- The value of `ETIMEDOUT` in `errno.h` (Linux). -/
def ETIMEDOUT : Int := 110

/-- The C expression `sizeof(int)`. -/
def sizeof_int : Nat := 4

/-- Value of a 32-bit `int` after an arithmetic result is stored in it
(two's complement wrap-around). -/
def int32 (x : Int) : Int := (x + 2 ^ 31) % 2 ^ 32 - 2 ^ 31

/-- Conversion of an `int` to `size_t` (64-bit). -/
def size_t_of_int (x : Int) : Nat := (x % 2 ^ 64).toNat

structure pcl_sock_t where
  sock : Int
  fd : Int
  timeout : Int
  deriving DecidableEq, Repr, Inhabited

abbrev pcl_msg_handler_req_t := wrp_req_msg → pcl_result_t
abbrev pcl_msg_handler_event_t := wrp_event_msg → pcl_result_t
abbrev pcl_msg_handler_crud_t := wrp_crud_msg → pcl_result_t
abbrev pcl_msg_handler_alive_t := Unit → pcl_result_t

structure pcl_obj_t where
  authorized : Bool
  auth_status : Int
  service_name_len : Int
  service_name : List Nat
  url_parodus : List Nat
  url_client : List Nat
  recv : pcl_sock_t
  send : pcl_sock_t
  handler_request : pcl_msg_handler_req_t
  handler_event : pcl_msg_handler_event_t
  handler_create : pcl_msg_handler_crud_t
  handler_retrieve : pcl_msg_handler_crud_t
  handler_update : pcl_msg_handler_crud_t
  handler_delete : pcl_msg_handler_crud_t
  handler_alive : pcl_msg_handler_alive_t

/-- The record `pcl_params_t`; `none` is a NULL field. -/
structure pcl_params_t where
  service_name : Option (List Nat)
  url_parodus : Option (List Nat)
  url_client : Option (List Nat)
  timeout_recv : Option Int
  timeout_send : Option Int
  handler_request : Option pcl_msg_handler_req_t
  handler_event : Option pcl_msg_handler_event_t
  handler_create : Option pcl_msg_handler_crud_t
  handler_retrieve : Option pcl_msg_handler_crud_t
  handler_update : Option pcl_msg_handler_crud_t
  handler_delete : Option pcl_msg_handler_crud_t
  handler_alive : Option pcl_msg_handler_alive_t

/-! ## Trace of external calls and of accesses to the authorization fields -/

inductive nn_protocol
  | NN_PULL | NN_PUSH
  deriving DecidableEq, Repr

inductive nn_option
  | NN_RCVTIMEO | NN_SNDTIMEO | NN_RCVFD | NN_SNDFD
  deriving DecidableEq, Repr

inductive Event
  | malloc
  | free_obj
  | sem_init (value : Nat)
  | sem_wait
  | sem_post
  | sem_destroy
  | nn_socket (protocol : nn_protocol) (ret : Int)
  | nn_setsockopt (sock : Int) (option : nn_option) (value : Int)
  | nn_getsockopt (sock : Int) (option : nn_option)
  | nn_bind (sock : Int) (url : List Nat)
  | nn_connect (sock : Int) (url : List Nat)
  | nn_shutdown (sock : Int)
  | nn_close (sock : Int)
  | nn_recv (sock : Int)
  | nn_freemsg
  | wrp_to_struct
  | wrp_free_struct
  | wrp_struct_to (msg : wrp_msg_t)
  | nn_send (sock : Int) (bytes : List Nat) (len : Int)
  | free_bytes
  | read_authorized
  | write_authorized (value : Bool)
  | write_auth_status (value : Int)
  | handler_auth (msg : wrp_auth_msg)
  | handler_register (msg : wrp_svc_registration_msg)
  | handler_alive
  | handler_request (msg : wrp_req_msg)
  | handler_event (msg : wrp_event_msg)
  | handler_create (msg : wrp_crud_msg)
  | handler_retrieve (msg : wrp_crud_msg)
  | handler_update (msg : wrp_crud_msg)
  | handler_delete (msg : wrp_crud_msg)
  deriving DecidableEq, Repr

/-- The event is the invocation of a message handler. -/
def Event.isHandler : Event → Bool
  | .handler_auth _ | .handler_register _ | .handler_alive
  | .handler_request _ | .handler_event _ | .handler_create _
  | .handler_retrieve _ | .handler_update _ | .handler_delete _ => true
  | _ => false

/-! ## Built-in handlers -/

def pcl_msg_handler_request : pcl_msg_handler_req_t := fun _ => PCL_RESULT_SUCCESS
def pcl_msg_handler_event : pcl_msg_handler_event_t := fun _ => PCL_RESULT_SUCCESS
def pcl_msg_handler_create : pcl_msg_handler_crud_t := fun _ => PCL_RESULT_SUCCESS
def pcl_msg_handler_retrieve : pcl_msg_handler_crud_t := fun _ => PCL_RESULT_SUCCESS
def pcl_msg_handler_update : pcl_msg_handler_crud_t := fun _ => PCL_RESULT_SUCCESS
def pcl_msg_handler_delete : pcl_msg_handler_crud_t := fun _ => PCL_RESULT_SUCCESS
def pcl_msg_handler_alive : pcl_msg_handler_alive_t := fun _ => PCL_RESULT_SUCCESS

/-- Outcome of a handler that works on the session: the session afterwards,
the result code and the accesses made. -/
structure handler_out where
  obj : pcl_obj_t
  result : pcl_result_t
  trace : List Event

/-- `pcl_msg_handler_auth`: overwrites `authorized` and `auth_status`. -/
def pcl_msg_handler_auth (obj : pcl_obj_t) (msg : wrp_auth_msg) : handler_out :=
  let obj1 : pcl_obj_t :=
    if msg.status = 200 then { obj with authorized := true }
    else { obj with authorized := false }
  { obj := { obj1 with auth_status := msg.status }
    result := PCL_RESULT_SUCCESS
    trace := [Event.write_authorized (decide (msg.status = 200)),
              Event.write_auth_status msg.status] }

/-- `pcl_msg_handler_register`: the registration-ack hook. -/
def pcl_msg_handler_register (obj : pcl_obj_t) (_msg : wrp_svc_registration_msg) :
    handler_out :=
  { obj := obj, result := PCL_RESULT_SUCCESS, trace := [] }

/-! ## Destination matching -/

/-- `pcl_service_name_match`. -/
def pcl_service_name_match (obj : pcl_obj_t) (dest : List Nat) : Bool :=
  if strncmp (ascii "mac:") dest 4 = 0 then
    match strchr dest 47 with
    | none => false
    | some slash =>
      let service := slash.tail
      if strncmp service obj.service_name (size_t_of_int obj.service_name_len) = 0 then
        let c := service.getD obj.service_name_len.toNat 0
        if c = 47 ∨ c = 63 ∨ c = 35 ∨ c = 0 then true else false
      else false
  else false

/-! ## Send path -/

/-- Outcome of a public call: result code, the session afterwards (`none` when
there is none), the value left in `*errsv`, and the trace. -/
structure call_out where
  result : pcl_result_t
  obj : Option pcl_obj_t
  errsv : Int
  trace : List Event

/-- What the codec and the transport answer during one send. -/
structure send_env where
  /-- `wrp_struct_to(msg, WRP_BYTES, &msg_bytes)`: the returned length and the
  buffer stored in `msg_bytes` (`none` for NULL). -/
  wrp_struct_to : wrp_msg_t → Int × Option (List Nat)
  /-- return value of `nn_send` -/
  nn_send : Int
  /-- `errno` after `nn_send` -/
  errno : Int

/-- `pcl_sock_send_wrp`: result code, `*errsv`, trace. -/
def pcl_sock_send_wrp (obj : pcl_obj_t) (msg : wrp_msg_t) (env : send_env) :
    pcl_result_t × Int × List Event :=
  let enc := env.wrp_struct_to msg
  let fail : pcl_result_t × Int × List Event :=
    (PCL_RESULT_ERROR_SOCK_SEND_WRP, 0,
      [Event.sem_wait, Event.wrp_struct_to msg, Event.sem_post])
  if enc.1 < 1 then fail
  else match enc.2 with
    | none => fail
    | some msg_bytes =>
      let ret := env.nn_send
      let t := [Event.sem_wait, Event.wrp_struct_to msg,
                Event.nn_send obj.send.sock msg_bytes enc.1, Event.sem_post]
      if ret < 0 then (PCL_RESULT_ERROR_SOCK_SEND_WRITE, env.errno, t ++ [Event.free_bytes])
      else if ret ≠ enc.1 then (PCL_RESULT_ERROR_SOCK_SEND_PARTIAL, 0, t ++ [Event.free_bytes])
      else (PCL_RESULT_SUCCESS, 0, t ++ [Event.free_bytes])

/-- `pcl_send`; `none` is a NULL session or message. -/
def pcl_send (object : Option pcl_obj_t) (msg : Option wrp_msg_t) (env : send_env) :
    call_out :=
  match object, msg with
  | some obj, some m =>
    if !obj.authorized then
      { result := PCL_RESULT_ERROR_SOCK_SEND_AUTH, obj := some obj, errsv := 0,
        trace := [Event.read_authorized] }
    else
      let r := pcl_sock_send_wrp obj m env
      { result := r.1, obj := some obj, errsv := r.2.1,
        trace := Event.read_authorized :: r.2.2 }
  | _, _ =>
    { result := PCL_RESULT_ERROR_PARAMS, obj := object, errsv := 0, trace := [] }

/-- `pcl_register`: sends the SVC_REGISTRATION message, without the
authorization check of `pcl_send`. -/
def pcl_register (obj : pcl_obj_t) (env : send_env) : pcl_result_t × Int × List Event :=
  let reg_msg : wrp_msg_t :=
    { msg_type := wrp_msg_type.SVC_REGISTRATION
      u := { (default : wrp_union) with
             reg := { service_name := obj.service_name, url := obj.url_client } } }
  pcl_sock_send_wrp obj reg_msg env

/-! ## Receive and dispatch -/

/-- What the transport and the codec answer during one receive. -/
structure recv_env where
  /-- return value of `nn_recv` -/
  msg_len : Int
  /-- buffer stored in `msg_buf` by `nn_recv` (`none` for NULL) -/
  msg_buf : Option (List Nat)
  /-- `errno` after `nn_recv` -/
  errno : Int
  /-- `(int) wrp_to_struct(msg_buf, msg_len, WRP_BYTES, &msg_wrp)`: the returned
  length, as the `int` assigned to `msg_len`, and the message stored in
  `msg_wrp` (`none` for NULL). -/
  wrp_to_struct : List Nat → Int → Int × Option wrp_msg_t

/-- The `switch` on the message type in `pcl_recv`. -/
def pcl_recv_switch (obj : pcl_obj_t) (msg_wrp : wrp_msg_t) : handler_out :=
  match msg_wrp.msg_type with
  | .AUTH =>
    let h := pcl_msg_handler_auth obj msg_wrp.u.auth
    { h with trace := Event.handler_auth msg_wrp.u.auth :: h.trace }
  | .SVC_REGISTRATION =>
    let h := pcl_msg_handler_register obj msg_wrp.u.reg
    { h with trace := Event.handler_register msg_wrp.u.reg :: h.trace }
  | .SVC_ALIVE =>
    { obj := obj, result := obj.handler_alive (), trace := [Event.handler_alive] }
  | .REQ =>
    if !pcl_service_name_match obj msg_wrp.u.req.dest then
      { obj := obj, result := PCL_RESULT_ERROR_SOCK_RECV_SVCNAME, trace := [] }
    else
      { obj := obj, result := obj.handler_request msg_wrp.u.req,
        trace := [Event.handler_request msg_wrp.u.req] }
  | .EVENT =>
    if !pcl_service_name_match obj msg_wrp.u.event.dest then
      { obj := obj, result := PCL_RESULT_ERROR_SOCK_RECV_SVCNAME, trace := [] }
    else
      { obj := obj, result := obj.handler_event msg_wrp.u.event,
        trace := [Event.handler_event msg_wrp.u.event] }
  | .CREATE =>
    if !pcl_service_name_match obj msg_wrp.u.crud.dest then
      { obj := obj, result := PCL_RESULT_ERROR_SOCK_RECV_SVCNAME, trace := [] }
    else
      { obj := obj, result := obj.handler_create msg_wrp.u.crud,
        trace := [Event.handler_create msg_wrp.u.crud] }
  | .RETREIVE =>
    if !pcl_service_name_match obj msg_wrp.u.crud.dest then
      { obj := obj, result := PCL_RESULT_ERROR_SOCK_RECV_SVCNAME, trace := [] }
    else
      { obj := obj, result := obj.handler_retrieve msg_wrp.u.crud,
        trace := [Event.handler_retrieve msg_wrp.u.crud] }
  | .UPDATE =>
    if !pcl_service_name_match obj msg_wrp.u.crud.dest then
      { obj := obj, result := PCL_RESULT_ERROR_SOCK_RECV_SVCNAME, trace := [] }
    else
      { obj := obj, result := obj.handler_update msg_wrp.u.crud,
        trace := [Event.handler_update msg_wrp.u.crud] }
  | .DELETE =>
    if !pcl_service_name_match obj msg_wrp.u.crud.dest then
      { obj := obj, result := PCL_RESULT_ERROR_SOCK_RECV_SVCNAME, trace := [] }
    else
      { obj := obj, result := obj.handler_delete msg_wrp.u.crud,
        trace := [Event.handler_delete msg_wrp.u.crud] }
  | .UNKNOWN =>
    { obj := obj, result := PCL_RESULT_ERROR_SOCK_RECV_MSGTYPE, trace := [] }
  | .other _ =>
    { obj := obj, result := PCL_RESULT_ERROR_SOCK_RECV_MSGTYPE, trace := [] }

/-- `pcl_recv`; `none` is a NULL session. -/
def pcl_recv (object : Option pcl_obj_t) (env : recv_env) : call_out :=
  match object with
  | none => { result := PCL_RESULT_ERROR_PARAMS, obj := none, errsv := 0, trace := [] }
  | some obj =>
    let t_recv := [Event.sem_wait, Event.nn_recv obj.recv.sock]
    let recv_fail : call_out :=
      if env.errno = ETIMEDOUT then
        { result := PCL_RESULT_ERROR_SOCK_RECV_TIMEOUT, obj := some obj, errsv := env.errno,
          trace := t_recv ++ [Event.sem_post] }
      else
        { result := PCL_RESULT_ERROR_SOCK_RECV_READ, obj := some obj, errsv := env.errno,
          trace := t_recv ++ [Event.sem_post] }
    if env.msg_len < 0 then recv_fail
    else match env.msg_buf with
      | none => recv_fail
      | some msg_buf =>
        let dec := env.wrp_to_struct msg_buf env.msg_len
        let t_dec := t_recv ++ [Event.wrp_to_struct, Event.nn_freemsg]
        let dec_fail : call_out :=
          { result := PCL_RESULT_ERROR_SOCK_RECV_WRP, obj := some obj, errsv := 0,
            trace := t_dec ++ [Event.sem_post] }
        if dec.1 < 1 then dec_fail
        else match dec.2 with
          | none => dec_fail
          | some msg_wrp =>
            let h := pcl_recv_switch obj msg_wrp
            { result := h.result, obj := some h.obj, errsv := 0,
              trace := t_dec ++ [Event.sem_post] ++ h.trace ++ [Event.wrp_free_struct] }

/-! ## Teardown -/

/-- What the cleanup calls leave in `errno`: `none` when the call does not
touch it, `some e` when it sets it to `e`. -/
structure destroy_env where
  recv_shutdown : Option Int
  recv_close : Option Int
  send_shutdown : Option Int
  send_close : Option Int
  sem_destroy : Option Int

/-- `errno` after a call that may set it. -/
def set_errno (errno : Int) (e : Option Int) : Int := e.getD errno

/-- `pcl_obj_destroy`: the value stored in `*errsv` and the trace; `none` is a
NULL object. -/
def pcl_obj_destroy (obj : Option pcl_obj_t) (env : destroy_env) : Int × List Event :=
  match obj with
  | none => (0, [])
  | some o =>
    let e0 : Int := 0
    let r : Int × List Event :=
      if o.recv.sock ≥ 0 then
        (set_errno (set_errno e0 env.recv_shutdown) env.recv_close,
          [Event.nn_shutdown o.recv.sock, Event.nn_close o.recv.sock])
      else (e0, [])
    let s : Int × List Event :=
      if o.send.sock ≥ 0 then
        (set_errno (set_errno r.1 env.send_shutdown) env.send_close,
          r.2 ++ [Event.nn_shutdown o.send.sock, Event.nn_close o.send.sock])
      else r
    (set_errno s.1 env.sem_destroy, s.2 ++ [Event.sem_destroy, Event.free_obj])

/-- What the allocator, the transport and the codec answer during `pcl_init`. -/
structure init_env where
  /-- `malloc` returns a non-NULL pointer -/
  malloc_ok : Bool
  /-- return value of `nn_socket(AF_SP, NN_PULL)` -/
  recv_socket : Int
  /-- return value of `nn_setsockopt(.., NN_RCVTIMEO, ..)` -/
  recv_setsockopt : Int
  /-- return value of `nn_bind` -/
  bind : Int
  /-- return value of `nn_getsockopt(.., NN_RCVFD, ..)` -/
  recv_getsockopt : Int
  /-- descriptor stored in `recv.fd` by that call -/
  recv_fd : Int
  /-- length stored in `optvallen` by that call -/
  recv_optvallen : Nat
  /-- return value of `nn_socket(AF_SP, NN_PUSH)` -/
  send_socket : Int
  /-- return value of `nn_setsockopt(.., NN_SNDTIMEO, ..)` -/
  send_setsockopt : Int
  /-- return value of `nn_connect` -/
  connect : Int
  /-- return value of `nn_getsockopt(.., NN_SNDFD, ..)` -/
  send_getsockopt : Int
  /-- descriptor stored in `send.fd` by that call -/
  send_fd : Int
  /-- length stored in `optvallen` by that call -/
  send_optvallen : Nat
  /-- `errno` after the transport call that fails -/
  errno : Int
  /-- the registration send -/
  register : send_env
  /-- the cleanup calls of a failure path -/
  destroy : destroy_env

/-- Outcome of `pcl_init`: result code, the values stored through `object`,
`fd_recv`, `fd_send` and `errsv` (`none`: nothing stored), and the trace. -/
structure init_out where
  result : pcl_result_t
  object : Option pcl_obj_t
  fd_recv : Option Int
  fd_send : Option Int
  errsv : Option Int
  trace : List Event

/-- The session record `pcl_init` fills in before it opens the endpoints
(lines 102-138). -/
def pcl_init_obj (params : Option pcl_params_t) : pcl_obj_t :=
  let service_name : List Nat :=
    match params with
    | none => snprintf_s PCL_SERVICE_NAME_LEN_MAX PCL_SERVICE_NAME_DEFAULT
    | some p => snprintf_s PCL_SERVICE_NAME_LEN_MAX
                  (p.service_name.getD PCL_SERVICE_NAME_DEFAULT)
  { authorized := false
    auth_status := -1
    service_name_len := (strlen service_name : Int)
    service_name := service_name
    url_parodus :=
      match params with
      | none => snprintf_s PCL_URL_LEN_MAX PCL_URL_PARODUS_DEFAULT
      | some p => snprintf_s PCL_URL_LEN_MAX (p.url_parodus.getD PCL_URL_PARODUS_DEFAULT)
    url_client :=
      match params with
      | none => snprintf_s PCL_URL_LEN_MAX PCL_URL_CLIENT_DEFAULT
      | some p => snprintf_s PCL_URL_LEN_MAX (p.url_client.getD PCL_URL_CLIENT_DEFAULT)
    recv :=
      { sock := -1, fd := -1
        timeout :=
          match params with
          | none => PCL_RECV_TIMEOUT_DEFAULT
          | some p => p.timeout_recv.getD PCL_RECV_TIMEOUT_DEFAULT }
    send :=
      { sock := -1, fd := -1
        timeout :=
          match params with
          | none => PCL_SEND_TIMEOUT_DEFAULT
          | some p => p.timeout_send.getD PCL_SEND_TIMEOUT_DEFAULT }
    handler_request :=
      match params with
      | none => pcl_msg_handler_request
      | some p => p.handler_request.getD pcl_msg_handler_request
    handler_event :=
      match params with
      | none => pcl_msg_handler_event
      | some p => p.handler_event.getD pcl_msg_handler_event
    handler_create :=
      match params with
      | none => pcl_msg_handler_create
      | some p => p.handler_create.getD pcl_msg_handler_create
    handler_retrieve :=
      match params with
      | none => pcl_msg_handler_retrieve
      | some p => p.handler_retrieve.getD pcl_msg_handler_retrieve
    handler_update :=
      match params with
      | none => pcl_msg_handler_update
      | some p => p.handler_update.getD pcl_msg_handler_update
    handler_delete :=
      match params with
      | none => pcl_msg_handler_delete
      | some p => p.handler_delete.getD pcl_msg_handler_delete
    handler_alive :=
      match params with
      | none => pcl_msg_handler_alive
      | some p => p.handler_alive.getD pcl_msg_handler_alive }

/-- A failure path of `pcl_init` once the object exists: `*errsv` is set, the
object is destroyed (with a NULL `errsv`) and `code` is returned. -/
def pcl_init_fail (env : init_env) (obj : pcl_obj_t) (errsv : Int) (code : pcl_result_t)
    (trace : List Event) : init_out :=
  { result := code, object := none, fd_recv := none, fd_send := none, errsv := some errsv
    trace := trace ++ (pcl_obj_destroy (some obj) env.destroy).2 }

/-- `pcl_init`.  `object`, `fd_recv`, `fd_send` tell whether the pointer of
that name is non-NULL; `params = none` is a NULL `params`. -/
def pcl_init (object fd_recv fd_send : Bool) (params : Option pcl_params_t)
    (env : init_env) : init_out :=
  if !object then
    { result := PCL_RESULT_ERROR_PARAMS, object := none, fd_recv := none, fd_send := none
      errsv := none, trace := [] }
  else if !env.malloc_ok then
    { result := PCL_RESULT_ERROR_OUT_OF_MEMORY, object := none, fd_recv := none
      fd_send := none, errsv := some 0, trace := [Event.malloc] }
  else
    let obj0 := pcl_init_obj params
    let t0 := [Event.malloc, Event.sem_init 1]
    -- inbound endpoint
    let obj1 : pcl_obj_t := { obj0 with recv := { obj0.recv with sock := env.recv_socket } }
    let t1 := t0 ++ [Event.nn_socket nn_protocol.NN_PULL env.recv_socket]
    if obj1.recv.sock < 0 then
      pcl_init_fail env obj1 env.errno PCL_RESULT_ERROR_SOCK_RECV_CREATE t1
    else
      let obj2 : pcl_obj_t :=
        if obj1.recv.timeout > 0 then
          { obj1 with recv := { obj1.recv with timeout := int32 (obj1.recv.timeout * 1000) } }
        else obj1
      let t2 :=
        if obj1.recv.timeout > 0 then
          t1 ++ [Event.nn_setsockopt obj2.recv.sock nn_option.NN_RCVTIMEO obj2.recv.timeout]
        else t1
      if obj1.recv.timeout > 0 ∧ env.recv_setsockopt < 0 then
        pcl_init_fail env obj2 env.errno PCL_RESULT_ERROR_SOCK_RECV_SETOPT t2
      else
        let t3 := t2 ++ [Event.nn_bind obj2.recv.sock obj2.url_client]
        if env.bind < 0 then
          pcl_init_fail env obj2 env.errno PCL_RESULT_ERROR_SOCK_RECV_BIND t3
        else
          let optvallen : Nat := env.recv_optvallen
          let obj4 : pcl_obj_t := { obj2 with recv := { obj2.recv with fd := env.recv_fd } }
          let t4 := t3 ++ [Event.nn_getsockopt obj2.recv.sock nn_option.NN_RCVFD]
          if env.recv_getsockopt < 0 then
            pcl_init_fail env obj4 env.errno PCL_RESULT_ERROR_SOCK_RECV_GETOPT t4
          else
            -- outbound endpoint
            let obj5 : pcl_obj_t :=
              { obj4 with send := { obj4.send with sock := env.send_socket } }
            let t5 := t4 ++ [Event.nn_socket nn_protocol.NN_PUSH env.send_socket]
            if obj5.send.sock < 0 then
              pcl_init_fail env obj5 env.errno PCL_RESULT_ERROR_SOCK_SEND_CREATE t5
            else
              let t6 := t5 ++
                [Event.nn_setsockopt obj5.send.sock nn_option.NN_SNDTIMEO obj5.send.timeout]
              if env.send_setsockopt < 0 ∨ optvallen ≠ sizeof_int then
                pcl_init_fail env obj5 env.errno PCL_RESULT_ERROR_SOCK_SEND_SETOPT t6
              else
                let t7 := t6 ++ [Event.nn_connect obj5.send.sock obj5.url_parodus]
                if env.connect < 0 then
                  pcl_init_fail env obj5 env.errno PCL_RESULT_ERROR_SOCK_SEND_CONNECT t7
                else
                  let obj8 : pcl_obj_t :=
                    { obj5 with send := { obj5.send with fd := env.send_fd } }
                  let t8 := t7 ++ [Event.nn_getsockopt obj5.send.sock nn_option.NN_SNDFD]
                  if env.send_getsockopt < 0 ∨ env.send_optvallen ≠ sizeof_int then
                    pcl_init_fail env obj8 env.errno PCL_RESULT_ERROR_SOCK_SEND_GETOPT t8
                  else
                    let reg := pcl_register obj8 env.register
                    let t9 := t8 ++ reg.2.2
                    if PCL_RESULT_SUCCESS ≠ reg.1 then
                      pcl_init_fail env obj8 reg.2.1 PCL_RESULT_ERROR_REGISTER t9
                    else
                      { result := PCL_RESULT_SUCCESS
                        object := some obj8
                        fd_recv := if fd_recv then some obj8.recv.fd else none
                        fd_send := if fd_send then some obj8.send.fd else none
                        errsv := some reg.2.1
                        trace := t9 }

/-! ## Vocabulary of the properties -/

/-- The message `pcl_recv` dispatches: the transport delivered a buffer
(`msg_len >= 0`, non-NULL `msg_buf`) and the codec decoded it (result `>= 1`,
non-NULL `msg_wrp`); `none` otherwise. -/
def recv_env.decoded (env : recv_env) : Option wrp_msg_t :=
  if env.msg_len < 0 then none
  else match env.msg_buf with
    | none => none
    | some msg_buf =>
      if (env.wrp_to_struct msg_buf env.msg_len).1 < 1 then none
      else (env.wrp_to_struct msg_buf env.msg_len).2

/-- The handler invocations of a trace, in order. -/
def handler_calls (t : List Event) : List Event := t.filter Event.isHandler

/-- The event is a call of the encoder `wrp_struct_to`. -/
def Event.isEncode : Event → Bool
  | .wrp_struct_to _ => true
  | _ => false

/-- The event is a write to an endpoint (`nn_send`). -/
def Event.isWrite : Event → Bool
  | .nn_send _ _ _ => true
  | _ => false

/-- A call made on a live session. -/
inductive Op
  | recv (env : recv_env)
  | send (msg : Option wrp_msg_t) (env : send_env)

/-- The session after one call. -/
def step (obj : pcl_obj_t) : Op → pcl_obj_t
  | .recv env => (pcl_recv (some obj) env).obj.getD obj
  | .send msg env => (pcl_send (some obj) msg env).obj.getD obj

/-- The session after a sequence of calls. -/
def run (obj : pcl_obj_t) (ops : List Op) : pcl_obj_t := ops.foldl step obj

/-- The status of the AUTH message a call decodes, if it decodes one. -/
def Op.auth_status : Op → Option Int
  | .recv env =>
    match env.decoded with
    | some m => if m.msg_type = wrp_msg_type.AUTH then some m.u.auth.status else none
    | none => none
  | .send _ _ => none

/-- The status of the last AUTH message decoded in a sequence of calls. -/
def last_auth (ops : List Op) : Option Int := (ops.filterMap Op.auth_status).getLast?

/-- A transport double for `pcl_recv` that delivers bytes the codec decodes
to `m`. -/
def recv_env_of (m : wrp_msg_t) : recv_env :=
  { msg_len := 1, msg_buf := some [0], errno := 0,
    wrp_to_struct := fun _ _ => (1, some m) }

/-- An AUTH message with the given status. -/
def auth_msg (status : Int) : wrp_msg_t :=
  { msg_type := wrp_msg_type.AUTH,
    u := { (default : wrp_union) with auth := { status := status } } }

/-- The destination field `pcl_recv` matches for an addressed kind (REQUEST,
EVENT, CREATE, RETRIEVE, UPDATE, DELETE); `none` for every other kind. -/
def addressed_dest (m : wrp_msg_t) : Option (List Nat) :=
  match m.msg_type with
  | .REQ => some m.u.req.dest
  | .EVENT => some m.u.event.dest
  | .CREATE | .RETREIVE | .UPDATE | .DELETE => some m.u.crud.dest
  | _ => none

/-- The invocation of the handler slot bound to the kind of an addressed
message, on that message: the call as it appears in the trace and the result
code the handler gives. -/
def bound_handler (obj : pcl_obj_t) (m : wrp_msg_t) : Option (Event × pcl_result_t) :=
  match m.msg_type with
  | .REQ => some (Event.handler_request m.u.req, obj.handler_request m.u.req)
  | .EVENT => some (Event.handler_event m.u.event, obj.handler_event m.u.event)
  | .CREATE => some (Event.handler_create m.u.crud, obj.handler_create m.u.crud)
  | .RETREIVE => some (Event.handler_retrieve m.u.crud, obj.handler_retrieve m.u.crud)
  | .UPDATE => some (Event.handler_update m.u.crud, obj.handler_update m.u.crud)
  | .DELETE => some (Event.handler_delete m.u.crud, obj.handler_delete m.u.crud)
  | _ => none

/-- The kind is one of the three that `pcl_recv` dispatches without
destination matching. -/
def unaddressed_kind (m : wrp_msg_t) : Bool :=
  match m.msg_type with
  | .AUTH | .SVC_REGISTRATION | .SVC_ALIVE => true
  | _ => false

/-- A REQUEST message with the given destination and payload. -/
def req_msg (dest payload : List Nat) : wrp_msg_t :=
  { msg_type := wrp_msg_type.REQ,
    u := { (default : wrp_union) with req := { dest := dest, payload := payload } } }

/-- A message of kind UNKNOWN. -/
def unknown_msg : wrp_msg_t :=
  { msg_type := wrp_msg_type.UNKNOWN, u := default }

/-- A transport double for `pcl_recv` that delivers bytes the codec rejects. -/
def recv_env_undecodable : recv_env :=
  { msg_len := 3, msg_buf := some [1, 2, 3], errno := 0,
    wrp_to_struct := fun _ _ => (-1, none) }

/-- A session like the default one whose request handler answers with the
code 12 and whose other handlers answer with 13. -/
def obj_custom : pcl_obj_t :=
  { pcl_init_obj none with
    handler_request := fun _ => PCL_RESULT_ERROR_SOCK_RECV_CONTENT
    handler_event := fun _ => PCL_RESULT_ERROR_SOCK_RECV_PAYLOAD
    handler_create := fun _ => PCL_RESULT_ERROR_SOCK_RECV_PAYLOAD
    handler_retrieve := fun _ => PCL_RESULT_ERROR_SOCK_RECV_PAYLOAD
    handler_update := fun _ => PCL_RESULT_ERROR_SOCK_RECV_PAYLOAD
    handler_delete := fun _ => PCL_RESULT_ERROR_SOCK_RECV_PAYLOAD
    handler_alive := fun _ => PCL_RESULT_ERROR_SOCK_RECV_PAYLOAD }

/-- A codec and transport double for one send: the encoder yields the three
bytes `[9, 9, 9]` and the transport accepts `accepted` bytes. -/
def send_env_of (accepted : Int) : send_env :=
  { wrp_struct_to := fun _ => (3, some [9, 9, 9]), nn_send := accepted, errno := 0 }

/-- The event is a successful `nn_socket` call that returns the endpoint
handle `h`. -/
def Event.opens (h : Int) : Event → Bool
  | .nn_socket _ ret => decide (ret = h ∧ 0 ≤ ret)
  | _ => false

/-- The event is an `nn_close` call on the endpoint handle `h`. -/
def Event.closes (h : Int) : Event → Bool
  | .nn_close sock => decide (sock = h)
  | _ => false

/-- How many times the handle `h` is opened in a trace. -/
def opened (h : Int) (t : List Event) : Nat := t.countP (Event.opens h)

/-- How many times the handle `h` is closed in a trace. -/
def closed (h : Int) (t : List Event) : Nat := t.countP (Event.closes h)

/-- Cleanup calls that leave `errno` untouched. -/
def destroy_env_ok : destroy_env :=
  { recv_shutdown := none, recv_close := none, send_shutdown := none, send_close := none,
    sem_destroy := none }

/-- A double for `pcl_init` under which every step succeeds: the inbound
endpoint is handle 3 with descriptor 10, the outbound endpoint is handle 4
with descriptor 11, and the registration message is accepted whole. -/
def init_env_ok : init_env :=
  { malloc_ok := true
    recv_socket := 3, recv_setsockopt := 0, bind := 1
    recv_getsockopt := 0, recv_fd := 10, recv_optvallen := 4
    send_socket := 4, send_setsockopt := 0, connect := 1
    send_getsockopt := 0, send_fd := 11, send_optvallen := 4
    errno := 0
    register := send_env_of 3
    destroy := destroy_env_ok }

/-- The session `pcl_init` returns for NULL `params` under `init_env_ok`. -/
def obj_fresh : pcl_obj_t :=
  { pcl_init_obj none with
    recv := { sock := 3, fd := 10, timeout := 2000 }
    send := { sock := 4, fd := 11, timeout := 2 } }

/-- The event reads or writes `authorized` or `auth_status`. -/
def Event.isAuthAccess : Event → Bool
  | .read_authorized | .write_authorized _ | .write_auth_status _ => true
  | _ => false

/-- The event is a read from or a write to an endpoint (`nn_recv`, `nn_send`). -/
def Event.isEndpointIO : Event → Bool
  | .nn_recv _ | .nn_send _ _ _ => true
  | _ => false

/-- The event is the invocation of one of the seven handlers a caller can
replace (liveness, request, event, create, retrieve, update, delete). -/
def Event.isReplaceableHandler : Event → Bool
  | .handler_alive | .handler_request _ | .handler_event _ | .handler_create _
  | .handler_retrieve _ | .handler_update _ | .handler_delete _ => true
  | _ => false

/-- The events of a trace that satisfy `p` and occur while the guard is held.
`held` is the number of `sem_wait` calls not yet matched by a `sem_post`. -/
def events_held (p : Event → Bool) : Nat → List Event → List Event
  | _, [] => []
  | held, e :: t =>
    match e with
    | .sem_wait => events_held p (held + 1) t
    | .sem_post => events_held p (held - 1) t
    | _ => if p e && decide (0 < held) then e :: events_held p held t
           else events_held p held t

/-- The events of a trace that satisfy `p` and occur while the guard is free. -/
def events_free (p : Event → Bool) : Nat → List Event → List Event
  | _, [] => []
  | held, e :: t =>
    match e with
    | .sem_wait => events_free p (held + 1) t
    | .sem_post => events_free p (held - 1) t
    | _ => if p e && decide (held = 0) then e :: events_free p held t
           else events_free p held t

/-- The state of the guard after a trace that starts with `held` unmatched
acquisitions: `none` when the trace releases a guard that is not held or
waits on the binary semaphore while it holds it. -/
def guard_after : Nat → List Event → Option Nat
  | held, [] => some held
  | held, e :: t =>
    match e with
    | .sem_wait => if held = 0 then guard_after 1 t else none
    | .sem_post => if held = 0 then none else guard_after (held - 1) t
    | _ => guard_after held t

/-- How many times a trace acquires the guard. -/
def acquired (t : List Event) : Nat := t.count Event.sem_wait

/-- How many times a trace releases the guard. -/
def released (t : List Event) : Nat := t.count Event.sem_post

/-- A transport double for `pcl_recv` whose read fails with the given `errno`. -/
def recv_env_failing (errno : Int) : recv_env :=
  { msg_len := -1, msg_buf := none, errno := errno,
    wrp_to_struct := fun _ _ => (-1, none) }

/-- A message of the given kind with default payloads. -/
def msg_of_kind (kind : wrp_msg_type) : wrp_msg_t :=
  { msg_type := kind, u := default }

/-- The session a successful `pcl_init` stores through `object`: the record of
lines 102-138 with the endpoint handles and descriptors the transport
returned and the receive timeout converted to milliseconds. -/
def pcl_init_session (params : Option pcl_params_t) (env : init_env) : pcl_obj_t :=
  { pcl_init_obj params with
    recv :=
      { sock := env.recv_socket, fd := env.recv_fd
        timeout :=
          if (pcl_init_obj params).recv.timeout > 0 then
            int32 ((pcl_init_obj params).recv.timeout * 1000)
          else (pcl_init_obj params).recv.timeout }
    send :=
      { sock := env.send_socket, fd := env.send_fd
        timeout := (pcl_init_obj params).send.timeout } }

/-- A `pcl_params_t` record all of whose fields are NULL. -/
def params_absent : pcl_params_t :=
  { service_name := none, url_parodus := none, url_client := none
    timeout_recv := none, timeout_send := none
    handler_request := none, handler_event := none, handler_create := none
    handler_retrieve := none, handler_update := none, handler_delete := none
    handler_alive := none }

/-- The event is an `nn_setsockopt` call that sets the receive timeout. -/
def Event.isRcvTimeo : Event → Bool
  | .nn_setsockopt _ nn_option.NN_RCVTIMEO _ => true
  | _ => false

/-- The SVC_REGISTRATION message `pcl_register` builds for a session. -/
def registration_msg (obj : pcl_obj_t) : wrp_msg_t :=
  { msg_type := wrp_msg_type.SVC_REGISTRATION
    u := { (default : wrp_union) with
           reg := { service_name := obj.service_name, url := obj.url_client } } }

/-- Parameters that configure only the service name. -/
def params_of_service_name (s : List Nat) : pcl_params_t :=
  { params_absent with service_name := some s }

/-- Parameters that configure only the receive timeout (seconds). -/
def params_of_timeout_recv (t : Int) : pcl_params_t :=
  { params_absent with timeout_recv := some t }

/-- The session `pcl_init` returns under `init_env_ok` when the configured
service name is 70 bytes `'a'`. -/
def obj_name70 : pcl_obj_t :=
  pcl_init_session (some (params_of_service_name (List.replicate 70 97))) init_env_ok

/-- The event is an `nn_setsockopt` call. -/
def Event.isSetsockopt : Event → Bool
  | .nn_setsockopt _ _ _ => true
  | _ => false

/-! ## Result texts (`paroduscl_utils.c`) -/

def PCL_INVALID_STR_LEN : Nat := 24

/-- Decimal digits of `n`, most significant first, in front of `acc`; `fuel`
bounds the number of digits produced. -/
def dec_digits_aux : Nat → Nat → List Nat → List Nat
  | 0, _, acc => acc
  | fuel + 1, n, acc =>
    if n < 10 then (48 + n) :: acc
    else dec_digits_aux fuel (n / 10) ((48 + n % 10) :: acc)

/-- The text `printf` produces for an unsigned decimal number. -/
def dec_digits (n : Nat) : List Nat := dec_digits_aux (n + 1) n []

/-- The text `printf` produces for `%d`. -/
def fmt_d (value : Int) : List Nat :=
  if value < 0 then 45 :: dec_digits value.natAbs else dec_digits value.toNat

/-- `pcl_invalid_return`: the content of the static buffer after
`snprintf(pcl_invalid_str, PCL_INVALID_STR_LEN, "INVALID(%d)", value)`. -/
def pcl_invalid_return (value : Int) : List Nat :=
  snprintf_s PCL_INVALID_STR_LEN (ascii "INVALID(" ++ fmt_d value ++ ascii ")")

/-- `pcl_result_str`. -/
def pcl_result_str (result : pcl_result_t) : List Nat :=
  if result = PCL_RESULT_SUCCESS then ascii "SUCCESS"
  else if result = PCL_RESULT_ERROR_PARAMS then ascii "ERROR_PARAMS"
  else if result = PCL_RESULT_ERROR_OUT_OF_MEMORY then ascii "ERROR_OUT_OF_MEMORY"
  else if result = PCL_RESULT_ERROR_SOCK_RECV_CREATE then ascii "ERROR_SOCK_RECV_CREATE"
  else if result = PCL_RESULT_ERROR_SOCK_RECV_SETOPT then ascii "ERROR_SOCK_RECV_SETOPT"
  else if result = PCL_RESULT_ERROR_SOCK_RECV_GETOPT then ascii "ERROR_SOCK_RECV_GETOPT"
  else if result = PCL_RESULT_ERROR_SOCK_RECV_BIND then ascii "ERROR_SOCK_RECV_BIND"
  else if result = PCL_RESULT_ERROR_SOCK_RECV_TIMEOUT then ascii "ERROR_SOCK_RECV_TIMEOUT"
  else if result = PCL_RESULT_ERROR_SOCK_RECV_READ then ascii "ERROR_SOCK_RECV_READ"
  else if result = PCL_RESULT_ERROR_SOCK_RECV_WRP then ascii "ERROR_SOCK_RECV_WRP"
  else if result = PCL_RESULT_ERROR_SOCK_RECV_SVCNAME then ascii "ERROR_SOCK_RECV_SVCNAME"
  else if result = PCL_RESULT_ERROR_SOCK_RECV_MSGTYPE then ascii "ERROR_SOCK_RECV_MSGTYPE"
  else if result = PCL_RESULT_ERROR_SOCK_RECV_CONTENT then ascii "ERROR_SOCK_RECV_CONTENT"
  else if result = PCL_RESULT_ERROR_SOCK_RECV_PAYLOAD then ascii "ERROR_SOCK_RECV_PAYLOAD"
  else if result = PCL_RESULT_ERROR_SOCK_SEND_CREATE then ascii "ERROR_SOCK_SEND_CREATE"
  else if result = PCL_RESULT_ERROR_SOCK_SEND_SETOPT then ascii "ERROR_SOCK_SEND_SETOPT"
  else if result = PCL_RESULT_ERROR_SOCK_SEND_GETOPT then ascii "ERROR_SOCK_SEND_GETOPT"
  else if result = PCL_RESULT_ERROR_SOCK_SEND_CONNECT then ascii "ERROR_SOCK_SEND_CONNECT"
  else if result = PCL_RESULT_ERROR_SOCK_SEND_WRP then ascii "ERROR_SOCK_SEND_WRP"
  else if result = PCL_RESULT_ERROR_SOCK_SEND_WRITE then ascii "ERROR_SOCK_SEND_WRITE"
  else if result = PCL_RESULT_ERROR_SOCK_SEND_PARTIAL then ascii "ERROR_SOCK_SEND_PARTIAL"
  else if result = PCL_RESULT_ERROR_SOCK_SEND_AUTH then ascii "ERROR_SOCK_SEND_AUTH"
  else if result = PCL_RESULT_ERROR_REGISTER then ascii "ERROR_REGISTER"
  else if result = PCL_RESULT_ERROR_INTERNAL then ascii "ERROR_INTERNAL"
  else if result = PCL_RESULT_INVALID then ascii "INVALID"
  else pcl_invalid_return result

/-- The identifiers of the enum `pcl_result_t` in the order of their codes
0..24, without the prefix `PCL_RESULT_`. -/
def pcl_result_names : List (List Nat) :=
  [ascii "SUCCESS",
   ascii "ERROR_PARAMS",
   ascii "ERROR_OUT_OF_MEMORY",
   ascii "ERROR_SOCK_RECV_CREATE",
   ascii "ERROR_SOCK_RECV_SETOPT",
   ascii "ERROR_SOCK_RECV_GETOPT",
   ascii "ERROR_SOCK_RECV_BIND",
   ascii "ERROR_SOCK_RECV_TIMEOUT",
   ascii "ERROR_SOCK_RECV_READ",
   ascii "ERROR_SOCK_RECV_WRP",
   ascii "ERROR_SOCK_RECV_SVCNAME",
   ascii "ERROR_SOCK_RECV_MSGTYPE",
   ascii "ERROR_SOCK_RECV_CONTENT",
   ascii "ERROR_SOCK_RECV_PAYLOAD",
   ascii "ERROR_SOCK_SEND_CREATE",
   ascii "ERROR_SOCK_SEND_SETOPT",
   ascii "ERROR_SOCK_SEND_GETOPT",
   ascii "ERROR_SOCK_SEND_CONNECT",
   ascii "ERROR_SOCK_SEND_WRP",
   ascii "ERROR_SOCK_SEND_WRITE",
   ascii "ERROR_SOCK_SEND_PARTIAL",
   ascii "ERROR_SOCK_SEND_AUTH",
   ascii "ERROR_REGISTER",
   ascii "ERROR_INTERNAL",
   ascii "INVALID"]

/-- The number a decimal text denotes, after the digits already read as `v`. -/
def dec_value (v : Nat) (l : List Nat) : Nat := l.foldl (fun v c => v * 10 + (c - 48)) v

/-- The integer a `%d` text denotes. -/
def fmt_value : List Nat → Int
  | 45 :: t => -(dec_value 0 t : Int)
  | l => (dec_value 0 l : Int)

/-- The event is an `nn_setsockopt` call that sets the send timeout. -/
def Event.isSndTimeo : Event → Bool
  | .nn_setsockopt _ nn_option.NN_SNDTIMEO _ => true
  | _ => false

/-- Parameters that configure the receive and the send timeout (seconds). -/
def params_of_timeouts (recv send : Int) : pcl_params_t :=
  { params_absent with timeout_recv := some recv, timeout_send := some send }

/-- The fields of a session other than `authorized` and `auth_status` are the
same in `a` and `b`: service name and its length, the two addresses, the two
endpoint records (handle, descriptor, timeout) and the seven handler slots. -/
def same_configuration (a b : pcl_obj_t) : Prop :=
  a.service_name = b.service_name ∧ a.service_name_len = b.service_name_len ∧
  a.url_parodus = b.url_parodus ∧ a.url_client = b.url_client ∧
  a.recv = b.recv ∧ a.send = b.send ∧
  a.handler_request = b.handler_request ∧ a.handler_event = b.handler_event ∧
  a.handler_create = b.handler_create ∧ a.handler_retrieve = b.handler_retrieve ∧
  a.handler_update = b.handler_update ∧ a.handler_delete = b.handler_delete ∧
  a.handler_alive = b.handler_alive

/-! ## Bytes read by destination matching -/

/-- `strncmp` together with the number `k` of byte positions it compares: it
reads `a[0..k-1]` and `b[0..k-1]`. -/
def strncmp_traced (a b : List Nat) : Nat → Int × Nat
  | 0 => (0, 0)
  | n + 1 =>
    if a.headD 0 ≠ b.headD 0 then ((a.headD 0 : Int) - (b.headD 0 : Int), 1)
    else if a.headD 0 = 0 then (0, 1)
    else ((strncmp_traced a.tail b.tail n).1, (strncmp_traced a.tail b.tail n).2 + 1)

/-- `strchr` together with the number `k` of bytes it reads: `s[0..k-1]`. -/
def strchr_traced : List Nat → Nat → Option (List Nat) × Nat
  | [], c => (if c = 0 then some [] else none, 1)
  | x :: xs, c =>
    if x = c then (some (x :: xs), 1)
    else if x = 0 then (none, 1)
    else ((strchr_traced xs c).1, (strchr_traced xs c).2 + 1)

/-- Result of `pcl_service_name_match` with the indices of `dest` it reads. -/
structure match_reads where
  /-- the value returned -/
  result : Bool
  /-- every index of `dest` read, in order -/
  reads : List Nat
  /-- the index read by `service[obj->service_name_len]`, when that
  expression is evaluated -/
  end_read : Option Nat

/-- `pcl_service_name_match`, recording the indices of `dest` that are read:
by `strncmp("mac:", dest, 4)`, by `strchr(dest, '/')`, by
`strncmp(service, obj->service_name, obj->service_name_len)` and by
`service[obj->service_name_len]`, where `service` points `off` bytes into
`dest`. -/
def pcl_service_name_match_traced (obj : pcl_obj_t) (dest : List Nat) : match_reads :=
  let c1 := strncmp_traced (ascii "mac:") dest 4
  let r1 := List.range c1.2
  if c1.1 = 0 then
    let s := strchr_traced dest 47
    let r2 := List.range s.2
    match s.1 with
    | none => { result := false, reads := r1 ++ r2, end_read := none }
    | some slash =>
      let off := dest.length - slash.length + 1
      let service := slash.tail
      let c2 := strncmp_traced service obj.service_name (size_t_of_int obj.service_name_len)
      let r3 := (List.range c2.2).map (fun j => off + j)
      if c2.1 = 0 then
        let i := off + obj.service_name_len.toNat
        let c := service.getD obj.service_name_len.toNat 0
        { result := if c = 47 ∨ c = 63 ∨ c = 35 ∨ c = 0 then true else false
          reads := r1 ++ r2 ++ r3 ++ [i], end_read := some i }
      else { result := false, reads := r1 ++ r2 ++ r3, end_read := none }
  else { result := false, reads := r1, end_read := none }

/-- Parameters that configure the service name "config", a receive timeout of
5 seconds and a request handler that answers with the code 12, and leave
every other field NULL. -/
def params_custom : pcl_params_t :=
  { params_absent with
    service_name := some (ascii "config")
    timeout_recv := some 5
    handler_request := some fun _ => PCL_RESULT_ERROR_SOCK_RECV_CONTENT }

/-! # Theorems -/

/-! ## Lemmas on C strings -/

theorem strlen_of_not_mem (s : List Nat) (h : 0 ∉ s) : strlen s = s.length := by
  induction s with
  | nil => rfl
  | cons c cs ih =>
    simp only [List.mem_cons, not_or] at h
    have hc : c ≠ 0 := fun e => h.1 e.symm
    simp [strlen, hc, ih h.2]

theorem strncmp_prefix_right (b : List Nat) (hb : 0 ∉ b) :
    ∀ a : List Nat, strncmp a b b.length = 0 ↔ b <+: a := by
  induction b with
  | nil => intro a; simp [strncmp]
  | cons y ys ih =>
    intro a
    simp only [List.mem_cons, not_or] at hb
    have hy : y ≠ 0 := fun e => hb.1 e.symm
    cases a with
    | nil =>
      have : (0 : Nat) ≠ y := fun e => hy e.symm
      simp [strncmp, this, hy]
    | cons x xs =>
      by_cases hxy : x = y
      · subst hxy
        simp [strncmp, hy, ih hb.2 xs, List.cons_prefix_cons]
      · have hne : (x : Int) - (y : Int) ≠ 0 := by
          intro h
          exact hxy (by omega)
        have hyx : ¬ y = x := fun e => hxy e.symm
        simp [strncmp, hxy, hyx, hne, List.cons_prefix_cons]

theorem strncmp_prefix_left (a : List Nat) (ha : 0 ∉ a) :
    ∀ b : List Nat, strncmp a b a.length = 0 ↔ a <+: b := by
  induction a with
  | nil => intro b; simp [strncmp]
  | cons x xs ih =>
    intro b
    simp only [List.mem_cons, not_or] at ha
    have hx : x ≠ 0 := fun e => ha.1 e.symm
    cases b with
    | nil =>
      simp [strncmp, hx]
    | cons y ys =>
      by_cases hxy : x = y
      · subst hxy
        simp [strncmp, hx, ih ha.2 ys, List.cons_prefix_cons]
      · have hne : (x : Int) - (y : Int) ≠ 0 := by
          intro h
          exact hxy (by omega)
        simp [strncmp, hxy, hne, List.cons_prefix_cons]

theorem strchr_eq_some (c : Nat) (hc : c ≠ 0) :
    ∀ (d s : List Nat), strchr d c = some s →
      ∃ pre t, d = pre ++ c :: t ∧ s = c :: t ∧ c ∉ pre := by
  intro d
  induction d with
  | nil => intro s h; simp [strchr, hc] at h
  | cons x xs ih =>
    intro s h
    by_cases hx : x = c
    · subst hx
      simp [strchr] at h
      exact ⟨[], xs, by simp, h.symm, by simp⟩
    · by_cases h0 : x = 0
      · subst h0
        simp [strchr] at h
        exact absurd h.1.symm hc
      · simp [strchr, hx, h0] at h
        obtain ⟨pre, t, h1, h2, h3⟩ := ih s h
        refine ⟨x :: pre, t, by simp [h1], h2, ?_⟩
        simp only [List.mem_cons, not_or]
        exact ⟨fun e => hx e.symm, h3⟩

theorem strchr_append (c : Nat) (t : List Nat) :
    ∀ pre : List Nat, c ∉ pre → 0 ∉ pre → strchr (pre ++ c :: t) c = some (c :: t) := by
  intro pre
  induction pre with
  | nil => intro _ _; simp [strchr]
  | cons x xs ih =>
    intro h1 h2
    simp only [List.mem_cons, not_or] at h1 h2
    have hx : x ≠ c := fun e => h1.1 e.symm
    have h0 : x ≠ 0 := fun e => h2.1 e.symm
    simp [strchr, hx, h0, ih h1.2 h2.2]

theorem size_t_of_int_length (n : List Nat) (h : n.length < PCL_SERVICE_NAME_LEN_MAX) :
    size_t_of_int (n.length : Int) = n.length := by
  unfold PCL_SERVICE_NAME_LEN_MAX at h
  unfold size_t_of_int
  omega

theorem getD_append_length (n tail : List Nat) :
    (n ++ tail).getD n.length 0 = tail.headD 0 := by
  induction n with
  | nil => cases tail <;> simp
  | cons x xs ih => simpa using ih

theorem pcl_service_name_match_general (obj : pcl_obj_t) (d : List Nat)
    (hd : 0 ∉ d) (hn : 0 ∉ obj.service_name)
    (hlen : obj.service_name_len = (obj.service_name.length : Int))
    (hmax : obj.service_name.length < PCL_SERVICE_NAME_LEN_MAX) :
    pcl_service_name_match obj d = true ↔
      (ascii "mac:" <+: d ∧
        ∃ pre tail, d = pre ++ 47 :: (obj.service_name ++ tail) ∧ 47 ∉ pre ∧
          (tail.head? = none ∨ tail.head? = some 47 ∨ tail.head? = some 63 ∨
            tail.head? = some 35)) := by
  have hmac : (0 : Nat) ∉ ascii "mac:" := by decide
  have h4 : (ascii "mac:").length = 4 := by decide
  have hpre := strncmp_prefix_left (ascii "mac:") hmac d
  rw [h4] at hpre
  constructor
  · intro h
    unfold pcl_service_name_match at h
    by_cases hm : strncmp (ascii "mac:") d 4 = 0
    · rw [if_pos hm] at h
      refine ⟨hpre.1 hm, ?_⟩
      cases hs : strchr d 47 with
      | none => rw [hs] at h; simp at h
      | some slash =>
        rw [hs] at h
        obtain ⟨pre, t, hd1, hs1, hpre1⟩ := strchr_eq_some 47 (by decide) d slash hs
        subst hs1
        simp only [List.tail_cons] at h
        rw [hlen, size_t_of_int_length _ hmax] at h
        by_cases hc : strncmp t obj.service_name obj.service_name.length = 0
        · rw [if_pos hc] at h
          obtain ⟨tail, ht⟩ := (strncmp_prefix_right _ hn t).1 hc
          subst ht
          refine ⟨pre, tail, hd1, hpre1, ?_⟩
          simp only [Int.toNat_ofNat, getD_append_length] at h
          cases tail with
          | nil => simp
          | cons c cs =>
            have hc0 : c ≠ 0 := by
              intro e
              apply hd
              rw [hd1, e]
              simp
            simp [hc0] at h
            simpa using h
        · rw [if_neg hc] at h; simp at h
    · rw [if_neg hm] at h; simp at h
  · rintro ⟨hp, pre, tail, hd1, hpre1, htail⟩
    have h0pre : 0 ∉ pre := by
      intro e
      apply hd
      rw [hd1]
      simp [e]
    unfold pcl_service_name_match
    rw [if_pos (hpre.2 hp), hd1, strchr_append 47 _ pre hpre1 h0pre]
    simp only [List.tail_cons]
    rw [hlen, size_t_of_int_length _ hmax,
      if_pos ((strncmp_prefix_right _ hn _).2 (List.prefix_append _ _))]
    simp only [Int.toNat_ofNat, getD_append_length]
    cases tail with
    | nil => simp
    | cons c cs =>
      have hc : c = 47 ∨ c = 63 ∨ c = 35 := by simpa using htail
      have : c = 47 ∨ c = 63 ∨ c = 35 ∨ c = 0 := by omega
      simpa using this

/-! # Destination matching -/

/-- C1: for a NUL-free destination `d` and a session whose stored service name
`n` is NUL-free, shorter than its 64-byte buffer and of length
`service_name_len`, `pcl_service_name_match` returns true exactly when `d`
begins with "mac:" and `d` is `pre ++ '/' :: n ++ tail` with no '/' in `pre`
(so this is the first '/') and `tail` empty or starting with '/', '?' or '#';
with the five concrete cases for the name "iot". -/
theorem pcl_service_name_match_iff :
    (∀ (obj : pcl_obj_t) (d : List Nat), 0 ∉ d → 0 ∉ obj.service_name →
      obj.service_name_len = (obj.service_name.length : Int) →
      obj.service_name.length < PCL_SERVICE_NAME_LEN_MAX →
      (pcl_service_name_match obj d = true ↔
        (ascii "mac:" <+: d ∧
          ∃ pre tail, d = pre ++ 47 :: (obj.service_name ++ tail) ∧ 47 ∉ pre ∧
            (tail.head? = none ∨ tail.head? = some 47 ∨ tail.head? = some 63 ∨
              tail.head? = some 35)))) ∧
    (pcl_init_obj none).service_name = ascii "iot" ∧
    pcl_service_name_match (pcl_init_obj none) (ascii "mac:AABBCCDDEEFF/iot") = true ∧
    pcl_service_name_match (pcl_init_obj none) (ascii "mac:AABBCCDDEEFF/iot?x=1") = true ∧
    pcl_service_name_match (pcl_init_obj none) (ascii "mac:AABBCCDDEEFF/iot2") = false ∧
    pcl_service_name_match (pcl_init_obj none) (ascii "foo:AABBCCDDEEFF/iot") = false ∧
    pcl_service_name_match (pcl_init_obj none) (ascii "mac:AABBCCDDEEFF") = false :=
  ⟨pcl_service_name_match_general, by decide, by decide, by decide, by decide, by decide,
    by decide⟩

/-- Witness of C1: the characterisation applied to the default session and the
destination "mac:AABBCCDDEEFF/iot/cfg". -/
theorem pcl_service_name_match_iff_witness :
    (0 ∉ ascii "mac:AABBCCDDEEFF/iot/cfg") ∧ (0 ∉ (pcl_init_obj none).service_name) ∧
    (pcl_init_obj none).service_name_len = ((pcl_init_obj none).service_name.length : Int) ∧
    (pcl_init_obj none).service_name.length < PCL_SERVICE_NAME_LEN_MAX ∧
    (pcl_service_name_match (pcl_init_obj none) (ascii "mac:AABBCCDDEEFF/iot/cfg") = true ↔
      (ascii "mac:" <+: ascii "mac:AABBCCDDEEFF/iot/cfg" ∧
        ∃ pre tail, ascii "mac:AABBCCDDEEFF/iot/cfg" =
            pre ++ 47 :: ((pcl_init_obj none).service_name ++ tail) ∧ 47 ∉ pre ∧
          (tail.head? = none ∨ tail.head? = some 47 ∨ tail.head? = some 63 ∨
            tail.head? = some 35))) :=
  ⟨by decide, by decide, by decide, by decide,
    pcl_service_name_match_iff.1 (pcl_init_obj none) (ascii "mac:AABBCCDDEEFF/iot/cfg")
      (by decide) (by decide) (by decide) (by decide)⟩

/-! # Receive and dispatch -/

theorem pcl_recv_decoded (obj : pcl_obj_t) (env : recv_env) (m : wrp_msg_t)
    (h : env.decoded = some m) :
    pcl_recv (some obj) env =
      { result := (pcl_recv_switch obj m).result
        obj := some (pcl_recv_switch obj m).obj
        errsv := 0
        trace := [Event.sem_wait, Event.nn_recv obj.recv.sock, Event.wrp_to_struct,
                  Event.nn_freemsg, Event.sem_post] ++ (pcl_recv_switch obj m).trace ++
                  [Event.wrp_free_struct] } := by
  unfold recv_env.decoded at h
  unfold pcl_recv
  by_cases h1 : env.msg_len < 0
  · simp [h1] at h
  · cases hb : env.msg_buf with
    | none => simp [h1, hb] at h
    | some buf =>
      simp only [h1, hb, if_false] at h
      by_cases h2 : (env.wrp_to_struct buf env.msg_len).1 < 1
      · simp [h2] at h
      · simp only [h2, if_false] at h
        simp [h1, h2, h]

theorem pcl_recv_not_decoded (obj : pcl_obj_t) (env : recv_env)
    (h : env.decoded = none) :
    (pcl_recv (some obj) env).obj = some obj ∧
      handler_calls (pcl_recv (some obj) env).trace = [] := by
  unfold recv_env.decoded at h
  unfold pcl_recv
  by_cases h1 : env.msg_len < 0
  · by_cases he : env.errno = ETIMEDOUT <;> simp [h1, he, handler_calls, Event.isHandler]
  · cases hb : env.msg_buf with
    | none =>
      by_cases he : env.errno = ETIMEDOUT <;> simp [h1, he, handler_calls, Event.isHandler]
    | some buf =>
      simp only [h1, hb, if_false] at h
      by_cases h2 : (env.wrp_to_struct buf env.msg_len).1 < 1
      · simp [h1, h2, handler_calls, Event.isHandler]
      · simp only [h2, if_false] at h
        simp [h1, h2, h, handler_calls, Event.isHandler]

theorem pcl_msg_handler_auth_obj (obj : pcl_obj_t) (msg : wrp_auth_msg) :
    (pcl_msg_handler_auth obj msg).obj =
      { obj with authorized := decide (msg.status = 200), auth_status := msg.status } := by
  unfold pcl_msg_handler_auth
  by_cases hs : msg.status = 200 <;> simp [hs]

theorem pcl_recv_switch_auth (obj : pcl_obj_t) (m : wrp_msg_t)
    (hty : m.msg_type = wrp_msg_type.AUTH) :
    pcl_recv_switch obj m =
      { obj := (pcl_msg_handler_auth obj m.u.auth).obj, result := PCL_RESULT_SUCCESS,
        trace := Event.handler_auth m.u.auth :: (pcl_msg_handler_auth obj m.u.auth).trace } := by
  unfold pcl_recv_switch
  rw [hty]
  rfl

theorem pcl_recv_auth_obj (obj : pcl_obj_t) (env : recv_env) (m : wrp_msg_t)
    (hdec : env.decoded = some m) (hty : m.msg_type = wrp_msg_type.AUTH) :
    (pcl_recv (some obj) env).obj =
      some { obj with authorized := decide (m.u.auth.status = 200),
                      auth_status := m.u.auth.status } := by
  rw [pcl_recv_decoded obj env m hdec, pcl_recv_switch_auth obj m hty,
    pcl_msg_handler_auth_obj]

/-- C2: a decoded AUTH message with status `s` makes `pcl_recv` return SUCCESS
and leaves `authorized = (s = 200)` and `auth_status = s` with every other
field of the session as it was, whatever the two fields held before (the same
holds of `pcl_msg_handler_auth` itself); delivering the message a second time
gives the same session as delivering it once. -/
theorem pcl_recv_auth_overwrites (obj : pcl_obj_t) (env : recv_env) (m : wrp_msg_t)
    (hdec : env.decoded = some m) (hty : m.msg_type = wrp_msg_type.AUTH) :
    (pcl_msg_handler_auth obj m.u.auth).result = PCL_RESULT_SUCCESS ∧
    (pcl_msg_handler_auth obj m.u.auth).obj =
      { obj with authorized := decide (m.u.auth.status = 200),
                 auth_status := m.u.auth.status } ∧
    (pcl_recv (some obj) env).result = PCL_RESULT_SUCCESS ∧
    (pcl_recv (some obj) env).obj =
      some { obj with authorized := decide (m.u.auth.status = 200),
                      auth_status := m.u.auth.status } ∧
    handler_calls (pcl_recv (some obj) env).trace = [Event.handler_auth m.u.auth] ∧
    (pcl_recv (pcl_recv (some obj) env).obj env).obj = (pcl_recv (some obj) env).obj := by
  have hh := pcl_msg_handler_auth_obj obj m.u.auth
  have hsw : ∀ o : pcl_obj_t, pcl_recv_switch o m =
      { obj := (pcl_msg_handler_auth o m.u.auth).obj, result := PCL_RESULT_SUCCESS,
        trace := Event.handler_auth m.u.auth :: (pcl_msg_handler_auth o m.u.auth).trace } :=
    fun o => pcl_recv_switch_auth o m hty
  refine ⟨rfl, hh, ?_, ?_, ?_, ?_⟩
  · rw [pcl_recv_decoded obj env m hdec, hsw]
  · rw [pcl_recv_decoded obj env m hdec, hsw, hh]
  · rw [pcl_recv_decoded obj env m hdec, hsw]
    simp [handler_calls, Event.isHandler, pcl_msg_handler_auth]
  · rw [pcl_recv_decoded obj env m hdec, hsw, hh]
    simp only
    rw [pcl_recv_decoded _ env m hdec, hsw]
    simp only
    unfold pcl_msg_handler_auth
    by_cases hs : m.u.auth.status = 200 <;> simp [hs]

/-- Witness of C2: an AUTH message with status 403 delivered to the default
session. -/
theorem pcl_recv_auth_overwrites_witness :
    (recv_env_of (auth_msg 403)).decoded = some (auth_msg 403) ∧
    (auth_msg 403).msg_type = wrp_msg_type.AUTH ∧
    (pcl_recv (some (pcl_init_obj none)) (recv_env_of (auth_msg 403))).result
      = PCL_RESULT_SUCCESS ∧
    ((pcl_recv (some (pcl_init_obj none)) (recv_env_of (auth_msg 403))).obj.map
      fun o => (o.authorized, o.auth_status)) = some (false, 403) :=
  ⟨rfl, rfl,
    (pcl_recv_auth_overwrites (pcl_init_obj none) (recv_env_of (auth_msg 403))
      (auth_msg 403) rfl rfl).2.2.1,
    by rw [(pcl_recv_auth_overwrites (pcl_init_obj none) (recv_env_of (auth_msg 403))
      (auth_msg 403) rfl rfl).2.2.2.1]; rfl⟩

/-- C4: for a decoded message of an addressed kind (REQUEST, EVENT, CREATE,
RETRIEVE, UPDATE, DELETE) with destination `d`: when `d` does not match the
session's service name `pcl_recv` returns ERROR_SOCK_RECV_SVCNAME and invokes
no handler; when it matches, the handler invocations of the call are exactly
the one call of the slot bound to the message's kind on that message, and the
result of `pcl_recv` is the code that handler returns. -/
theorem pcl_recv_addressed (obj : pcl_obj_t) (env : recv_env) (m : wrp_msg_t)
    (d : List Nat) (hdec : env.decoded = some m) (hd : addressed_dest m = some d) :
    (pcl_service_name_match obj d = false →
      (pcl_recv (some obj) env).result = PCL_RESULT_ERROR_SOCK_RECV_SVCNAME ∧
      handler_calls (pcl_recv (some obj) env).trace = []) ∧
    (pcl_service_name_match obj d = true →
      ∃ call code, bound_handler obj m = some (call, code) ∧
        handler_calls (pcl_recv (some obj) env).trace = [call] ∧
        (pcl_recv (some obj) env).result = code) := by
  rw [pcl_recv_decoded obj env m hdec]
  unfold addressed_dest at hd
  unfold bound_handler pcl_recv_switch
  constructor
  · intro hm
    split at hd <;> simp_all [handler_calls, Event.isHandler]
  · intro hm
    split at hd <;> simp_all [handler_calls, Event.isHandler]

/-- Witness of C4: a REQUEST for "mac:AABBCCDDEEFF/iot" delivered to a session
named "iot" whose request handler returns the code 12. -/
theorem pcl_recv_addressed_witness :
    (recv_env_of (req_msg (ascii "mac:AABBCCDDEEFF/iot") [7])).decoded
      = some (req_msg (ascii "mac:AABBCCDDEEFF/iot") [7]) ∧
    addressed_dest (req_msg (ascii "mac:AABBCCDDEEFF/iot") [7])
      = some (ascii "mac:AABBCCDDEEFF/iot") ∧
    pcl_service_name_match obj_custom (ascii "mac:AABBCCDDEEFF/iot") = true ∧
    ∃ call code,
      bound_handler obj_custom (req_msg (ascii "mac:AABBCCDDEEFF/iot") [7])
        = some (call, code) ∧
      handler_calls (pcl_recv (some obj_custom)
        (recv_env_of (req_msg (ascii "mac:AABBCCDDEEFF/iot") [7]))).trace = [call] ∧
      (pcl_recv (some obj_custom)
        (recv_env_of (req_msg (ascii "mac:AABBCCDDEEFF/iot") [7]))).result = code :=
  ⟨rfl, rfl, by decide,
    (pcl_recv_addressed obj_custom (recv_env_of (req_msg (ascii "mac:AABBCCDDEEFF/iot") [7]))
      (req_msg (ascii "mac:AABBCCDDEEFF/iot") [7]) (ascii "mac:AABBCCDDEEFF/iot")
      rfl rfl).2 (by decide)⟩

/-- C10: when the transport delivers a buffer and the codec fails on it (it
returns less than 1 or leaves the message NULL), `pcl_recv` returns
ERROR_SOCK_RECV_WRP, invokes no handler and leaves the session, `authorized`
and `auth_status` included, as it was. -/
theorem pcl_recv_decode_failure (obj : pcl_obj_t) (env : recv_env) (buf : List Nat)
    (hlen : 0 ≤ env.msg_len) (hbuf : env.msg_buf = some buf)
    (hdec : (env.wrp_to_struct buf env.msg_len).1 < 1 ∨
      (env.wrp_to_struct buf env.msg_len).2 = none) :
    (pcl_recv (some obj) env).result = PCL_RESULT_ERROR_SOCK_RECV_WRP ∧
    handler_calls (pcl_recv (some obj) env).trace = [] ∧
    (pcl_recv (some obj) env).obj = some obj ∧
    ((pcl_recv (some obj) env).obj.map fun o => (o.authorized, o.auth_status))
      = some (obj.authorized, obj.auth_status) := by
  have h1 : ¬ env.msg_len < 0 := by omega
  unfold pcl_recv
  by_cases h2 : (env.wrp_to_struct buf env.msg_len).1 < 1
  · simp [h1, hbuf, h2, handler_calls, Event.isHandler]
  · have h3 : (env.wrp_to_struct buf env.msg_len).2 = none := by
      cases hdec with
      | inl h => exact absurd h h2
      | inr h => exact h
    simp [h1, hbuf, h2, h3, handler_calls, Event.isHandler]

/-- Witness of C10: three bytes the codec rejects, delivered to a session that
is authorized. -/
theorem pcl_recv_decode_failure_witness :
    (0 : Int) ≤ recv_env_undecodable.msg_len ∧
    recv_env_undecodable.msg_buf = some [1, 2, 3] ∧
    (pcl_recv (some { pcl_init_obj none with authorized := true, auth_status := 200 })
      recv_env_undecodable).result = PCL_RESULT_ERROR_SOCK_RECV_WRP ∧
    ((pcl_recv (some { pcl_init_obj none with authorized := true, auth_status := 200 })
      recv_env_undecodable).obj.map fun o => (o.authorized, o.auth_status))
      = some (true, 200) :=
  ⟨by decide, rfl,
    (pcl_recv_decode_failure { pcl_init_obj none with authorized := true, auth_status := 200 }
      recv_env_undecodable [1, 2, 3] (by decide) rfl (Or.inl (by decide))).1,
    (pcl_recv_decode_failure { pcl_init_obj none with authorized := true, auth_status := 200 }
      recv_env_undecodable [1, 2, 3] (by decide) rfl (Or.inl (by decide))).2.2.2⟩

/-- C5, counterexample: the default session receives bytes that decode to a
message of kind UNKNOWN.  Decoding succeeded and the message is not an
addressed message dropped by destination mismatch, yet no handler is invoked
(the call returns ERROR_SOCK_RECV_MSGTYPE). -/
theorem pcl_recv_unknown_kind_no_handler :
    (recv_env_of unknown_msg).decoded = some unknown_msg ∧
    (pcl_recv (some (pcl_init_obj none)) (recv_env_of unknown_msg)).result
      = PCL_RESULT_ERROR_SOCK_RECV_MSGTYPE ∧
    ¬ ((handler_calls
          (pcl_recv (some (pcl_init_obj none)) (recv_env_of unknown_msg)).trace).length = 1 ∨
       ((handler_calls
          (pcl_recv (some (pcl_init_obj none)) (recv_env_of unknown_msg)).trace).length = 0 ∧
        ∃ d, addressed_dest unknown_msg = some d ∧
          pcl_service_name_match (pcl_init_obj none) d = false)) := by
  refine ⟨rfl, by decide, ?_⟩
  rintro (h | ⟨_, d, hd, _⟩)
  · revert h; decide
  · simp [addressed_dest, unknown_msg] at hd

/-- C5, amended: no `pcl_recv` call invokes more than one handler; a call that
decodes a message invokes no handler when the message is of an addressed kind
and its destination does not match, or when its kind is none of the nine
dispatched kinds (UNKNOWN or any other value), and exactly one handler in
every other case.  The kind is none of the nine dispatched kinds exactly when
it is UNKNOWN or another value, and `pcl_recv` then returns
ERROR_SOCK_RECV_MSGTYPE; on a destination mismatch it returns
ERROR_SOCK_RECV_SVCNAME. -/
theorem pcl_recv_handler_count (object : Option pcl_obj_t) (env : recv_env) :
    (handler_calls (pcl_recv object env).trace).length ≤ 1 ∧
    ∀ obj m, object = some obj → env.decoded = some m →
      (((∃ d, addressed_dest m = some d ∧ pcl_service_name_match obj d = false) ∨
          (unaddressed_kind m = false ∧ addressed_dest m = none)) →
        (handler_calls (pcl_recv object env).trace).length = 0) ∧
      (¬ ((∃ d, addressed_dest m = some d ∧ pcl_service_name_match obj d = false) ∨
          (unaddressed_kind m = false ∧ addressed_dest m = none)) →
        (handler_calls (pcl_recv object env).trace).length = 1) ∧
      ((unaddressed_kind m = false ∧ addressed_dest m = none) ↔
        (m.msg_type = wrp_msg_type.UNKNOWN ∨ ∃ v, m.msg_type = wrp_msg_type.other v)) ∧
      ((m.msg_type = wrp_msg_type.UNKNOWN ∨ ∃ v, m.msg_type = wrp_msg_type.other v) →
        (pcl_recv object env).result = PCL_RESULT_ERROR_SOCK_RECV_MSGTYPE) ∧
      ((∃ d, addressed_dest m = some d ∧ pcl_service_name_match obj d = false) →
        (pcl_recv object env).result = PCL_RESULT_ERROR_SOCK_RECV_SVCNAME) := by
  have key : ∀ (obj : pcl_obj_t) (m : wrp_msg_t),
      (handler_calls (pcl_recv_switch obj m).trace).length ≤ 1 ∧
      ((((∃ d, addressed_dest m = some d ∧ pcl_service_name_match obj d = false) ∨
          (unaddressed_kind m = false ∧ addressed_dest m = none)) →
        (handler_calls (pcl_recv_switch obj m).trace).length = 0) ∧
      (¬ ((∃ d, addressed_dest m = some d ∧ pcl_service_name_match obj d = false) ∨
          (unaddressed_kind m = false ∧ addressed_dest m = none)) →
        (handler_calls (pcl_recv_switch obj m).trace).length = 1)) := by
    intro obj m
    rcases m with ⟨ty, u⟩
    cases ty <;>
      simp [pcl_recv_switch, addressed_dest, unaddressed_kind, handler_calls,
        Event.isHandler, pcl_msg_handler_auth, pcl_msg_handler_register] <;>
      split <;> simp_all [List.filter, Event.isHandler]
  have kinds : ∀ (m : wrp_msg_t),
      (unaddressed_kind m = false ∧ addressed_dest m = none) ↔
        (m.msg_type = wrp_msg_type.UNKNOWN ∨ ∃ v, m.msg_type = wrp_msg_type.other v) := by
    intro m
    rcases m with ⟨ty, u⟩
    cases ty <;> simp [addressed_dest, unaddressed_kind]
  have code : ∀ (obj : pcl_obj_t) (m : wrp_msg_t),
      ((m.msg_type = wrp_msg_type.UNKNOWN ∨ ∃ v, m.msg_type = wrp_msg_type.other v) →
        (pcl_recv_switch obj m).result = PCL_RESULT_ERROR_SOCK_RECV_MSGTYPE) ∧
      ((∃ d, addressed_dest m = some d ∧ pcl_service_name_match obj d = false) →
        (pcl_recv_switch obj m).result = PCL_RESULT_ERROR_SOCK_RECV_SVCNAME) := by
    intro obj m
    rcases m with ⟨ty, u⟩
    cases ty <;> simp [pcl_recv_switch, addressed_dest] <;> intro h <;> simp [h]
  have hcalls : ∀ (obj : pcl_obj_t) (m : wrp_msg_t), env.decoded = some m →
      handler_calls (pcl_recv (some obj) env).trace
        = handler_calls (pcl_recv_switch obj m).trace := by
    intro obj m hdec
    rw [pcl_recv_decoded obj env m hdec]
    simp [handler_calls, Event.isHandler]
  have hres : ∀ (obj : pcl_obj_t) (m : wrp_msg_t), env.decoded = some m →
      (pcl_recv (some obj) env).result = (pcl_recv_switch obj m).result := by
    intro obj m hdec
    rw [pcl_recv_decoded obj env m hdec]
  constructor
  · cases object with
    | none => simp [pcl_recv, handler_calls]
    | some obj =>
      cases hdec : env.decoded with
      | none => simp [(pcl_recv_not_decoded obj env hdec).2]
      | some m => rw [hcalls obj m hdec]; exact (key obj m).1
  · intro obj m hobj hdec
    subst hobj
    rw [hcalls obj m hdec, hres obj m hdec]
    exact ⟨(key obj m).2.1, (key obj m).2.2, kinds m, (code obj m).1, (code obj m).2⟩

/-- Witness of C5 (amended): a REQUEST whose destination names another service
is dropped without a handler call and with ERROR_SOCK_RECV_SVCNAME; a message
whose kind is the value 77, none of the nine dispatched kinds, is dropped
without a handler call and with ERROR_SOCK_RECV_MSGTYPE. -/
theorem pcl_recv_handler_count_witness :
    ((recv_env_of (req_msg (ascii "mac:AABBCCDDEEFF/config") [])).decoded
      = some (req_msg (ascii "mac:AABBCCDDEEFF/config") []) ∧
     (handler_calls (pcl_recv (some (pcl_init_obj none))
      (recv_env_of (req_msg (ascii "mac:AABBCCDDEEFF/config") []))).trace).length = 0 ∧
     (pcl_recv (some (pcl_init_obj none))
      (recv_env_of (req_msg (ascii "mac:AABBCCDDEEFF/config") []))).result
      = PCL_RESULT_ERROR_SOCK_RECV_SVCNAME) ∧
    ((recv_env_of (msg_of_kind (wrp_msg_type.other 77))).decoded
      = some (msg_of_kind (wrp_msg_type.other 77)) ∧
     (handler_calls (pcl_recv (some (pcl_init_obj none))
      (recv_env_of (msg_of_kind (wrp_msg_type.other 77)))).trace).length = 0 ∧
     (pcl_recv (some (pcl_init_obj none))
      (recv_env_of (msg_of_kind (wrp_msg_type.other 77)))).result
      = PCL_RESULT_ERROR_SOCK_RECV_MSGTYPE) :=
  ⟨⟨rfl,
    ((pcl_recv_handler_count (some (pcl_init_obj none))
      (recv_env_of (req_msg (ascii "mac:AABBCCDDEEFF/config") []))).2
      (pcl_init_obj none) (req_msg (ascii "mac:AABBCCDDEEFF/config") []) rfl rfl).1
      (Or.inl ⟨ascii "mac:AABBCCDDEEFF/config", rfl, by decide⟩),
    ((pcl_recv_handler_count (some (pcl_init_obj none))
      (recv_env_of (req_msg (ascii "mac:AABBCCDDEEFF/config") []))).2
      (pcl_init_obj none) (req_msg (ascii "mac:AABBCCDDEEFF/config") []) rfl rfl).2.2.2.2
      ⟨ascii "mac:AABBCCDDEEFF/config", rfl, by decide⟩⟩,
   ⟨rfl,
    ((pcl_recv_handler_count (some (pcl_init_obj none))
      (recv_env_of (msg_of_kind (wrp_msg_type.other 77)))).2
      (pcl_init_obj none) (msg_of_kind (wrp_msg_type.other 77)) rfl rfl).1
      (Or.inr ⟨rfl, rfl⟩),
    ((pcl_recv_handler_count (some (pcl_init_obj none))
      (recv_env_of (msg_of_kind (wrp_msg_type.other 77)))).2
      (pcl_init_obj none) (msg_of_kind (wrp_msg_type.other 77)) rfl rfl).2.2.2.1
      (Or.inr ⟨77, rfl⟩)⟩⟩

/-! # Send path -/

theorem pcl_sock_send_wrp_code (obj : pcl_obj_t) (m : wrp_msg_t) (env : send_env) :
    (pcl_sock_send_wrp obj m env).1 =
      if (env.wrp_struct_to m).1 < 1 ∨ (env.wrp_struct_to m).2 = none then
        PCL_RESULT_ERROR_SOCK_SEND_WRP
      else if env.nn_send < 0 then PCL_RESULT_ERROR_SOCK_SEND_WRITE
      else if env.nn_send ≠ (env.wrp_struct_to m).1 then PCL_RESULT_ERROR_SOCK_SEND_PARTIAL
      else PCL_RESULT_SUCCESS := by
  simp only [pcl_sock_send_wrp]
  by_cases h1 : (env.wrp_struct_to m).1 < 1
  · simp [h1]
  · cases hb : (env.wrp_struct_to m).2 with
    | none => simp [h1]
    | some bytes =>
      simp only [h1, if_false, false_or, reduceCtorEq]
      split_ifs <;> rfl

theorem pcl_sock_send_wrp_no_write (obj : pcl_obj_t) (m : wrp_msg_t) (env : send_env)
    (h : (env.wrp_struct_to m).1 < 1 ∨ (env.wrp_struct_to m).2 = none) :
    ∀ e ∈ (pcl_sock_send_wrp obj m env).2.2, e.isWrite = false := by
  simp only [pcl_sock_send_wrp]
  by_cases h1 : (env.wrp_struct_to m).1 < 1
  · simp [h1, Event.isWrite]
  · have hb : (env.wrp_struct_to m).2 = none := by
      cases h with
      | inl h => exact absurd h h1
      | inr h => exact h
    simp [h1, hb, Event.isWrite]

theorem pcl_sock_send_wrp_result (obj : pcl_obj_t) (m : wrp_msg_t) (env : send_env) :
    (((env.wrp_struct_to m).1 < 1 ∨ (env.wrp_struct_to m).2 = none) →
      (pcl_sock_send_wrp obj m env).1 = PCL_RESULT_ERROR_SOCK_SEND_WRP ∧
      ∀ e ∈ (pcl_sock_send_wrp obj m env).2.2, e.isWrite = false) ∧
    (1 ≤ (env.wrp_struct_to m).1 → (env.wrp_struct_to m).2 ≠ none →
      (env.nn_send < 0 →
        (pcl_sock_send_wrp obj m env).1 = PCL_RESULT_ERROR_SOCK_SEND_WRITE) ∧
      (0 ≤ env.nn_send → env.nn_send ≠ (env.wrp_struct_to m).1 →
        (pcl_sock_send_wrp obj m env).1 = PCL_RESULT_ERROR_SOCK_SEND_PARTIAL) ∧
      (env.nn_send = (env.wrp_struct_to m).1 →
        (pcl_sock_send_wrp obj m env).1 = PCL_RESULT_SUCCESS)) := by
  rw [pcl_sock_send_wrp_code]
  constructor
  · intro h
    exact ⟨by rw [if_pos h], pcl_sock_send_wrp_no_write obj m env h⟩
  · intro h1 h2
    have hn : ¬ ((env.wrp_struct_to m).1 < 1 ∨ (env.wrp_struct_to m).2 = none) := by
      rintro (h | h)
      · omega
      · exact h2 h
    rw [if_neg hn]
    refine ⟨fun h => by rw [if_pos h], fun h h' => ?_, fun h => ?_⟩
    · rw [if_neg (by omega), if_pos h']
    · rw [if_neg (by omega), if_neg (by simpa using h)]

theorem pcl_sock_send_wrp_success (obj : pcl_obj_t) (m : wrp_msg_t) (env : send_env) :
    (pcl_sock_send_wrp obj m env).1 = PCL_RESULT_SUCCESS ↔
      ∃ bytes, 1 ≤ (env.wrp_struct_to m).1 ∧ (env.wrp_struct_to m).2 = some bytes ∧
        env.nn_send = (env.wrp_struct_to m).1 := by
  rw [pcl_sock_send_wrp_code]
  constructor
  · intro h
    split_ifs at h with h1 h2 h3
    · exact absurd h (by decide)
    · exact absurd h (by decide)
    · exact absurd h (by decide)
    · have hb : (env.wrp_struct_to m).2 ≠ none := fun e => h1 (Or.inr e)
      obtain ⟨bytes, hb'⟩ := Option.ne_none_iff_exists'.1 hb
      exact ⟨bytes, by omega, hb', by simpa using h3⟩
  · rintro ⟨bytes, h1, h2, h3⟩
    have hn : ¬ ((env.wrp_struct_to m).1 < 1 ∨ (env.wrp_struct_to m).2 = none) := by
      rintro (h | h)
      · omega
      · simp [h2] at h
    rw [if_neg hn, if_neg (by omega), if_neg (by simpa using h3)]

/-- C6: `pcl_send` decides its result in this order: ERROR_PARAMS when the
session or the message is NULL; else ERROR_SOCK_SEND_AUTH when `authorized` is
false; else ERROR_SOCK_SEND_WRP when the encoder returns less than 1 or no
buffer, and then no write is attempted; else ERROR_SOCK_SEND_WRITE when
`nn_send` returns a negative value; else ERROR_SOCK_SEND_PARTIAL when it
returns a count other than the encoded length; else SUCCESS.  So the result
is SUCCESS exactly when the session is authorized, the encoding succeeded and
the transport accepted exactly the encoded length. -/
theorem pcl_send_result_order (object : Option pcl_obj_t) (msg : Option wrp_msg_t)
    (env : send_env) :
    ((object = none ∨ msg = none) →
      (pcl_send object msg env).result = PCL_RESULT_ERROR_PARAMS ∧
      (pcl_send object msg env).trace = []) ∧
    (∀ obj m, object = some obj → msg = some m →
      (obj.authorized = false →
        (pcl_send object msg env).result = PCL_RESULT_ERROR_SOCK_SEND_AUTH) ∧
      (obj.authorized = true →
        (((env.wrp_struct_to m).1 < 1 ∨ (env.wrp_struct_to m).2 = none) →
          (pcl_send object msg env).result = PCL_RESULT_ERROR_SOCK_SEND_WRP ∧
          ∀ e ∈ (pcl_send object msg env).trace, e.isWrite = false) ∧
        (1 ≤ (env.wrp_struct_to m).1 → (env.wrp_struct_to m).2 ≠ none →
          (env.nn_send < 0 →
            (pcl_send object msg env).result = PCL_RESULT_ERROR_SOCK_SEND_WRITE) ∧
          (0 ≤ env.nn_send → env.nn_send ≠ (env.wrp_struct_to m).1 →
            (pcl_send object msg env).result = PCL_RESULT_ERROR_SOCK_SEND_PARTIAL) ∧
          (env.nn_send = (env.wrp_struct_to m).1 →
            (pcl_send object msg env).result = PCL_RESULT_SUCCESS)))) ∧
    ((pcl_send object msg env).result = PCL_RESULT_SUCCESS ↔
      ∃ obj m bytes, object = some obj ∧ msg = some m ∧ obj.authorized = true ∧
        1 ≤ (env.wrp_struct_to m).1 ∧ (env.wrp_struct_to m).2 = some bytes ∧
        env.nn_send = (env.wrp_struct_to m).1) := by
  refine ⟨?_, ?_, ?_⟩
  · rintro (h | h)
    · subst h; cases msg <;> simp [pcl_send]
    · subst h; cases object <;> simp [pcl_send]
  · intro obj m ho hm
    subst ho hm
    have hs := pcl_sock_send_wrp_result obj m env
    refine ⟨fun ha => by simp [pcl_send, ha], fun ha => ?_⟩
    have hr : (pcl_send (some obj) (some m) env).result = (pcl_sock_send_wrp obj m env).1 := by
      simp [pcl_send, ha]
    have ht : (pcl_send (some obj) (some m) env).trace
        = Event.read_authorized :: (pcl_sock_send_wrp obj m env).2.2 := by
      simp [pcl_send, ha]
    rw [hr, ht]
    refine ⟨fun h => ⟨(hs.1 h).1, ?_⟩, hs.2⟩
    intro e he
    rcases List.mem_cons.1 he with h' | h'
    · subst h'; rfl
    · exact (hs.1 h).2 e h'
  · cases object with
    | none =>
      constructor
      · intro h
        have h' : (pcl_send none msg env).result = PCL_RESULT_ERROR_PARAMS := by
          cases msg <;> rfl
        rw [h'] at h
        exact absurd h (by decide)
      · rintro ⟨_, _, _, h, _⟩; simp at h
    | some obj =>
      cases msg with
      | none =>
        constructor
        · intro h
          have h' : (pcl_send (some obj) none env).result = PCL_RESULT_ERROR_PARAMS := rfl
          rw [h'] at h
          exact absurd h (by decide)
        · rintro ⟨_, _, _, _, h, _⟩; simp at h
      | some m =>
        by_cases ha : obj.authorized = true
        · have hr : (pcl_send (some obj) (some m) env).result
              = (pcl_sock_send_wrp obj m env).1 := by
            simp [pcl_send, ha]
          rw [hr, pcl_sock_send_wrp_success]
          constructor
          · rintro ⟨bytes, h1, h2, h3⟩
            exact ⟨obj, m, bytes, rfl, rfl, ha, h1, h2, h3⟩
          · rintro ⟨obj', m', bytes, ho, hm, _, h1, h2, h3⟩
            cases ho; cases hm
            exact ⟨bytes, h1, h2, h3⟩
        · constructor
          · intro h
            have h' : (pcl_send (some obj) (some m) env).result
                = PCL_RESULT_ERROR_SOCK_SEND_AUTH := by
              simp [pcl_send, ha]
            rw [h'] at h
            exact absurd h (by decide)
          · rintro ⟨obj', _, _, ho, _, ha', _⟩
            cases ho
            exact absurd ha' ha

/-- Witness of C6: an authorized session, an encoding of 3 bytes of which the
transport accepts 2: the result is ERROR_SOCK_SEND_PARTIAL. -/
theorem pcl_send_result_order_witness :
    (pcl_send (some { pcl_init_obj none with authorized := true }) (some unknown_msg)
      (send_env_of 2)).result = PCL_RESULT_ERROR_SOCK_SEND_PARTIAL :=
  ((((pcl_send_result_order (some { pcl_init_obj none with authorized := true })
    (some unknown_msg) (send_env_of 2)).2.1
      { pcl_init_obj none with authorized := true } unknown_msg rfl rfl).2 rfl).2
    (by decide) (by decide)).2.1 (by decide) (by decide)

/-! # Initialisation -/

/-- C7, failing input: every step of the double succeeds, but the inbound
descriptor query reports an option length of 8 instead of `sizeof(int)`.  The
length is tested only after the outbound endpoint has been created and its
send timeout applied (line 175), so `pcl_init` returns ERROR_SOCK_SEND_SETOPT
although applying the send timeout succeeded; with the length 4 the same run
returns SUCCESS. -/
theorem pcl_init_recv_optvallen_reported_as_send_setopt :
    (pcl_init true true true none init_env_ok).result = PCL_RESULT_SUCCESS ∧
    ({ init_env_ok with recv_optvallen := 8 } : init_env).recv_getsockopt = 0 ∧
    ({ init_env_ok with recv_optvallen := 8 } : init_env).send_setsockopt = 0 ∧
    (pcl_init true true true none { init_env_ok with recv_optvallen := 8 }).result
      = PCL_RESULT_ERROR_SOCK_SEND_SETOPT ∧
    (pcl_init true true true none { init_env_ok with recv_optvallen := 8 }).trace
      = [Event.malloc, Event.sem_init 1,
         Event.nn_socket nn_protocol.NN_PULL 3,
         Event.nn_setsockopt 3 nn_option.NN_RCVTIMEO 2000,
         Event.nn_bind 3 (ascii "tcp://127.0.0.1:6667"),
         Event.nn_getsockopt 3 nn_option.NN_RCVFD,
         Event.nn_socket nn_protocol.NN_PUSH 4,
         Event.nn_setsockopt 4 nn_option.NN_SNDTIMEO 2,
         Event.nn_shutdown 3, Event.nn_close 3, Event.nn_shutdown 4, Event.nn_close 4,
         Event.sem_destroy, Event.free_obj] := by
  refine ⟨by decide, rfl, rfl, by decide, by decide⟩

theorem pcl_obj_destroy_trace (o : pcl_obj_t) (env : destroy_env) :
    (pcl_obj_destroy (some o) env).2 =
      (if o.recv.sock ≥ 0 then [Event.nn_shutdown o.recv.sock, Event.nn_close o.recv.sock]
        else []) ++
      (if o.send.sock ≥ 0 then [Event.nn_shutdown o.send.sock, Event.nn_close o.send.sock]
        else []) ++
      [Event.sem_destroy, Event.free_obj] := by
  by_cases h1 : 0 ≤ o.recv.sock <;> by_cases h2 : 0 ≤ o.send.sock <;>
    simp [pcl_obj_destroy, h1, h2]

theorem pcl_sock_send_wrp_no_socket_events (obj : pcl_obj_t) (m : wrp_msg_t)
    (env : send_env) (h : Int) :
    opened h (pcl_sock_send_wrp obj m env).2.2 = 0 ∧
      closed h (pcl_sock_send_wrp obj m env).2.2 = 0 := by
  simp only [pcl_sock_send_wrp]
  by_cases h1 : (env.wrp_struct_to m).1 < 1
  · simp [h1, opened, closed, Event.opens, Event.closes]
  · cases hb : (env.wrp_struct_to m).2 with
    | none => simp [h1, opened, closed, Event.opens, Event.closes]
    | some bytes =>
      simp only [h1, if_false]
      split_ifs <;> simp [opened, closed, Event.opens, Event.closes]

theorem pcl_init_cases (object fd_recv fd_send : Bool)
    (params : Option pcl_params_t) (env : init_env) :
    ((pcl_init object fd_recv fd_send params env).result = PCL_RESULT_SUCCESS ∧
      ∃ obj, (pcl_init object fd_recv fd_send params env).object = some obj ∧
        obj.authorized = false) ∨
    ((pcl_init object fd_recv fd_send params env).result ≠ PCL_RESULT_SUCCESS ∧
      (∀ h : Int, closed h (pcl_init object fd_recv fd_send params env).trace
        = opened h (pcl_init object fd_recv fd_send params env).trace) ∧
      (pcl_init object fd_recv fd_send params env).object = none ∧
      (pcl_init object fd_recv fd_send params env).fd_recv = none ∧
      (pcl_init object fd_recv fd_send params env).fd_send = none) := by
  have hreg : ∀ (obj : pcl_obj_t) (m : wrp_msg_t) (env : send_env) (h : Int),
      List.countP (Event.opens h) (pcl_sock_send_wrp obj m env).2.2 = 0 ∧
      List.countP (Event.closes h) (pcl_sock_send_wrp obj m env).2.2 = 0 :=
    pcl_sock_send_wrp_no_socket_events
  unfold pcl_init closed opened
  cases object
  · right
    simp [PCL_RESULT_SUCCESS, PCL_RESULT_ERROR_PARAMS]
  · simp only [Bool.not_true, Bool.false_eq_true, if_false]
    by_cases hm : env.malloc_ok = true
    · simp only [hm, Bool.not_true, Bool.false_eq_true, if_false]
      by_cases ht : (pcl_init_obj params).recv.timeout > 0
      · simp only [ht, if_true, true_and]
        by_cases h1 : env.recv_socket < 0
        · simp only [h1, if_true, and_self, true_and]
          have h1n : ¬ 0 ≤ env.recv_socket := by omega
          right
          simp [pcl_init_fail, pcl_obj_destroy_trace, Event.opens, Event.closes, pcl_init_obj,
            List.countP_cons, List.countP_nil, pcl_register, hreg, PCL_RESULT_SUCCESS,
            PCL_RESULT_ERROR_SOCK_RECV_CREATE, PCL_RESULT_ERROR_SOCK_RECV_SETOPT,
            PCL_RESULT_ERROR_SOCK_RECV_BIND, PCL_RESULT_ERROR_SOCK_RECV_GETOPT,
            PCL_RESULT_ERROR_SOCK_SEND_CREATE, PCL_RESULT_ERROR_SOCK_SEND_SETOPT,
            PCL_RESULT_ERROR_SOCK_SEND_CONNECT, PCL_RESULT_ERROR_SOCK_SEND_GETOPT,
            PCL_RESULT_ERROR_REGISTER, h1n]
        · simp only [h1, if_false, and_false, false_and]
          have h1p : 0 ≤ env.recv_socket := by omega
          by_cases h2 : env.recv_setsockopt < 0
          · simp only [h2, if_true, and_self, true_and]
            right
            simp [pcl_init_fail, pcl_obj_destroy_trace, Event.opens, Event.closes,
              pcl_init_obj, List.countP_cons, List.countP_nil, pcl_register, hreg,
              PCL_RESULT_SUCCESS, PCL_RESULT_ERROR_SOCK_RECV_CREATE,
              PCL_RESULT_ERROR_SOCK_RECV_SETOPT, PCL_RESULT_ERROR_SOCK_RECV_BIND,
              PCL_RESULT_ERROR_SOCK_RECV_GETOPT, PCL_RESULT_ERROR_SOCK_SEND_CREATE,
              PCL_RESULT_ERROR_SOCK_SEND_SETOPT, PCL_RESULT_ERROR_SOCK_SEND_CONNECT,
              PCL_RESULT_ERROR_SOCK_SEND_GETOPT, PCL_RESULT_ERROR_REGISTER, h1p]
          · simp only [h2, if_false, and_false, false_and]
            by_cases h3 : env.bind < 0
            · simp only [h3, if_true, and_self, true_and]
              right
              simp [pcl_init_fail, pcl_obj_destroy_trace, Event.opens, Event.closes,
                pcl_init_obj, List.countP_cons, List.countP_nil, pcl_register, hreg,
                PCL_RESULT_SUCCESS, PCL_RESULT_ERROR_SOCK_RECV_CREATE,
                PCL_RESULT_ERROR_SOCK_RECV_SETOPT, PCL_RESULT_ERROR_SOCK_RECV_BIND,
                PCL_RESULT_ERROR_SOCK_RECV_GETOPT, PCL_RESULT_ERROR_SOCK_SEND_CREATE,
                PCL_RESULT_ERROR_SOCK_SEND_SETOPT, PCL_RESULT_ERROR_SOCK_SEND_CONNECT,
                PCL_RESULT_ERROR_SOCK_SEND_GETOPT, PCL_RESULT_ERROR_REGISTER, h1p]
            · simp only [h3, if_false, and_false, false_and]
              by_cases h4 : env.recv_getsockopt < 0
              · simp only [h4, if_true, and_self, true_and]
                right
                simp [pcl_init_fail, pcl_obj_destroy_trace, Event.opens, Event.closes,
                  pcl_init_obj, List.countP_cons, List.countP_nil, pcl_register, hreg,
                  PCL_RESULT_SUCCESS, PCL_RESULT_ERROR_SOCK_RECV_CREATE,
                  PCL_RESULT_ERROR_SOCK_RECV_SETOPT, PCL_RESULT_ERROR_SOCK_RECV_BIND,
                  PCL_RESULT_ERROR_SOCK_RECV_GETOPT, PCL_RESULT_ERROR_SOCK_SEND_CREATE,
                  PCL_RESULT_ERROR_SOCK_SEND_SETOPT, PCL_RESULT_ERROR_SOCK_SEND_CONNECT,
                  PCL_RESULT_ERROR_SOCK_SEND_GETOPT, PCL_RESULT_ERROR_REGISTER, h1p]
              · simp only [h4, if_false, and_false, false_and]
                by_cases h5 : env.send_socket < 0
                · simp only [h5, if_true, and_self, true_and]
                  have h5n : ¬ 0 ≤ env.send_socket := by omega
                  right
                  simp [pcl_init_fail, pcl_obj_destroy_trace, Event.opens, Event.closes,
                    pcl_init_obj, List.countP_cons, List.countP_nil, pcl_register, hreg,
                    PCL_RESULT_SUCCESS, PCL_RESULT_ERROR_SOCK_RECV_CREATE,
                    PCL_RESULT_ERROR_SOCK_RECV_SETOPT, PCL_RESULT_ERROR_SOCK_RECV_BIND,
                    PCL_RESULT_ERROR_SOCK_RECV_GETOPT, PCL_RESULT_ERROR_SOCK_SEND_CREATE,
                    PCL_RESULT_ERROR_SOCK_SEND_SETOPT, PCL_RESULT_ERROR_SOCK_SEND_CONNECT,
                    PCL_RESULT_ERROR_SOCK_SEND_GETOPT, PCL_RESULT_ERROR_REGISTER, h1p, h5n]
                · simp only [h5, if_false, and_false, false_and]
                  have h5p : 0 ≤ env.send_socket := by omega
                  by_cases h6 : env.send_setsockopt < 0 ∨ env.recv_optvallen ≠ sizeof_int
                  · simp only [h6, if_true, and_self, true_and]
                    right
                    simp [pcl_init_fail, pcl_obj_destroy_trace, Event.opens, Event.closes,
                      pcl_init_obj, List.countP_cons, List.countP_nil, pcl_register, hreg,
                      PCL_RESULT_SUCCESS, PCL_RESULT_ERROR_SOCK_RECV_CREATE,
                      PCL_RESULT_ERROR_SOCK_RECV_SETOPT, PCL_RESULT_ERROR_SOCK_RECV_BIND,
                      PCL_RESULT_ERROR_SOCK_RECV_GETOPT, PCL_RESULT_ERROR_SOCK_SEND_CREATE,
                      PCL_RESULT_ERROR_SOCK_SEND_SETOPT, PCL_RESULT_ERROR_SOCK_SEND_CONNECT,
                      PCL_RESULT_ERROR_SOCK_SEND_GETOPT, PCL_RESULT_ERROR_REGISTER, h1p, h5p]
                  · simp only [h6, if_false, and_false, false_and]
                    by_cases h7 : env.connect < 0
                    · simp only [h7, if_true, and_self, true_and]
                      right
                      simp [pcl_init_fail, pcl_obj_destroy_trace, Event.opens, Event.closes,
                        pcl_init_obj, List.countP_cons, List.countP_nil, pcl_register, hreg,
                        PCL_RESULT_SUCCESS, PCL_RESULT_ERROR_SOCK_RECV_CREATE,
                        PCL_RESULT_ERROR_SOCK_RECV_SETOPT, PCL_RESULT_ERROR_SOCK_RECV_BIND,
                        PCL_RESULT_ERROR_SOCK_RECV_GETOPT, PCL_RESULT_ERROR_SOCK_SEND_CREATE,
                        PCL_RESULT_ERROR_SOCK_SEND_SETOPT, PCL_RESULT_ERROR_SOCK_SEND_CONNECT,
                        PCL_RESULT_ERROR_SOCK_SEND_GETOPT, PCL_RESULT_ERROR_REGISTER, h1p, h5p]
                    · simp only [h7, if_false, and_false, false_and]
                      by_cases h8 : env.send_getsockopt < 0 ∨ env.send_optvallen ≠ sizeof_int
                      · simp only [h8, if_true, and_self, true_and]
                        right
                        simp [pcl_init_fail, pcl_obj_destroy_trace, Event.opens, Event.closes,
                          pcl_init_obj, List.countP_cons, List.countP_nil, pcl_register, hreg,
                          PCL_RESULT_SUCCESS, PCL_RESULT_ERROR_SOCK_RECV_CREATE,
                          PCL_RESULT_ERROR_SOCK_RECV_SETOPT, PCL_RESULT_ERROR_SOCK_RECV_BIND,
                          PCL_RESULT_ERROR_SOCK_RECV_GETOPT, PCL_RESULT_ERROR_SOCK_SEND_CREATE,
                          PCL_RESULT_ERROR_SOCK_SEND_SETOPT, PCL_RESULT_ERROR_SOCK_SEND_CONNECT,
                          PCL_RESULT_ERROR_SOCK_SEND_GETOPT, PCL_RESULT_ERROR_REGISTER, h1p,
                          h5p]
                      · simp only [h8, if_false, and_false, false_and]
                        split_ifs with h9 <;> first
                          | (right
                             simp [pcl_init_fail, pcl_obj_destroy_trace, Event.opens,
                               Event.closes, pcl_init_obj, List.countP_cons, List.countP_nil,
                               pcl_register, hreg, PCL_RESULT_SUCCESS,
                               PCL_RESULT_ERROR_SOCK_RECV_CREATE,
                               PCL_RESULT_ERROR_SOCK_RECV_SETOPT,
                               PCL_RESULT_ERROR_SOCK_RECV_BIND,
                               PCL_RESULT_ERROR_SOCK_RECV_GETOPT,
                               PCL_RESULT_ERROR_SOCK_SEND_CREATE,
                               PCL_RESULT_ERROR_SOCK_SEND_SETOPT,
                               PCL_RESULT_ERROR_SOCK_SEND_CONNECT,
                               PCL_RESULT_ERROR_SOCK_SEND_GETOPT, PCL_RESULT_ERROR_REGISTER,
                               h1p, h5p]
                             done)
                          | (left
                             simp [pcl_init_fail, pcl_obj_destroy_trace, Event.opens,
                               Event.closes, pcl_init_obj, List.countP_cons, List.countP_nil,
                               pcl_register, hreg, PCL_RESULT_SUCCESS,
                               PCL_RESULT_ERROR_SOCK_RECV_CREATE,
                               PCL_RESULT_ERROR_SOCK_RECV_SETOPT,
                               PCL_RESULT_ERROR_SOCK_RECV_BIND,
                               PCL_RESULT_ERROR_SOCK_RECV_GETOPT,
                               PCL_RESULT_ERROR_SOCK_SEND_CREATE,
                               PCL_RESULT_ERROR_SOCK_SEND_SETOPT,
                               PCL_RESULT_ERROR_SOCK_SEND_CONNECT,
                               PCL_RESULT_ERROR_SOCK_SEND_GETOPT, PCL_RESULT_ERROR_REGISTER,
                               h1p, h5p])
      · simp only [ht, if_false, false_and]
        by_cases h1 : env.recv_socket < 0
        · simp only [h1, if_true, and_self, true_and]
          have h1n : ¬ 0 ≤ env.recv_socket := by omega
          right
          simp [pcl_init_fail, pcl_obj_destroy_trace, Event.opens, Event.closes, pcl_init_obj,
            List.countP_cons, List.countP_nil, pcl_register, hreg, PCL_RESULT_SUCCESS,
            PCL_RESULT_ERROR_SOCK_RECV_CREATE, PCL_RESULT_ERROR_SOCK_RECV_SETOPT,
            PCL_RESULT_ERROR_SOCK_RECV_BIND, PCL_RESULT_ERROR_SOCK_RECV_GETOPT,
            PCL_RESULT_ERROR_SOCK_SEND_CREATE, PCL_RESULT_ERROR_SOCK_SEND_SETOPT,
            PCL_RESULT_ERROR_SOCK_SEND_CONNECT, PCL_RESULT_ERROR_SOCK_SEND_GETOPT,
            PCL_RESULT_ERROR_REGISTER, h1n]
        · simp only [h1, if_false, and_false, false_and]
          have h1p : 0 ≤ env.recv_socket := by omega
          by_cases h3 : env.bind < 0
          · simp only [h3, if_true, and_self, true_and]
            right
            simp [pcl_init_fail, pcl_obj_destroy_trace, Event.opens, Event.closes,
              pcl_init_obj, List.countP_cons, List.countP_nil, pcl_register, hreg,
              PCL_RESULT_SUCCESS, PCL_RESULT_ERROR_SOCK_RECV_CREATE,
              PCL_RESULT_ERROR_SOCK_RECV_SETOPT, PCL_RESULT_ERROR_SOCK_RECV_BIND,
              PCL_RESULT_ERROR_SOCK_RECV_GETOPT, PCL_RESULT_ERROR_SOCK_SEND_CREATE,
              PCL_RESULT_ERROR_SOCK_SEND_SETOPT, PCL_RESULT_ERROR_SOCK_SEND_CONNECT,
              PCL_RESULT_ERROR_SOCK_SEND_GETOPT, PCL_RESULT_ERROR_REGISTER, h1p]
          · simp only [h3, if_false, and_false, false_and]
            by_cases h4 : env.recv_getsockopt < 0
            · simp only [h4, if_true, and_self, true_and]
              right
              simp [pcl_init_fail, pcl_obj_destroy_trace, Event.opens, Event.closes,
                pcl_init_obj, List.countP_cons, List.countP_nil, pcl_register, hreg,
                PCL_RESULT_SUCCESS, PCL_RESULT_ERROR_SOCK_RECV_CREATE,
                PCL_RESULT_ERROR_SOCK_RECV_SETOPT, PCL_RESULT_ERROR_SOCK_RECV_BIND,
                PCL_RESULT_ERROR_SOCK_RECV_GETOPT, PCL_RESULT_ERROR_SOCK_SEND_CREATE,
                PCL_RESULT_ERROR_SOCK_SEND_SETOPT, PCL_RESULT_ERROR_SOCK_SEND_CONNECT,
                PCL_RESULT_ERROR_SOCK_SEND_GETOPT, PCL_RESULT_ERROR_REGISTER, h1p]
            · simp only [h4, if_false, and_false, false_and]
              by_cases h5 : env.send_socket < 0
              · simp only [h5, if_true, and_self, true_and]
                have h5n : ¬ 0 ≤ env.send_socket := by omega
                right
                simp [pcl_init_fail, pcl_obj_destroy_trace, Event.opens, Event.closes,
                  pcl_init_obj, List.countP_cons, List.countP_nil, pcl_register, hreg,
                  PCL_RESULT_SUCCESS, PCL_RESULT_ERROR_SOCK_RECV_CREATE,
                  PCL_RESULT_ERROR_SOCK_RECV_SETOPT, PCL_RESULT_ERROR_SOCK_RECV_BIND,
                  PCL_RESULT_ERROR_SOCK_RECV_GETOPT, PCL_RESULT_ERROR_SOCK_SEND_CREATE,
                  PCL_RESULT_ERROR_SOCK_SEND_SETOPT, PCL_RESULT_ERROR_SOCK_SEND_CONNECT,
                  PCL_RESULT_ERROR_SOCK_SEND_GETOPT, PCL_RESULT_ERROR_REGISTER, h1p, h5n]
              · simp only [h5, if_false, and_false, false_and]
                have h5p : 0 ≤ env.send_socket := by omega
                by_cases h6 : env.send_setsockopt < 0 ∨ env.recv_optvallen ≠ sizeof_int
                · simp only [h6, if_true, and_self, true_and]
                  right
                  simp [pcl_init_fail, pcl_obj_destroy_trace, Event.opens, Event.closes,
                    pcl_init_obj, List.countP_cons, List.countP_nil, pcl_register, hreg,
                    PCL_RESULT_SUCCESS, PCL_RESULT_ERROR_SOCK_RECV_CREATE,
                    PCL_RESULT_ERROR_SOCK_RECV_SETOPT, PCL_RESULT_ERROR_SOCK_RECV_BIND,
                    PCL_RESULT_ERROR_SOCK_RECV_GETOPT, PCL_RESULT_ERROR_SOCK_SEND_CREATE,
                    PCL_RESULT_ERROR_SOCK_SEND_SETOPT, PCL_RESULT_ERROR_SOCK_SEND_CONNECT,
                    PCL_RESULT_ERROR_SOCK_SEND_GETOPT, PCL_RESULT_ERROR_REGISTER, h1p, h5p]
                · simp only [h6, if_false, and_false, false_and]
                  by_cases h7 : env.connect < 0
                  · simp only [h7, if_true, and_self, true_and]
                    right
                    simp [pcl_init_fail, pcl_obj_destroy_trace, Event.opens, Event.closes,
                      pcl_init_obj, List.countP_cons, List.countP_nil, pcl_register, hreg,
                      PCL_RESULT_SUCCESS, PCL_RESULT_ERROR_SOCK_RECV_CREATE,
                      PCL_RESULT_ERROR_SOCK_RECV_SETOPT, PCL_RESULT_ERROR_SOCK_RECV_BIND,
                      PCL_RESULT_ERROR_SOCK_RECV_GETOPT, PCL_RESULT_ERROR_SOCK_SEND_CREATE,
                      PCL_RESULT_ERROR_SOCK_SEND_SETOPT, PCL_RESULT_ERROR_SOCK_SEND_CONNECT,
                      PCL_RESULT_ERROR_SOCK_SEND_GETOPT, PCL_RESULT_ERROR_REGISTER, h1p, h5p]
                  · simp only [h7, if_false, and_false, false_and]
                    by_cases h8 : env.send_getsockopt < 0 ∨ env.send_optvallen ≠ sizeof_int
                    · simp only [h8, if_true, and_self, true_and]
                      right
                      simp [pcl_init_fail, pcl_obj_destroy_trace, Event.opens, Event.closes,
                        pcl_init_obj, List.countP_cons, List.countP_nil, pcl_register, hreg,
                        PCL_RESULT_SUCCESS, PCL_RESULT_ERROR_SOCK_RECV_CREATE,
                        PCL_RESULT_ERROR_SOCK_RECV_SETOPT, PCL_RESULT_ERROR_SOCK_RECV_BIND,
                        PCL_RESULT_ERROR_SOCK_RECV_GETOPT, PCL_RESULT_ERROR_SOCK_SEND_CREATE,
                        PCL_RESULT_ERROR_SOCK_SEND_SETOPT, PCL_RESULT_ERROR_SOCK_SEND_CONNECT,
                        PCL_RESULT_ERROR_SOCK_SEND_GETOPT, PCL_RESULT_ERROR_REGISTER, h1p, h5p]
                    · simp only [h8, if_false, and_false, false_and]
                      split_ifs with h9 <;> first
                        | (right
                           simp [pcl_init_fail, pcl_obj_destroy_trace, Event.opens,
                             Event.closes, pcl_init_obj, List.countP_cons, List.countP_nil,
                             pcl_register, hreg, PCL_RESULT_SUCCESS,
                             PCL_RESULT_ERROR_SOCK_RECV_CREATE,
                             PCL_RESULT_ERROR_SOCK_RECV_SETOPT, PCL_RESULT_ERROR_SOCK_RECV_BIND,
                             PCL_RESULT_ERROR_SOCK_RECV_GETOPT,
                             PCL_RESULT_ERROR_SOCK_SEND_CREATE,
                             PCL_RESULT_ERROR_SOCK_SEND_SETOPT,
                             PCL_RESULT_ERROR_SOCK_SEND_CONNECT,
                             PCL_RESULT_ERROR_SOCK_SEND_GETOPT, PCL_RESULT_ERROR_REGISTER, h1p,
                             h5p]
                           done)
                        | (left
                           simp [pcl_init_fail, pcl_obj_destroy_trace, Event.opens,
                             Event.closes, pcl_init_obj, List.countP_cons, List.countP_nil,
                             pcl_register, hreg, PCL_RESULT_SUCCESS,
                             PCL_RESULT_ERROR_SOCK_RECV_CREATE,
                             PCL_RESULT_ERROR_SOCK_RECV_SETOPT, PCL_RESULT_ERROR_SOCK_RECV_BIND,
                             PCL_RESULT_ERROR_SOCK_RECV_GETOPT,
                             PCL_RESULT_ERROR_SOCK_SEND_CREATE,
                             PCL_RESULT_ERROR_SOCK_SEND_SETOPT,
                             PCL_RESULT_ERROR_SOCK_SEND_CONNECT,
                             PCL_RESULT_ERROR_SOCK_SEND_GETOPT, PCL_RESULT_ERROR_REGISTER, h1p,
                             h5p])
    · right
      simp [hm, Event.opens, Event.closes, PCL_RESULT_SUCCESS,
        PCL_RESULT_ERROR_OUT_OF_MEMORY]

/-- C8: whenever `pcl_init` returns an error, whichever step failed, every
endpoint handle has been closed exactly as many times as it was opened (so an
endpoint opened before the failing step is closed once and one never opened
is not closed), and nothing is stored through `object`, `fd_recv` or
`fd_send`. -/
theorem pcl_init_failure_unwinds (object fd_recv fd_send : Bool)
    (params : Option pcl_params_t) (env : init_env)
    (hfail : (pcl_init object fd_recv fd_send params env).result ≠ PCL_RESULT_SUCCESS) :
    (∀ h : Int, closed h (pcl_init object fd_recv fd_send params env).trace
        = opened h (pcl_init object fd_recv fd_send params env).trace) ∧
    (pcl_init object fd_recv fd_send params env).object = none ∧
    (pcl_init object fd_recv fd_send params env).fd_recv = none ∧
    (pcl_init object fd_recv fd_send params env).fd_send = none := by
  rcases pcl_init_cases object fd_recv fd_send params env with h | h
  · exact absurd h.1 hfail
  · exact h.2

/-- Witness of C8: the connect step fails after both endpoints (handles 3 and
4) were opened; each is closed once. -/
theorem pcl_init_failure_unwinds_witness :
    (pcl_init true true true none { init_env_ok with connect := -1 }).result
      = PCL_RESULT_ERROR_SOCK_SEND_CONNECT ∧
    opened 3 (pcl_init true true true none { init_env_ok with connect := -1 }).trace = 1 ∧
    opened 4 (pcl_init true true true none { init_env_ok with connect := -1 }).trace = 1 ∧
    ((∀ h : Int, closed h (pcl_init true true true none { init_env_ok with connect := -1 }).trace
        = opened h (pcl_init true true true none { init_env_ok with connect := -1 }).trace) ∧
    (pcl_init true true true none { init_env_ok with connect := -1 }).object = none ∧
    (pcl_init true true true none { init_env_ok with connect := -1 }).fd_recv = none ∧
    (pcl_init true true true none { init_env_ok with connect := -1 }).fd_send = none) :=
  ⟨by decide, by decide, by decide,
    pcl_init_failure_unwinds true true true none { init_env_ok with connect := -1 }
      (by decide)⟩

/-! # Authorization state machine -/

theorem pcl_init_fresh (object fd_recv fd_send : Bool) (params : Option pcl_params_t)
    (env : init_env) (obj : pcl_obj_t)
    (h : (pcl_init object fd_recv fd_send params env).object = some obj) :
    obj.authorized = false := by
  rcases pcl_init_cases object fd_recv fd_send params env with h' | h'
  · obtain ⟨_, o, ho, ha⟩ := h'
    rw [ho] at h
    cases h
    exact ha
  · rw [h'.2.2.1] at h
    cases h

theorem pcl_send_obj (obj : pcl_obj_t) (msg : Option wrp_msg_t) (env : send_env) :
    (pcl_send (some obj) msg env).obj = some obj := by
  cases msg with
  | none => rfl
  | some m =>
    by_cases ha : obj.authorized = true <;> simp [pcl_send, ha]

theorem step_authorized (obj : pcl_obj_t) (op : Op) :
    (step obj op).authorized =
      match op.auth_status with
      | some s => decide (s = 200)
      | none => obj.authorized := by
  cases op with
  | send msg env => simp [step, pcl_send_obj, Op.auth_status]
  | recv env =>
    simp only [step, Op.auth_status]
    cases hdec : env.decoded with
    | none => simp [(pcl_recv_not_decoded obj env hdec).1]
    | some m =>
      by_cases hty : m.msg_type = wrp_msg_type.AUTH
      · simp [pcl_recv_auth_obj obj env m hdec hty, hty]
      · rw [pcl_recv_decoded obj env m hdec]
        simp only [hty, if_false, Option.getD_some]
        rcases m with ⟨ty, u⟩
        cases ty <;> first
          | exact absurd rfl hty
          | (simp only [pcl_recv_switch, pcl_msg_handler_register]; split <;> rfl)
          | rfl

theorem last_auth_cons (op : Op) (ops : List Op) :
    last_auth (op :: ops) =
      match last_auth ops with
      | some s => some s
      | none => op.auth_status := by
  unfold last_auth
  cases h : op.auth_status with
  | none => simp [List.filterMap_cons, h]; split <;> simp_all
  | some s =>
    simp only [List.filterMap_cons, h]
    cases h' : List.filterMap Op.auth_status ops with
    | nil => simp
    | cons x xs =>
      simp only [List.getLast?_cons_cons]
      have hne : (x :: xs).getLast? = some ((x :: xs).getLast (by simp)) :=
        List.getLast?_eq_getLast _ _
      rw [hne]

theorem run_authorized (ops : List Op) :
    ∀ obj : pcl_obj_t, (run obj ops).authorized =
      match last_auth ops with
      | some s => decide (s = 200)
      | none => obj.authorized := by
  induction ops with
  | nil => intro obj; simp [run, last_auth]
  | cons op ops ih =>
    intro obj
    have h : run obj (op :: ops) = run (step obj op) ops := rfl
    rw [h, ih (step obj op), last_auth_cons, step_authorized]
    cases last_auth ops <;> rfl

theorem last_auth_mem (ops : List Op) (s : Int) (h : last_auth ops = some s) :
    ∃ op ∈ ops, op.auth_status = some s := by
  unfold last_auth at h
  have hmem : s ∈ ops.filterMap Op.auth_status := List.mem_of_getLast?_eq_some h
  obtain ⟨op, hop, hs⟩ := List.mem_filterMap.1 hmem
  exact ⟨op, hop, hs⟩

theorem pcl_send_unauthorized_call (obj : pcl_obj_t) (ha : obj.authorized = false)
    (msg : wrp_msg_t) (env : send_env) :
    (pcl_send (some obj) (some msg) env).result = PCL_RESULT_ERROR_SOCK_SEND_AUTH ∧
    (pcl_send (some obj) (some msg) env).trace = [Event.read_authorized] := by
  simp [pcl_send, ha]

/-- C3: on a session returned by `pcl_init`, after any sequence of `pcl_recv`
and `pcl_send` calls none of which decoded an AUTH message with status 200,
`pcl_send` of a non-NULL message returns ERROR_SOCK_SEND_AUTH, and its trace
holds neither a call of the encoder nor a write to an endpoint. -/
theorem pcl_send_before_auth (object fd_recv fd_send : Bool)
    (params : Option pcl_params_t) (env0 : init_env) (obj : pcl_obj_t)
    (hinit : (pcl_init object fd_recv fd_send params env0).object = some obj)
    (ops : List Op) (hno : ∀ op ∈ ops, op.auth_status ≠ some 200)
    (msg : wrp_msg_t) (env : send_env) :
    (pcl_send (some (run obj ops)) (some msg) env).result = PCL_RESULT_ERROR_SOCK_SEND_AUTH ∧
    ∀ e ∈ (pcl_send (some (run obj ops)) (some msg) env).trace,
      e.isEncode = false ∧ e.isWrite = false := by
  have ha : (run obj ops).authorized = false := by
    rw [run_authorized]
    cases hl : last_auth ops with
    | none => exact pcl_init_fresh object fd_recv fd_send params env0 obj hinit
    | some s =>
      obtain ⟨op, hop, hs⟩ := last_auth_mem ops s hl
      have hne : s ≠ 200 := by
        intro e
        exact hno op hop (by rw [hs, e])
      simp [hne]
  obtain ⟨hr, ht⟩ := pcl_send_unauthorized_call (run obj ops) ha msg env
  refine ⟨hr, ?_⟩
  rw [ht]
  intro e he
  rw [List.mem_singleton.1 he]
  exact ⟨rfl, rfl⟩

/-- Witness of C3: after `pcl_init`, an AUTH with status 403 and a REQUEST, a
send is refused. -/
theorem pcl_send_before_auth_witness :
    (pcl_init true true true none init_env_ok).object = some obj_fresh ∧
    (∀ op ∈ [Op.recv (recv_env_of (auth_msg 403)),
        Op.recv (recv_env_of (req_msg (ascii "mac:AABBCCDDEEFF/iot") []))],
      op.auth_status ≠ some 200) ∧
    (pcl_send (some (run obj_fresh [Op.recv (recv_env_of (auth_msg 403)),
        Op.recv (recv_env_of (req_msg (ascii "mac:AABBCCDDEEFF/iot") []))]))
      (some unknown_msg) (send_env_of 3)).result = PCL_RESULT_ERROR_SOCK_SEND_AUTH :=
  ⟨rfl, by decide,
    (pcl_send_before_auth true true true none init_env_ok obj_fresh rfl
      [Op.recv (recv_env_of (auth_msg 403)),
        Op.recv (recv_env_of (req_msg (ascii "mac:AABBCCDDEEFF/iot") []))]
      (by decide) unknown_msg (send_env_of 3)).1⟩

/-- C9: a session returned by `pcl_init` is unauthorized; after any finite
sequence of `pcl_recv` and `pcl_send` calls on it, `authorized` is true exactly
when the sequence decoded at least one AUTH message and the last AUTH message
decoded has status 200; and when the last AUTH message decoded has another
status (also after an earlier AUTH 200) the next `pcl_send` returns
ERROR_SOCK_SEND_AUTH. -/
theorem authorized_iff_last_auth_200 (object fd_recv fd_send : Bool)
    (params : Option pcl_params_t) (env0 : init_env) (obj : pcl_obj_t)
    (hinit : (pcl_init object fd_recv fd_send params env0).object = some obj)
    (ops : List Op) :
    obj.authorized = false ∧
    ((run obj ops).authorized = true ↔ last_auth ops = some 200) ∧
    (∀ s : Int, last_auth ops = some s → s ≠ 200 →
      ∀ (msg : wrp_msg_t) (env : send_env),
        (pcl_send (some (run obj ops)) (some msg) env).result
          = PCL_RESULT_ERROR_SOCK_SEND_AUTH) := by
  have hfresh := pcl_init_fresh object fd_recv fd_send params env0 obj hinit
  refine ⟨hfresh, ?_, ?_⟩
  · rw [run_authorized]
    cases hl : last_auth ops with
    | none => simp [hfresh]
    | some s => simp
  · intro s hl hs msg env
    have ha : (run obj ops).authorized = false := by
      rw [run_authorized, hl]
      simp [hs]
    exact (pcl_send_unauthorized_call (run obj ops) ha msg env).1

/-- Witness of C9: AUTH 200 followed by AUTH 403 leaves the session
unauthorized and the next send is refused. -/
theorem authorized_iff_last_auth_200_witness :
    (pcl_init true true true none init_env_ok).object = some obj_fresh ∧
    last_auth [Op.recv (recv_env_of (auth_msg 200)), Op.recv (recv_env_of (auth_msg 403))]
      = some 403 ∧
    (run obj_fresh [Op.recv (recv_env_of (auth_msg 200))]).authorized = true ∧
    (pcl_send (some (run obj_fresh
        [Op.recv (recv_env_of (auth_msg 200)), Op.recv (recv_env_of (auth_msg 403))]))
      (some unknown_msg) (send_env_of 3)).result = PCL_RESULT_ERROR_SOCK_SEND_AUTH :=
  ⟨rfl, by decide,
    ((authorized_iff_last_auth_200 true true true none init_env_ok obj_fresh rfl
      [Op.recv (recv_env_of (auth_msg 200))]).2.1).2 (by decide),
    (authorized_iff_last_auth_200 true true true none init_env_ok obj_fresh rfl
      [Op.recv (recv_env_of (auth_msg 200)), Op.recv (recv_env_of (auth_msg 403))]).2.2
      403 (by decide) (by decide) unknown_msg (send_env_of 3)⟩

/-! # Guard discipline -/

/-- C11, counterexample: the default session decodes an AUTH message with
status 200.  `pcl_recv` releases the guard (`sem_post`) before the switch, so
the two writes of the AUTH handler happen with the guard free; likewise
`pcl_send` reads `authorized` before `pcl_sock_send_wrp` acquires the guard. -/
theorem auth_fields_accessed_unguarded :
    (pcl_recv (some (pcl_init_obj none)) (recv_env_of (auth_msg 200))).trace
      = [Event.sem_wait, Event.nn_recv (-1), Event.wrp_to_struct, Event.nn_freemsg,
         Event.sem_post, Event.handler_auth { status := 200 },
         Event.write_authorized true, Event.write_auth_status 200,
         Event.wrp_free_struct] ∧
    events_free Event.isAuthAccess 0
        (pcl_recv (some (pcl_init_obj none)) (recv_env_of (auth_msg 200))).trace
      = [Event.write_authorized true, Event.write_auth_status 200] ∧
    events_free Event.isAuthAccess 0
        (pcl_send (some obj_fresh) (some unknown_msg) (send_env_of 3)).trace
      = [Event.read_authorized] := by
  refine ⟨by decide, by decide, by decide⟩

theorem pcl_recv_not_decoded_trace (obj : pcl_obj_t) (env : recv_env)
    (h : env.decoded = none) :
    (pcl_recv (some obj) env).trace
        = [Event.sem_wait, Event.nn_recv obj.recv.sock, Event.sem_post] ∨
    (pcl_recv (some obj) env).trace
        = [Event.sem_wait, Event.nn_recv obj.recv.sock, Event.wrp_to_struct,
           Event.nn_freemsg, Event.sem_post] := by
  unfold recv_env.decoded at h
  unfold pcl_recv
  by_cases h1 : env.msg_len < 0
  · by_cases he : env.errno = ETIMEDOUT <;> simp [h1, he]
  · cases hb : env.msg_buf with
    | none => by_cases he : env.errno = ETIMEDOUT <;> simp [h1, he]
    | some buf =>
      simp only [h1, hb, if_false] at h
      by_cases h2 : (env.wrp_to_struct buf env.msg_len).1 < 1
      · simp [h1, h2]
      · simp only [h2, if_false] at h
        simp [h1, h2, h]

theorem pcl_recv_guard (object : Option pcl_obj_t) (env : recv_env) :
    events_held Event.isAuthAccess 0 (pcl_recv object env).trace = [] ∧
    events_free Event.isEndpointIO 0 (pcl_recv object env).trace = [] ∧
    guard_after 0 (pcl_recv object env).trace = some 0 ∧
    acquired (pcl_recv object env).trace = released (pcl_recv object env).trace ∧
    events_held Event.isReplaceableHandler 0 (pcl_recv object env).trace = [] := by
  cases object with
  | none => simp [pcl_recv, events_held, events_free, guard_after, acquired, released]
  | some obj =>
    cases hdec : env.decoded with
    | none =>
      rcases pcl_recv_not_decoded_trace obj env hdec with h | h <;> rw [h] <;>
        simp [events_held, events_free, guard_after, acquired, released,
          Event.isAuthAccess, Event.isEndpointIO, Event.isReplaceableHandler]
    | some m =>
      rw [pcl_recv_decoded obj env m hdec]
      rcases m with ⟨ty, u⟩
      cases ty <;>
        simp only [pcl_recv_switch, pcl_msg_handler_auth, pcl_msg_handler_register] <;>
        first
          | (split <;>
              simp [events_held, events_free, guard_after, acquired, released,
                Event.isAuthAccess, Event.isEndpointIO, Event.isReplaceableHandler])
          | simp [events_held, events_free, guard_after, acquired, released,
              Event.isAuthAccess, Event.isEndpointIO, Event.isReplaceableHandler]

theorem pcl_send_guard (object : Option pcl_obj_t) (msg : Option wrp_msg_t)
    (env : send_env) :
    events_held Event.isAuthAccess 0 (pcl_send object msg env).trace = [] ∧
    events_free Event.isEndpointIO 0 (pcl_send object msg env).trace = [] ∧
    guard_after 0 (pcl_send object msg env).trace = some 0 ∧
    acquired (pcl_send object msg env).trace = released (pcl_send object msg env).trace ∧
    events_held Event.isReplaceableHandler 0 (pcl_send object msg env).trace = [] := by
  cases object with
  | none =>
    cases msg <;> simp [pcl_send, events_held, events_free, guard_after, acquired, released]
  | some obj =>
    cases msg with
    | none => simp [pcl_send, events_held, events_free, guard_after, acquired, released]
    | some m =>
      by_cases ha : obj.authorized = true
      · simp only [pcl_send, ha, Bool.not_true, Bool.false_eq_true, if_false,
          pcl_sock_send_wrp]
        by_cases h1 : (env.wrp_struct_to m).1 < 1
        · simp [h1, events_held, events_free, guard_after, acquired, released,
            Event.isAuthAccess, Event.isEndpointIO, Event.isReplaceableHandler]
        · cases hb : (env.wrp_struct_to m).2 with
          | none =>
            simp [h1, events_held, events_free, guard_after, acquired, released,
              Event.isAuthAccess, Event.isEndpointIO, Event.isReplaceableHandler]
          | some bytes =>
            simp only [h1, if_false]
            split_ifs <;>
              simp [events_held, events_free, guard_after, acquired, released,
                Event.isAuthAccess, Event.isEndpointIO, Event.isReplaceableHandler]
      · simp [pcl_send, ha, events_held, events_free, guard_after, acquired, released,
          Event.isAuthAccess, Event.isEndpointIO, Event.isReplaceableHandler]

theorem pcl_sock_send_wrp_guard (obj : pcl_obj_t) (m : wrp_msg_t) (env : send_env) :
    guard_after 0 (pcl_sock_send_wrp obj m env).2.2 = some 0 ∧
    acquired (pcl_sock_send_wrp obj m env).2.2
      = released (pcl_sock_send_wrp obj m env).2.2 := by
  simp only [pcl_sock_send_wrp]
  by_cases h1 : (env.wrp_struct_to m).1 < 1
  · simp [h1, guard_after, acquired, released]
  · cases hb : (env.wrp_struct_to m).2 with
    | none => simp [h1, guard_after, acquired, released]
    | some bytes =>
      simp only [h1, if_false]
      split_ifs <;> simp [guard_after, acquired, released]

/-- C11, amended: in every execution of `pcl_recv` and `pcl_send` the guard is
held at each read from and each write to an endpoint (`nn_recv`, `nn_send`),
and it is not held at any read or write of `authorized` or `auth_status` (the
update by the AUTH handler, the check of `pcl_send`): no event of the second
kind occurs with the guard held and none of the first with the guard free. -/
theorem guard_covers_endpoint_io_only (object : Option pcl_obj_t) (env : recv_env)
    (msg : Option wrp_msg_t) (senv : send_env) :
    events_free Event.isEndpointIO 0 (pcl_recv object env).trace = [] ∧
    events_held Event.isAuthAccess 0 (pcl_recv object env).trace = [] ∧
    events_free Event.isEndpointIO 0 (pcl_send object msg senv).trace = [] ∧
    events_held Event.isAuthAccess 0 (pcl_send object msg senv).trace = [] :=
  ⟨(pcl_recv_guard object env).2.1, (pcl_recv_guard object env).1,
    (pcl_send_guard object msg senv).2.1, (pcl_send_guard object msg senv).1⟩

/-- C20: in every execution of `pcl_recv`, `pcl_send` and `pcl_sock_send_wrp`
the guard is never released while free nor waited on while held, it is free
when the call returns, the trace holds as many `sem_post` as `sem_wait`, and
no invocation of a caller-replaceable handler occurs while the guard is
held. -/
theorem guard_released_on_every_path (object : Option pcl_obj_t) (env : recv_env)
    (msg : Option wrp_msg_t) (senv : send_env) (obj : pcl_obj_t) (m : wrp_msg_t) :
    guard_after 0 (pcl_recv object env).trace = some 0 ∧
    acquired (pcl_recv object env).trace = released (pcl_recv object env).trace ∧
    events_held Event.isReplaceableHandler 0 (pcl_recv object env).trace = [] ∧
    guard_after 0 (pcl_send object msg senv).trace = some 0 ∧
    acquired (pcl_send object msg senv).trace = released (pcl_send object msg senv).trace ∧
    events_held Event.isReplaceableHandler 0 (pcl_send object msg senv).trace = [] ∧
    guard_after 0 (pcl_sock_send_wrp obj m senv).2.2 = some 0 ∧
    acquired (pcl_sock_send_wrp obj m senv).2.2
      = released (pcl_sock_send_wrp obj m senv).2.2 :=
  ⟨(pcl_recv_guard object env).2.2.1, (pcl_recv_guard object env).2.2.2.1,
    (pcl_recv_guard object env).2.2.2.2,
    (pcl_send_guard object msg senv).2.2.1, (pcl_send_guard object msg senv).2.2.2.1,
    (pcl_send_guard object msg senv).2.2.2.2,
    (pcl_sock_send_wrp_guard obj m senv).1, (pcl_sock_send_wrp_guard obj m senv).2⟩

/-! # Kinds dispatched without destination matching, and read failures -/

/-- C12: for a decoded message of kind UNKNOWN or of any value outside the ten
named kinds `pcl_recv` returns ERROR_SOCK_RECV_MSGTYPE and invokes no handler;
for SVC_REGISTRATION it returns SUCCESS after the registration-ack hook; for
SVC_ALIVE it invokes the liveness handler and returns its code unchanged.
The message is arbitrary, so this holds whatever its destination fields
hold. -/
theorem pcl_recv_unaddressed (obj : pcl_obj_t) (env : recv_env) (m : wrp_msg_t)
    (hdec : env.decoded = some m) :
    ((m.msg_type = wrp_msg_type.UNKNOWN ∨ ∃ v, m.msg_type = wrp_msg_type.other v) →
      (pcl_recv (some obj) env).result = PCL_RESULT_ERROR_SOCK_RECV_MSGTYPE ∧
      handler_calls (pcl_recv (some obj) env).trace = []) ∧
    (m.msg_type = wrp_msg_type.SVC_REGISTRATION →
      (pcl_recv (some obj) env).result = PCL_RESULT_SUCCESS ∧
      handler_calls (pcl_recv (some obj) env).trace = [Event.handler_register m.u.reg]) ∧
    (m.msg_type = wrp_msg_type.SVC_ALIVE →
      (pcl_recv (some obj) env).result = obj.handler_alive () ∧
      handler_calls (pcl_recv (some obj) env).trace = [Event.handler_alive]) := by
  rw [pcl_recv_decoded obj env m hdec]
  rcases m with ⟨ty, u⟩
  refine ⟨?_, ?_, ?_⟩
  · rintro (h | ⟨v, h⟩) <;> simp only at h <;> subst h <;>
      simp [pcl_recv_switch, handler_calls, Event.isHandler]
  · intro h
    simp only at h
    subst h
    simp [pcl_recv_switch, pcl_msg_handler_register, handler_calls, Event.isHandler]
  · intro h
    simp only at h
    subst h
    simp [pcl_recv_switch, handler_calls, Event.isHandler]

/-- Witness of C12: a SVC_ALIVE message, whose destination fields match
nothing, reaches the liveness handler of a session that answers 13. -/
theorem pcl_recv_unaddressed_witness :
    (recv_env_of (msg_of_kind wrp_msg_type.SVC_ALIVE)).decoded
      = some (msg_of_kind wrp_msg_type.SVC_ALIVE) ∧
    pcl_service_name_match obj_custom (msg_of_kind wrp_msg_type.SVC_ALIVE).u.req.dest = false ∧
    (pcl_recv (some obj_custom) (recv_env_of (msg_of_kind wrp_msg_type.SVC_ALIVE))).result
      = obj_custom.handler_alive () ∧
    handler_calls
      (pcl_recv (some obj_custom) (recv_env_of (msg_of_kind wrp_msg_type.SVC_ALIVE))).trace
      = [Event.handler_alive] :=
  ⟨rfl, by decide,
    (pcl_recv_unaddressed obj_custom (recv_env_of (msg_of_kind wrp_msg_type.SVC_ALIVE))
      (msg_of_kind wrp_msg_type.SVC_ALIVE) rfl).2.2 rfl⟩

/-- C14: when the read fails (`nn_recv` returns a negative length or leaves
the buffer NULL) on a non-NULL session, `pcl_recv` returns
ERROR_SOCK_RECV_TIMEOUT exactly when `errno` is ETIMEDOUT and
ERROR_SOCK_RECV_READ otherwise, stores `errno` in `*errsv`, makes no call
besides the guarded `nn_recv` (no decoding, no handler) and leaves the session
unchanged; on a NULL session it returns ERROR_PARAMS with an empty trace. -/
theorem pcl_recv_read_failure (obj : pcl_obj_t) (env : recv_env)
    (hfail : env.msg_len < 0 ∨ env.msg_buf = none) :
    ((pcl_recv (some obj) env).result = PCL_RESULT_ERROR_SOCK_RECV_TIMEOUT ↔
      env.errno = ETIMEDOUT) ∧
    (env.errno ≠ ETIMEDOUT →
      (pcl_recv (some obj) env).result = PCL_RESULT_ERROR_SOCK_RECV_READ) ∧
    (pcl_recv (some obj) env).errsv = env.errno ∧
    (pcl_recv (some obj) env).trace
      = [Event.sem_wait, Event.nn_recv obj.recv.sock, Event.sem_post] ∧
    handler_calls (pcl_recv (some obj) env).trace = [] ∧
    (pcl_recv (some obj) env).obj = some obj ∧
    (pcl_recv none env).result = PCL_RESULT_ERROR_PARAMS ∧
    (pcl_recv none env).trace = [] := by
  have hout : pcl_recv (some obj) env =
      { result := if env.errno = ETIMEDOUT then PCL_RESULT_ERROR_SOCK_RECV_TIMEOUT
                  else PCL_RESULT_ERROR_SOCK_RECV_READ
        obj := some obj, errsv := env.errno
        trace := [Event.sem_wait, Event.nn_recv obj.recv.sock, Event.sem_post] } := by
    unfold pcl_recv
    by_cases h1 : env.msg_len < 0
    · by_cases he : env.errno = ETIMEDOUT <;> simp [h1, he]
    · have hb : env.msg_buf = none := by
        cases hfail with
        | inl h => exact absurd h h1
        | inr h => exact h
      by_cases he : env.errno = ETIMEDOUT <;> simp [h1, hb, he]
  rw [hout]
  refine ⟨?_, ?_, rfl, rfl, by simp [handler_calls, Event.isHandler], rfl, rfl, rfl⟩
  · by_cases he : env.errno = ETIMEDOUT
    · simp [he]
    · simp only [he, if_false, iff_false]
      decide
  · intro he
    simp [he]

/-- Witness of C14: a read that fails with `errno` 11 gives
ERROR_SOCK_RECV_READ and reports 11. -/
theorem pcl_recv_read_failure_witness :
    ((recv_env_failing 11).msg_len < 0 ∨ (recv_env_failing 11).msg_buf = none) ∧
    (pcl_recv (some obj_fresh) (recv_env_failing 11)).result
      = PCL_RESULT_ERROR_SOCK_RECV_READ ∧
    (pcl_recv (some obj_fresh) (recv_env_failing 11)).errsv = 11 :=
  ⟨Or.inl (by decide),
    (pcl_recv_read_failure obj_fresh (recv_env_failing 11) (Or.inl (by decide))).2.1
      (by decide),
    (pcl_recv_read_failure obj_fresh (recv_env_failing 11) (Or.inl (by decide))).2.2.1⟩

/-! # Teardown -/

theorem pcl_init_eq (object fd_recv fd_send : Bool) (params : Option pcl_params_t)
    (env : init_env) :
    pcl_init object fd_recv fd_send params env =
      let o := pcl_init_obj params
      let rs := env.recv_socket
      let ss := env.send_socket
      let errno := env.errno
      let fin := [Event.sem_destroy, Event.free_obj]
      let close_recv := [Event.nn_shutdown rs, Event.nn_close rs]
      let close_both := [Event.nn_shutdown rs, Event.nn_close rs,
                         Event.nn_shutdown ss, Event.nn_close ss]
      let a := [Event.malloc, Event.sem_init 1, Event.nn_socket nn_protocol.NN_PULL rs]
      let b := a ++ (if o.recv.timeout > 0 then
                  [Event.nn_setsockopt rs nn_option.NN_RCVTIMEO (int32 (o.recv.timeout * 1000))]
                else [])
      let c := b ++ [Event.nn_bind rs o.url_client]
      let d := c ++ [Event.nn_getsockopt rs nn_option.NN_RCVFD]
      let e := d ++ [Event.nn_socket nn_protocol.NN_PUSH ss]
      let f := e ++ [Event.nn_setsockopt ss nn_option.NN_SNDTIMEO o.send.timeout]
      let g := f ++ [Event.nn_connect ss o.url_parodus]
      let h := g ++ [Event.nn_getsockopt ss nn_option.NN_SNDFD]
      let reg := pcl_register (pcl_init_session params env) env.register
      let failed (code : pcl_result_t) (errsv : Int) (t : List Event) : init_out :=
        { result := code, object := none, fd_recv := none, fd_send := none,
          errsv := some errsv, trace := t }
      if object = false then
        { result := PCL_RESULT_ERROR_PARAMS, object := none, fd_recv := none,
          fd_send := none, errsv := none, trace := [] }
      else if env.malloc_ok = false then
        { result := PCL_RESULT_ERROR_OUT_OF_MEMORY, object := none, fd_recv := none,
          fd_send := none, errsv := some 0, trace := [Event.malloc] }
      else if rs < 0 then
        failed PCL_RESULT_ERROR_SOCK_RECV_CREATE errno (a ++ fin)
      else if o.recv.timeout > 0 ∧ env.recv_setsockopt < 0 then
        failed PCL_RESULT_ERROR_SOCK_RECV_SETOPT errno (b ++ close_recv ++ fin)
      else if env.bind < 0 then
        failed PCL_RESULT_ERROR_SOCK_RECV_BIND errno (c ++ close_recv ++ fin)
      else if env.recv_getsockopt < 0 then
        failed PCL_RESULT_ERROR_SOCK_RECV_GETOPT errno (d ++ close_recv ++ fin)
      else if ss < 0 then
        failed PCL_RESULT_ERROR_SOCK_SEND_CREATE errno (e ++ close_recv ++ fin)
      else if env.send_setsockopt < 0 ∨ env.recv_optvallen ≠ sizeof_int then
        failed PCL_RESULT_ERROR_SOCK_SEND_SETOPT errno (f ++ close_both ++ fin)
      else if env.connect < 0 then
        failed PCL_RESULT_ERROR_SOCK_SEND_CONNECT errno (g ++ close_both ++ fin)
      else if env.send_getsockopt < 0 ∨ env.send_optvallen ≠ sizeof_int then
        failed PCL_RESULT_ERROR_SOCK_SEND_GETOPT errno (h ++ close_both ++ fin)
      else if PCL_RESULT_SUCCESS ≠ reg.1 then
        failed PCL_RESULT_ERROR_REGISTER reg.2.1 (h ++ reg.2.2 ++ close_both ++ fin)
      else
        { result := PCL_RESULT_SUCCESS
          object := some (pcl_init_session params env)
          fd_recv := if fd_recv then some env.recv_fd else none
          fd_send := if fd_send then some env.send_fd else none
          errsv := some reg.2.1
          trace := h ++ reg.2.2 } := by
  have hrs : (pcl_init_obj params).recv.sock = -1 := rfl
  have hss : (pcl_init_obj params).send.sock = -1 := rfl
  unfold pcl_init
  cases object
  · simp
  · simp only [Bool.not_true, Bool.false_eq_true, if_false, Bool.true_eq_false]
    by_cases hm : env.malloc_ok = true
    · simp only [hm, Bool.not_true, Bool.false_eq_true, if_false, Bool.true_eq_false]
      by_cases ht : (pcl_init_obj params).recv.timeout > 0
      · simp only [ht, if_true, true_and]
        by_cases h1 : env.recv_socket < 0
        · simp only [h1, if_true, and_self, true_and]
          have h1n : ¬ 0 ≤ env.recv_socket := by omega
          simp [pcl_init_fail, pcl_obj_destroy_trace, hrs, hss, ht, h1n]
        · simp only [h1, if_false, and_false, false_and]
          have h1p : 0 ≤ env.recv_socket := by omega
          by_cases h2 : env.recv_setsockopt < 0
          · simp only [h2, if_true, and_self, true_and]
            simp [pcl_init_fail, pcl_obj_destroy_trace, hrs, hss, ht, h1p]
          · simp only [h2, if_false, and_false, false_and]
            by_cases h3 : env.bind < 0
            · simp only [h3, if_true, and_self, true_and]
              simp [pcl_init_fail, pcl_obj_destroy_trace, hrs, hss, ht, h1p]
            · simp only [h3, if_false, and_false, false_and]
              by_cases h4 : env.recv_getsockopt < 0
              · simp only [h4, if_true, and_self, true_and]
                simp [pcl_init_fail, pcl_obj_destroy_trace, hrs, hss, ht, h1p]
              · simp only [h4, if_false, and_false, false_and]
                by_cases h5 : env.send_socket < 0
                · simp only [h5, if_true, and_self, true_and]
                  have h5n : ¬ 0 ≤ env.send_socket := by omega
                  simp [pcl_init_fail, pcl_obj_destroy_trace, hrs, hss, ht, h1p, h5n]
                · simp only [h5, if_false, and_false, false_and]
                  have h5p : 0 ≤ env.send_socket := by omega
                  by_cases h6 : env.send_setsockopt < 0 ∨ env.recv_optvallen ≠ sizeof_int
                  · simp only [h6, if_true, and_self, true_and]
                    simp [pcl_init_fail, pcl_obj_destroy_trace, hrs, hss, ht, h1p, h5p]
                  · simp only [h6, if_false, and_false, false_and]
                    by_cases h7 : env.connect < 0
                    · simp only [h7, if_true, and_self, true_and]
                      simp [pcl_init_fail, pcl_obj_destroy_trace, hrs, hss, ht, h1p, h5p]
                    · simp only [h7, if_false, and_false, false_and]
                      by_cases h8 : env.send_getsockopt < 0 ∨ env.send_optvallen ≠ sizeof_int
                      · simp only [h8, if_true, and_self, true_and]
                        simp [pcl_init_fail, pcl_obj_destroy_trace, hrs, hss, ht, h1p, h5p]
                      · simp only [h8, if_false, and_false, false_and]
                        simp only [pcl_init_session, ht, if_true, if_false]
                        split_ifs with h9 <;>
                          simp [pcl_init_fail, pcl_obj_destroy_trace, hrs, hss, ht, h1p, h5p]
      · simp only [ht, if_false, false_and]
        by_cases h1 : env.recv_socket < 0
        · simp only [h1, if_true, and_self, true_and]
          have h1n : ¬ 0 ≤ env.recv_socket := by omega
          simp [pcl_init_fail, pcl_obj_destroy_trace, hrs, hss, ht, h1n]
        · simp only [h1, if_false, and_false, false_and]
          have h1p : 0 ≤ env.recv_socket := by omega
          by_cases h3 : env.bind < 0
          · simp only [h3, if_true, and_self, true_and]
            simp [pcl_init_fail, pcl_obj_destroy_trace, hrs, hss, ht, h1p]
          · simp only [h3, if_false, and_false, false_and]
            by_cases h4 : env.recv_getsockopt < 0
            · simp only [h4, if_true, and_self, true_and]
              simp [pcl_init_fail, pcl_obj_destroy_trace, hrs, hss, ht, h1p]
            · simp only [h4, if_false, and_false, false_and]
              by_cases h5 : env.send_socket < 0
              · simp only [h5, if_true, and_self, true_and]
                have h5n : ¬ 0 ≤ env.send_socket := by omega
                simp [pcl_init_fail, pcl_obj_destroy_trace, hrs, hss, ht, h1p, h5n]
              · simp only [h5, if_false, and_false, false_and]
                have h5p : 0 ≤ env.send_socket := by omega
                by_cases h6 : env.send_setsockopt < 0 ∨ env.recv_optvallen ≠ sizeof_int
                · simp only [h6, if_true, and_self, true_and]
                  simp [pcl_init_fail, pcl_obj_destroy_trace, hrs, hss, ht, h1p, h5p]
                · simp only [h6, if_false, and_false, false_and]
                  by_cases h7 : env.connect < 0
                  · simp only [h7, if_true, and_self, true_and]
                    simp [pcl_init_fail, pcl_obj_destroy_trace, hrs, hss, ht, h1p, h5p]
                  · simp only [h7, if_false, and_false, false_and]
                    by_cases h8 : env.send_getsockopt < 0 ∨ env.send_optvallen ≠ sizeof_int
                    · simp only [h8, if_true, and_self, true_and]
                      simp [pcl_init_fail, pcl_obj_destroy_trace, hrs, hss, ht, h1p, h5p]
                    · simp only [h8, if_false, and_false, false_and]
                      simp only [pcl_init_session, ht, if_true, if_false]
                      split_ifs with h9 <;>
                        simp [pcl_init_fail, pcl_obj_destroy_trace, hrs, hss, ht, h1p, h5p]
    · simp [hm]

theorem pcl_init_result_eq (object fd_recv fd_send : Bool) (params : Option pcl_params_t)
    (env : init_env) :
    (pcl_init object fd_recv fd_send params env).result =
      if object = false then PCL_RESULT_ERROR_PARAMS
      else if env.malloc_ok = false then PCL_RESULT_ERROR_OUT_OF_MEMORY
      else if env.recv_socket < 0 then PCL_RESULT_ERROR_SOCK_RECV_CREATE
      else if (pcl_init_obj params).recv.timeout > 0 ∧ env.recv_setsockopt < 0 then
        PCL_RESULT_ERROR_SOCK_RECV_SETOPT
      else if env.bind < 0 then PCL_RESULT_ERROR_SOCK_RECV_BIND
      else if env.recv_getsockopt < 0 then PCL_RESULT_ERROR_SOCK_RECV_GETOPT
      else if env.send_socket < 0 then PCL_RESULT_ERROR_SOCK_SEND_CREATE
      else if env.send_setsockopt < 0 ∨ env.recv_optvallen ≠ sizeof_int then
        PCL_RESULT_ERROR_SOCK_SEND_SETOPT
      else if env.connect < 0 then PCL_RESULT_ERROR_SOCK_SEND_CONNECT
      else if env.send_getsockopt < 0 ∨ env.send_optvallen ≠ sizeof_int then
        PCL_RESULT_ERROR_SOCK_SEND_GETOPT
      else if PCL_RESULT_SUCCESS
          ≠ (pcl_register (pcl_init_session params env) env.register).1 then
        PCL_RESULT_ERROR_REGISTER
      else PCL_RESULT_SUCCESS := by
  rw [pcl_init_eq]
  simp only [apply_ite init_out.result]

theorem pcl_init_success_iff (object fd_recv fd_send : Bool)
    (params : Option pcl_params_t) (env : init_env) :
    (pcl_init object fd_recv fd_send params env).result = PCL_RESULT_SUCCESS ↔
      (object = true ∧ env.malloc_ok = true ∧ 0 ≤ env.recv_socket ∧
        ¬ ((pcl_init_obj params).recv.timeout > 0 ∧ env.recv_setsockopt < 0) ∧
        0 ≤ env.bind ∧ 0 ≤ env.recv_getsockopt ∧ 0 ≤ env.send_socket ∧
        (0 ≤ env.send_setsockopt ∧ env.recv_optvallen = sizeof_int) ∧
        0 ≤ env.connect ∧
        (0 ≤ env.send_getsockopt ∧ env.send_optvallen = sizeof_int) ∧
        (pcl_register (pcl_init_session params env) env.register).1 = PCL_RESULT_SUCCESS) := by
  rw [pcl_init_result_eq]
  constructor
  · intro h
    by_cases h0 : object = false
    · rw [if_pos h0] at h; exact absurd h (by decide)
    rw [if_neg h0] at h
    by_cases hm : env.malloc_ok = false
    · rw [if_pos hm] at h; exact absurd h (by decide)
    rw [if_neg hm] at h
    by_cases h1 : env.recv_socket < 0
    · rw [if_pos h1] at h; exact absurd h (by decide)
    rw [if_neg h1] at h
    by_cases h2 : (pcl_init_obj params).recv.timeout > 0 ∧ env.recv_setsockopt < 0
    · rw [if_pos h2] at h; exact absurd h (by decide)
    rw [if_neg h2] at h
    by_cases h3 : env.bind < 0
    · rw [if_pos h3] at h; exact absurd h (by decide)
    rw [if_neg h3] at h
    by_cases h4 : env.recv_getsockopt < 0
    · rw [if_pos h4] at h; exact absurd h (by decide)
    rw [if_neg h4] at h
    by_cases h5 : env.send_socket < 0
    · rw [if_pos h5] at h; exact absurd h (by decide)
    rw [if_neg h5] at h
    by_cases h6 : env.send_setsockopt < 0 ∨ env.recv_optvallen ≠ sizeof_int
    · rw [if_pos h6] at h; exact absurd h (by decide)
    rw [if_neg h6] at h
    by_cases h7 : env.connect < 0
    · rw [if_pos h7] at h; exact absurd h (by decide)
    rw [if_neg h7] at h
    by_cases h8 : env.send_getsockopt < 0 ∨ env.send_optvallen ≠ sizeof_int
    · rw [if_pos h8] at h; exact absurd h (by decide)
    rw [if_neg h8] at h
    by_cases h9 : PCL_RESULT_SUCCESS ≠ (pcl_register (pcl_init_session params env) env.register).1
    · rw [if_pos h9] at h; exact absurd h (by decide)
    rw [if_neg h9] at h
    refine ⟨by simpa using h0, by simpa using hm, by omega, h2, by omega, by omega, by omega,
      ⟨by omega, by tauto⟩, by omega, ⟨by omega, by tauto⟩, (not_not.1 h9).symm⟩
  · rintro ⟨h0, hm, h1, h2, h3, h4, h5, h6, h7, h8, h9⟩
    rw [if_neg (by simp [h0]), if_neg (by simp [hm]), if_neg (by omega), if_neg h2,
      if_neg (by omega), if_neg (by omega), if_neg (by omega),
      if_neg (by rintro (h | h); omega; exact h h6.2), if_neg (by omega),
      if_neg (by rintro (h | h); omega; exact h h8.2), if_neg (by simp [h9])]

theorem pcl_init_success (object fd_recv fd_send : Bool) (params : Option pcl_params_t)
    (env : init_env)
    (hok : (pcl_init object fd_recv fd_send params env).result = PCL_RESULT_SUCCESS) :
    pcl_init object fd_recv fd_send params env =
      { result := PCL_RESULT_SUCCESS
        object := some (pcl_init_session params env)
        fd_recv := if fd_recv then some env.recv_fd else none
        fd_send := if fd_send then some env.send_fd else none
        errsv := some (pcl_register (pcl_init_session params env) env.register).2.1
        trace :=
          [Event.malloc, Event.sem_init 1,
            Event.nn_socket nn_protocol.NN_PULL env.recv_socket] ++
          (if (pcl_init_obj params).recv.timeout > 0 then
            [Event.nn_setsockopt env.recv_socket nn_option.NN_RCVTIMEO
              (int32 ((pcl_init_obj params).recv.timeout * 1000))]
           else []) ++
          [Event.nn_bind env.recv_socket (pcl_init_obj params).url_client,
            Event.nn_getsockopt env.recv_socket nn_option.NN_RCVFD,
            Event.nn_socket nn_protocol.NN_PUSH env.send_socket,
            Event.nn_setsockopt env.send_socket nn_option.NN_SNDTIMEO
              (pcl_init_obj params).send.timeout,
            Event.nn_connect env.send_socket (pcl_init_obj params).url_parodus,
            Event.nn_getsockopt env.send_socket nn_option.NN_SNDFD] ++
          (pcl_register (pcl_init_session params env) env.register).2.2 } := by
  obtain ⟨h0, hm, h1, h2, h3, h4, h5, h6, h7, h8, h9⟩ :=
    (pcl_init_success_iff object fd_recv fd_send params env).1 hok
  rw [pcl_init_eq]
  simp only
  rw [if_neg (by simp [h0]), if_neg (by simp [hm]), if_neg (by omega), if_neg h2,
    if_neg (by omega), if_neg (by omega), if_neg (by omega),
    if_neg (by rintro (h | h); omega; exact h h6.2), if_neg (by omega),
    if_neg (by rintro (h | h); omega; exact h h8.2), if_neg (by simp [h9])]
  simp

theorem pcl_init_object (object fd_recv fd_send : Bool) (params : Option pcl_params_t)
    (env : init_env) (obj : pcl_obj_t)
    (hobj : (pcl_init object fd_recv fd_send params env).object = some obj) :
    (pcl_init object fd_recv fd_send params env).result = PCL_RESULT_SUCCESS ∧
    obj = pcl_init_session params env := by
  have hres : (pcl_init object fd_recv fd_send params env).result = PCL_RESULT_SUCCESS := by
    rcases pcl_init_cases object fd_recv fd_send params env with h | h
    · exact h.1
    · rw [h.2.2.1] at hobj
      cases hobj
  refine ⟨hres, ?_⟩
  rw [pcl_init_success object fd_recv fd_send params env hres] at hobj
  cases hobj
  rfl

theorem pcl_sock_send_wrp_success_trace (obj : pcl_obj_t) (m : wrp_msg_t) (env : send_env)
    (h : (pcl_sock_send_wrp obj m env).1 = PCL_RESULT_SUCCESS) :
    ∃ bytes, env.wrp_struct_to m = (env.nn_send, some bytes) ∧ 1 ≤ env.nn_send ∧
      (pcl_sock_send_wrp obj m env).2.2
        = [Event.sem_wait, Event.wrp_struct_to m,
           Event.nn_send obj.send.sock bytes env.nn_send, Event.sem_post,
           Event.free_bytes] := by
  obtain ⟨bytes, h1, h2, h3⟩ := (pcl_sock_send_wrp_success obj m env).1 h
  refine ⟨bytes, ?_, by omega, ?_⟩
  · rw [h3]
    exact Prod.ext rfl h2
  · simp only [pcl_sock_send_wrp]
    have h1' : ¬ (env.wrp_struct_to m).1 < 1 := by omega
    have h4 : ¬ (env.wrp_struct_to m).1 < 0 := by omega
    simp [h1', h2, h4, h3]

/-! # Registration and stored configuration -/

/-- C15: when `pcl_init` returns SUCCESS, the session `obj` stored through
`object` is unauthorized (a `pcl_send` on it would be refused), the encoder
was called once, on the SVC_REGISTRATION message carrying `obj.service_name`
and `obj.url_client`, the only write of the whole call is the `nn_send` of
that encoding on the outbound endpoint, accepted whole, and the descriptors
stored through `fd_recv` and `fd_send` (when non-NULL) and kept in the session
are those the inbound and outbound `nn_getsockopt` queries returned. -/
theorem pcl_init_sends_registration (object fd_recv fd_send : Bool)
    (params : Option pcl_params_t) (env : init_env)
    (hok : (pcl_init object fd_recv fd_send params env).result = PCL_RESULT_SUCCESS) :
    ∃ obj bytes,
      (pcl_init object fd_recv fd_send params env).object = some obj ∧
      obj.authorized = false ∧
      (∀ msg senv, (pcl_send (some obj) (some msg) senv).result
        = PCL_RESULT_ERROR_SOCK_SEND_AUTH) ∧
      (registration_msg obj).msg_type = wrp_msg_type.SVC_REGISTRATION ∧
      (registration_msg obj).u.reg.service_name = obj.service_name ∧
      (registration_msg obj).u.reg.url = obj.url_client ∧
      env.register.wrp_struct_to (registration_msg obj)
        = (env.register.nn_send, some bytes) ∧
      (pcl_init object fd_recv fd_send params env).trace.filter Event.isEncode
        = [Event.wrp_struct_to (registration_msg obj)] ∧
      (pcl_init object fd_recv fd_send params env).trace.filter Event.isWrite
        = [Event.nn_send obj.send.sock bytes env.register.nn_send] ∧
      obj.send.sock = env.send_socket ∧
      (pcl_init object fd_recv fd_send params env).fd_recv
        = (if fd_recv then some env.recv_fd else none) ∧
      (pcl_init object fd_recv fd_send params env).fd_send
        = (if fd_send then some env.send_fd else none) ∧
      obj.recv.fd = env.recv_fd ∧ obj.send.fd = env.send_fd := by
  have hreg := ((pcl_init_success_iff object fd_recv fd_send params env).1 hok).2.2.2.2.2.2.2.2.2.2
  have hreg' : (pcl_sock_send_wrp (pcl_init_session params env)
      (registration_msg (pcl_init_session params env)) env.register).1
        = PCL_RESULT_SUCCESS := hreg
  obtain ⟨bytes, henc, _, htr⟩ := pcl_sock_send_wrp_success_trace _ _ _ hreg'
  have htr' : (pcl_register (pcl_init_session params env) env.register).2.2
      = [Event.sem_wait, Event.wrp_struct_to (registration_msg (pcl_init_session params env)),
         Event.nn_send (pcl_init_session params env).send.sock bytes env.register.nn_send,
         Event.sem_post, Event.free_bytes] := htr
  have hauth : (pcl_init_session params env).authorized = false := rfl
  refine ⟨pcl_init_session params env, bytes, ?_, hauth, ?_, rfl, rfl, rfl, henc, ?_, ?_, rfl,
    ?_, ?_, rfl, rfl⟩
  · rw [pcl_init_success object fd_recv fd_send params env hok]
  · intro msg senv
    simp [pcl_send, hauth]
  · rw [pcl_init_success object fd_recv fd_send params env hok]
    simp only [htr']
    by_cases ht : (pcl_init_obj params).recv.timeout > 0 <;> simp [ht, Event.isEncode]
  · rw [pcl_init_success object fd_recv fd_send params env hok]
    simp only [htr']
    by_cases ht : (pcl_init_obj params).recv.timeout > 0 <;> simp [ht, Event.isWrite]
  · rw [pcl_init_success object fd_recv fd_send params env hok]
  · rw [pcl_init_success object fd_recv fd_send params env hok]

/-- Witness of C15: `pcl_init` with NULL `params` over the double on which
every step succeeds. -/
theorem pcl_init_sends_registration_witness :
    (pcl_init true true true none init_env_ok).result = PCL_RESULT_SUCCESS ∧
    (pcl_init true true true none init_env_ok).trace.filter Event.isWrite
      = [Event.nn_send 4 [9, 9, 9] 3] ∧
    (pcl_init true true true none init_env_ok).fd_recv = some 10 ∧
    (pcl_init true true true none init_env_ok).fd_send = some 11 ∧
    ∃ obj bytes,
      (pcl_init true true true none init_env_ok).object = some obj ∧
      obj.authorized = false ∧
      (∀ msg senv, (pcl_send (some obj) (some msg) senv).result
        = PCL_RESULT_ERROR_SOCK_SEND_AUTH) ∧
      (registration_msg obj).msg_type = wrp_msg_type.SVC_REGISTRATION ∧
      (registration_msg obj).u.reg.service_name = obj.service_name ∧
      (registration_msg obj).u.reg.url = obj.url_client ∧
      init_env_ok.register.wrp_struct_to (registration_msg obj)
        = (init_env_ok.register.nn_send, some bytes) ∧
      (pcl_init true true true none init_env_ok).trace.filter Event.isEncode
        = [Event.wrp_struct_to (registration_msg obj)] ∧
      (pcl_init true true true none init_env_ok).trace.filter Event.isWrite
        = [Event.nn_send obj.send.sock bytes init_env_ok.register.nn_send] ∧
      obj.send.sock = init_env_ok.send_socket ∧
      (pcl_init true true true none init_env_ok).fd_recv
        = (if true then some init_env_ok.recv_fd else none) ∧
      (pcl_init true true true none init_env_ok).fd_send
        = (if true then some init_env_ok.send_fd else none) ∧
      obj.recv.fd = init_env_ok.recv_fd ∧ obj.send.fd = init_env_ok.send_fd :=
  ⟨by decide, by decide, by decide, by decide,
    pcl_init_sends_registration true true true none init_env_ok (by decide)⟩

theorem snprintf_s_of_not_mem (size : Nat) (s : List Nat) (h : 0 ∉ s) :
    snprintf_s size s = s.take (size - 1) := by
  unfold snprintf_s
  rw [strlen_of_not_mem s h, List.take_length]

/-- C19: for a configured service name `s` (a C string, so without NUL), the
name stored in the session `pcl_init` returns is the first 63 bytes of `s`:
it has at most 63 bytes, it is `s` itself when `s` has at most 63 bytes,
`service_name_len` is its length, and destination matching on that session
compares against this stored name. -/
theorem pcl_init_stored_service_name (object fd_recv fd_send : Bool) (p : pcl_params_t)
    (env : init_env) (s : List Nat) (obj : pcl_obj_t)
    (hs : p.service_name = some s) (h0 : 0 ∉ s)
    (hinit : (pcl_init object fd_recv fd_send (some p) env).object = some obj) :
    obj.service_name = s.take 63 ∧
    obj.service_name.length ≤ 63 ∧
    (s.length ≤ 63 → obj.service_name = s) ∧
    obj.service_name_len = (obj.service_name.length : Int) ∧
    (∀ d : List Nat, 0 ∉ d →
      (pcl_service_name_match obj d = true ↔
        (ascii "mac:" <+: d ∧
          ∃ pre tail, d = pre ++ 47 :: (s.take 63 ++ tail) ∧ 47 ∉ pre ∧
            (tail.head? = none ∨ tail.head? = some 47 ∨ tail.head? = some 63 ∨
              tail.head? = some 35)))) := by
  obtain ⟨_, hobj⟩ := pcl_init_object object fd_recv fd_send (some p) env obj hinit
  have hname : obj.service_name = s.take 63 := by
    rw [hobj]
    simp only [pcl_init_session, pcl_init_obj, hs, Option.getD_some]
    rw [snprintf_s_of_not_mem _ _ h0]
    rfl
  have hnul : 0 ∉ obj.service_name := by
    rw [hname]
    exact fun hmem => h0 (List.mem_of_mem_take hmem)
  have hlen : obj.service_name_len = (obj.service_name.length : Int) := by
    have h1 : obj.service_name_len = (strlen obj.service_name : Int) := by
      rw [hobj]
      rfl
    rw [h1, strlen_of_not_mem _ hnul]
  have hle : obj.service_name.length ≤ 63 := by
    rw [hname, List.length_take]
    omega
  refine ⟨hname, hle, ?_, hlen, ?_⟩
  · intro h
    rw [hname, List.take_of_length_le h]
  · intro d hd
    have hmax : obj.service_name.length < PCL_SERVICE_NAME_LEN_MAX := by
      unfold PCL_SERVICE_NAME_LEN_MAX
      omega
    have h := pcl_service_name_match_general obj d hd hnul hlen hmax
    rw [hname] at h
    exact h

/-- Witness of C19: a configured name of 70 bytes `'a'` is stored as 63
bytes. -/
theorem pcl_init_stored_service_name_witness :
    (params_of_service_name (List.replicate 70 97)).service_name
      = some (List.replicate 70 97) ∧
    (0 ∉ List.replicate 70 97) ∧
    (pcl_init true true true (some (params_of_service_name (List.replicate 70 97)))
      init_env_ok).object = some obj_name70 ∧
    obj_name70.service_name = (List.replicate 70 97).take 63 ∧
    obj_name70.service_name.length = 63 ∧
    obj_name70.service_name_len = 63 :=
  ⟨rfl, by decide, rfl,
    (pcl_init_stored_service_name true true true
      (params_of_service_name (List.replicate 70 97)) init_env_ok (List.replicate 70 97)
      obj_name70 rfl (by decide) rfl).1,
    by decide, by decide⟩

theorem pcl_register_no_setsockopt (obj : pcl_obj_t) (env : send_env) :
    (pcl_register obj env).2.2.filter Event.isSetsockopt = [] := by
  simp only [pcl_register, pcl_sock_send_wrp]
  split_ifs <;> first
    | (simp [Event.isSetsockopt]; done)
    | (split <;> simp [Event.isSetsockopt])

theorem pcl_init_setsockopt_calls (object fd_recv fd_send : Bool)
    (params : Option pcl_params_t) (env : init_env) :
    (pcl_init object fd_recv fd_send params env).trace.filter Event.isSetsockopt =
      (if object = true ∧ env.malloc_ok = true ∧ 0 ≤ env.recv_socket ∧
          (pcl_init_obj params).recv.timeout > 0 then
        [Event.nn_setsockopt env.recv_socket nn_option.NN_RCVTIMEO
          (int32 ((pcl_init_obj params).recv.timeout * 1000))]
       else []) ++
      (if object = true ∧ env.malloc_ok = true ∧ 0 ≤ env.recv_socket ∧
          ¬ ((pcl_init_obj params).recv.timeout > 0 ∧ env.recv_setsockopt < 0) ∧
          0 ≤ env.bind ∧ 0 ≤ env.recv_getsockopt ∧ 0 ≤ env.send_socket then
        [Event.nn_setsockopt env.send_socket nn_option.NN_SNDTIMEO
          (pcl_init_obj params).send.timeout]
       else []) := by
  have hreg := pcl_register_no_setsockopt (pcl_init_session params env) env.register
  rw [pcl_init_eq]
  simp only [apply_ite init_out.trace]
  by_cases h0 : object = false
  · rw [if_pos h0]
    simp [Event.isSetsockopt, List.filter_append, hreg, apply_ite (List.filter
      Event.isSetsockopt), h0]
  rw [if_neg h0]
  have h0p : object = true := by simpa using h0
  by_cases hm : env.malloc_ok = false
  · rw [if_pos hm]
    simp [Event.isSetsockopt, List.filter_append, hreg, apply_ite (List.filter
      Event.isSetsockopt), h0p, hm]
  rw [if_neg hm]
  have hmp : env.malloc_ok = true := by simpa using hm
  by_cases h1 : env.recv_socket < 0
  · rw [if_pos h1]
    simp [Event.isSetsockopt, List.filter_append, hreg, apply_ite (List.filter
      Event.isSetsockopt), h0p, hmp, h1]
  rw [if_neg h1]
  have h1p : 0 ≤ env.recv_socket := by omega
  by_cases h2 : (pcl_init_obj params).recv.timeout > 0 ∧ env.recv_setsockopt < 0
  · rw [if_pos h2]
    simp [Event.isSetsockopt, List.filter_append, hreg, apply_ite (List.filter
      Event.isSetsockopt), h0p, hmp, h1p, h2]
  rw [if_neg h2]
  by_cases h3 : env.bind < 0
  · rw [if_pos h3]
    simp [Event.isSetsockopt, List.filter_append, hreg, apply_ite (List.filter
      Event.isSetsockopt), h0p, hmp, h1p, h2, h3]
  rw [if_neg h3]
  have h3p : 0 ≤ env.bind := by omega
  by_cases h4 : env.recv_getsockopt < 0
  · rw [if_pos h4]
    simp [Event.isSetsockopt, List.filter_append, hreg, apply_ite (List.filter
      Event.isSetsockopt), h0p, hmp, h1p, h2, h3p, h4]
  rw [if_neg h4]
  have h4p : 0 ≤ env.recv_getsockopt := by omega
  by_cases h5 : env.send_socket < 0
  · rw [if_pos h5]
    simp [Event.isSetsockopt, List.filter_append, hreg, apply_ite (List.filter
      Event.isSetsockopt), h0p, hmp, h1p, h2, h3p, h4p, h5]
  rw [if_neg h5]
  have h5p : 0 ≤ env.send_socket := by omega
  by_cases h6 : env.send_setsockopt < 0 ∨ env.recv_optvallen ≠ sizeof_int
  · rw [if_pos h6]
    simp [Event.isSetsockopt, List.filter_append, hreg, apply_ite (List.filter
      Event.isSetsockopt), h0p, hmp, h1p, h2, h3p, h4p, h5p, h6]
  rw [if_neg h6]
  by_cases h7 : env.connect < 0
  · rw [if_pos h7]
    simp [Event.isSetsockopt, List.filter_append, hreg, apply_ite (List.filter
      Event.isSetsockopt), h0p, hmp, h1p, h2, h3p, h4p, h5p, h6, h7]
  rw [if_neg h7]
  by_cases h8 : env.send_getsockopt < 0 ∨ env.send_optvallen ≠ sizeof_int
  · rw [if_pos h8]
    simp [Event.isSetsockopt, List.filter_append, hreg, apply_ite (List.filter
      Event.isSetsockopt), h0p, hmp, h1p, h2, h3p, h4p, h5p, h6, h7, h8]
  rw [if_neg h8]
  by_cases h9 : PCL_RESULT_SUCCESS ≠ (pcl_register (pcl_init_session params env) env.register).1
  · rw [if_pos h9]
    simp [Event.isSetsockopt, List.filter_append, hreg, apply_ite (List.filter
      Event.isSetsockopt), h0p, hmp, h1p, h2, h3p, h4p, h5p, h6, h7, h8, h9]
  rw [if_neg h9]
  simp [Event.isSetsockopt, List.filter_append, hreg, apply_ite (List.filter
    Event.isSetsockopt), h0p, hmp, h1p, h2, h3p, h4p, h5p, h6, h7, h8, h9]

/-! # Receive timeout -/

theorem pcl_init_recv_setopt_timeout (object fd_recv fd_send : Bool)
    (params : Option pcl_params_t) (env : init_env)
    (h : (pcl_init object fd_recv fd_send params env).result
      = PCL_RESULT_ERROR_SOCK_RECV_SETOPT) :
    (pcl_init_obj params).recv.timeout > 0 := by
  rw [pcl_init_result_eq] at h
  by_cases h0 : object = false
  · rw [if_pos h0] at h; exact absurd h (by decide)
  rw [if_neg h0] at h
  by_cases hm : env.malloc_ok = false
  · rw [if_pos hm] at h; exact absurd h (by decide)
  rw [if_neg hm] at h
  by_cases h1 : env.recv_socket < 0
  · rw [if_pos h1] at h; exact absurd h (by decide)
  rw [if_neg h1] at h
  by_cases h2 : (pcl_init_obj params).recv.timeout > 0 ∧ env.recv_setsockopt < 0
  · exact h2.1
  rw [if_neg h2] at h
  by_cases h3 : env.bind < 0
  · rw [if_pos h3] at h; exact absurd h (by decide)
  rw [if_neg h3] at h
  by_cases h4 : env.recv_getsockopt < 0
  · rw [if_pos h4] at h; exact absurd h (by decide)
  rw [if_neg h4] at h
  by_cases h5 : env.send_socket < 0
  · rw [if_pos h5] at h; exact absurd h (by decide)
  rw [if_neg h5] at h
  by_cases h6 : env.send_setsockopt < 0 ∨ env.recv_optvallen ≠ sizeof_int
  · rw [if_pos h6] at h; exact absurd h (by decide)
  rw [if_neg h6] at h
  by_cases h7 : env.connect < 0
  · rw [if_pos h7] at h; exact absurd h (by decide)
  rw [if_neg h7] at h
  by_cases h8 : env.send_getsockopt < 0 ∨ env.send_optvallen ≠ sizeof_int
  · rw [if_pos h8] at h; exact absurd h (by decide)
  rw [if_neg h8] at h
  by_cases h9 : PCL_RESULT_SUCCESS ≠ (pcl_register (pcl_init_session params env) env.register).1
  · rw [if_pos h9] at h; exact absurd h (by decide)
  rw [if_neg h9] at h
  exact absurd h (by decide)

theorem filter_isRcvTimeo_eq (t : List Event) :
    t.filter Event.isRcvTimeo = (t.filter Event.isSetsockopt).filter Event.isRcvTimeo := by
  rw [List.filter_filter]
  congr 1
  funext e
  cases e <;> simp [Event.isRcvTimeo, Event.isSetsockopt]

theorem int32_of_fits (x : Int) (h0 : -2147483648 ≤ x) (h1 : x ≤ 2147483647) :
    int32 x = x := by
  unfold int32
  omega

/-- C17, counterexample: with a configured receive timeout of 2147484 seconds
(a non-negative 32-bit value) the product by 1000 does not fit the `int`
field `recv.timeout`; the value `pcl_init` passes as NN_RCVTIMEO is the
wrapped `int` -2147483296, not 2147484000 milliseconds. -/
theorem recv_timeout_overflows :
    (0 : Int) ≤ 2147484 ∧ (2147484 : Int) < 2 ^ 31 ∧
    (pcl_init true true true (some (params_of_timeout_recv 2147484))
        init_env_ok).trace.filter Event.isRcvTimeo
      = [Event.nn_setsockopt 3 nn_option.NN_RCVTIMEO (-2147483296)] ∧
    (-2147483296 : Int) ≠ 2147484 * 1000 := by
  refine ⟨by decide, by decide, by decide, by decide⟩

/-- C17, amended: for a configured receive timeout of `t` seconds with
`0 <= t <= 2147483` (so that `t * 1000` fits a 32-bit `int`): if `t` is not 0,
every run of `pcl_init` that creates the inbound endpoint applies exactly one
receive timeout to it, of `t * 1000` milliseconds; if `t` is 0 no receive
timeout is applied and `pcl_init` does not return ERROR_SOCK_RECV_SETOPT. -/
theorem pcl_init_recv_timeout_ms (object fd_recv fd_send : Bool) (p : pcl_params_t)
    (env : init_env) (t : Int) (hp : p.timeout_recv = some t)
    (h0 : 0 ≤ t) (hmax : t ≤ 2147483) :
    (t ≠ 0 → object = true → env.malloc_ok = true → 0 ≤ env.recv_socket →
      (pcl_init object fd_recv fd_send (some p) env).trace.filter Event.isRcvTimeo
        = [Event.nn_setsockopt env.recv_socket nn_option.NN_RCVTIMEO (t * 1000)]) ∧
    (t = 0 →
      (pcl_init object fd_recv fd_send (some p) env).trace.filter Event.isRcvTimeo = [] ∧
      (pcl_init object fd_recv fd_send (some p) env).result
        ≠ PCL_RESULT_ERROR_SOCK_RECV_SETOPT) := by
  have htmo : (pcl_init_obj (some p)).recv.timeout = t := by
    simp [pcl_init_obj, hp]
  constructor
  · intro hne hobj hm hrs
    have hpos : (pcl_init_obj (some p)).recv.timeout > 0 := by
      rw [htmo]
      omega
    rw [filter_isRcvTimeo_eq, pcl_init_setsockopt_calls, List.filter_append,
      if_pos ⟨hobj, hm, hrs, hpos⟩, htmo, int32_of_fits (t * 1000) (by omega) (by omega)]
    by_cases hc : object = true ∧ env.malloc_ok = true ∧ 0 ≤ env.recv_socket ∧
        ¬ ((pcl_init_obj (some p)).recv.timeout > 0 ∧ env.recv_setsockopt < 0) ∧
        0 ≤ env.bind ∧ 0 ≤ env.recv_getsockopt ∧ 0 ≤ env.send_socket
    · rw [← htmo, if_pos hc]
      simp [Event.isRcvTimeo]
    · rw [← htmo, if_neg hc]
      simp [Event.isRcvTimeo]
  · intro hz
    have hnpos : ¬ (pcl_init_obj (some p)).recv.timeout > 0 := by
      rw [htmo]
      omega
    constructor
    · rw [filter_isRcvTimeo_eq, pcl_init_setsockopt_calls, List.filter_append,
        if_neg (fun h => hnpos h.2.2.2)]
      by_cases hc : object = true ∧ env.malloc_ok = true ∧ 0 ≤ env.recv_socket ∧
          ¬ ((pcl_init_obj (some p)).recv.timeout > 0 ∧ env.recv_setsockopt < 0) ∧
          0 ≤ env.bind ∧ 0 ≤ env.recv_getsockopt ∧ 0 ≤ env.send_socket
      · rw [if_pos hc]
        simp [Event.isRcvTimeo]
      · rw [if_neg hc]
        simp [Event.isRcvTimeo]
    · intro hres
      exact hnpos (pcl_init_recv_setopt_timeout object fd_recv fd_send (some p) env hres)

/-- Witness of C17 (amended): a configured timeout of 5 seconds is applied as
5000 milliseconds. -/
theorem pcl_init_recv_timeout_ms_witness :
    (params_of_timeout_recv 5).timeout_recv = some 5 ∧
    (pcl_init true true true (some (params_of_timeout_recv 5))
        init_env_ok).trace.filter Event.isRcvTimeo
      = [Event.nn_setsockopt init_env_ok.recv_socket nn_option.NN_RCVTIMEO (5 * 1000)] :=
  ⟨rfl,
    (pcl_init_recv_timeout_ms true true true (params_of_timeout_recv 5) init_env_ok 5 rfl
      (by decide) (by decide)).1 (by decide) rfl rfl (by decide)⟩

/-! # Defaults of the configuration -/

theorem snprintf_s_of_fits (size : Nat) (s : List Nat) (h0 : 0 ∉ s) (hlen : s.length < size) :
    snprintf_s size s = s := by
  rw [snprintf_s_of_not_mem size s h0]
  exact List.take_of_length_le (by omega)

/-- C16: `pcl_init` with NULL `params` behaves as `pcl_init` with a record all
of whose fields are NULL, and builds the configuration: service name "iot",
relay address "tcp://127.0.0.1:6666", local address "tcp://127.0.0.1:6667",
receive and send timeouts 2, the seven handler slots bound to the built-in
handlers, each of which returns SUCCESS on every message.  For every record
`p`, each slot is determined by the field of `p` of the same name alone: it
holds the field when present (a string as `snprintf` stores it in the buffer
of the slot, unchanged when it fits) and the default when absent.  The same
holds of the session `pcl_init` returns, whose receive timeout is held in
milliseconds: a successful call returns a session, with NULL `params` the
session holds the defaults, and with a record `p` each of its slots holds the
field of `p` of the same name when present and the default when absent. -/
theorem pcl_init_defaults (object fd_recv fd_send : Bool) (env : init_env)
    (p : pcl_params_t) :
    pcl_init object fd_recv fd_send none env
      = pcl_init object fd_recv fd_send (some params_absent) env ∧
    ((pcl_init_obj none).service_name = ascii "iot" ∧
     (pcl_init_obj none).url_parodus = ascii "tcp://127.0.0.1:6666" ∧
     (pcl_init_obj none).url_client = ascii "tcp://127.0.0.1:6667" ∧
     (pcl_init_obj none).recv.timeout = 2 ∧
     (pcl_init_obj none).send.timeout = 2 ∧
     (pcl_init_obj none).handler_request = pcl_msg_handler_request ∧
     (pcl_init_obj none).handler_event = pcl_msg_handler_event ∧
     (pcl_init_obj none).handler_create = pcl_msg_handler_create ∧
     (pcl_init_obj none).handler_retrieve = pcl_msg_handler_retrieve ∧
     (pcl_init_obj none).handler_update = pcl_msg_handler_update ∧
     (pcl_init_obj none).handler_delete = pcl_msg_handler_delete ∧
     (pcl_init_obj none).handler_alive = pcl_msg_handler_alive) ∧
    ((∀ m, pcl_msg_handler_request m = PCL_RESULT_SUCCESS) ∧
     (∀ m, pcl_msg_handler_event m = PCL_RESULT_SUCCESS) ∧
     (∀ m, pcl_msg_handler_create m = PCL_RESULT_SUCCESS) ∧
     (∀ m, pcl_msg_handler_retrieve m = PCL_RESULT_SUCCESS) ∧
     (∀ m, pcl_msg_handler_update m = PCL_RESULT_SUCCESS) ∧
     (∀ m, pcl_msg_handler_delete m = PCL_RESULT_SUCCESS) ∧
     (∀ u, pcl_msg_handler_alive u = PCL_RESULT_SUCCESS)) ∧
    ((pcl_init_obj (some p)).service_name
        = snprintf_s 64 (p.service_name.getD (ascii "iot")) ∧
     (pcl_init_obj (some p)).url_parodus
        = snprintf_s 256 (p.url_parodus.getD (ascii "tcp://127.0.0.1:6666")) ∧
     (pcl_init_obj (some p)).url_client
        = snprintf_s 256 (p.url_client.getD (ascii "tcp://127.0.0.1:6667")) ∧
     (∀ (size : Nat) (s : List Nat), 0 ∉ s → s.length < size → snprintf_s size s = s) ∧
     (pcl_init_obj (some p)).recv.timeout = p.timeout_recv.getD 2 ∧
     (pcl_init_obj (some p)).send.timeout = p.timeout_send.getD 2 ∧
     (pcl_init_obj (some p)).handler_request
        = p.handler_request.getD pcl_msg_handler_request ∧
     (pcl_init_obj (some p)).handler_event = p.handler_event.getD pcl_msg_handler_event ∧
     (pcl_init_obj (some p)).handler_create = p.handler_create.getD pcl_msg_handler_create ∧
     (pcl_init_obj (some p)).handler_retrieve
        = p.handler_retrieve.getD pcl_msg_handler_retrieve ∧
     (pcl_init_obj (some p)).handler_update = p.handler_update.getD pcl_msg_handler_update ∧
     (pcl_init_obj (some p)).handler_delete = p.handler_delete.getD pcl_msg_handler_delete ∧
     (pcl_init_obj (some p)).handler_alive = p.handler_alive.getD pcl_msg_handler_alive) ∧
    (∀ params, (pcl_init object fd_recv fd_send params env).result = PCL_RESULT_SUCCESS →
      ∃ obj, (pcl_init object fd_recv fd_send params env).object = some obj) ∧
    (∀ obj, (pcl_init object fd_recv fd_send none env).object = some obj →
      obj.service_name = ascii "iot" ∧
      obj.url_parodus = ascii "tcp://127.0.0.1:6666" ∧
      obj.url_client = ascii "tcp://127.0.0.1:6667" ∧
      obj.recv.timeout = 2 * 1000 ∧
      obj.send.timeout = 2 ∧
      obj.handler_request = pcl_msg_handler_request ∧
      obj.handler_event = pcl_msg_handler_event ∧
      obj.handler_create = pcl_msg_handler_create ∧
      obj.handler_retrieve = pcl_msg_handler_retrieve ∧
      obj.handler_update = pcl_msg_handler_update ∧
      obj.handler_delete = pcl_msg_handler_delete ∧
      obj.handler_alive = pcl_msg_handler_alive) ∧
    (∀ obj, (pcl_init object fd_recv fd_send (some p) env).object = some obj →
      obj.service_name = snprintf_s 64 (p.service_name.getD (ascii "iot")) ∧
      obj.url_parodus = snprintf_s 256 (p.url_parodus.getD (ascii "tcp://127.0.0.1:6666")) ∧
      obj.url_client = snprintf_s 256 (p.url_client.getD (ascii "tcp://127.0.0.1:6667")) ∧
      obj.recv.timeout
        = (if p.timeout_recv.getD 2 > 0 then int32 (p.timeout_recv.getD 2 * 1000)
           else p.timeout_recv.getD 2) ∧
      obj.send.timeout = p.timeout_send.getD 2 ∧
      obj.handler_request = p.handler_request.getD pcl_msg_handler_request ∧
      obj.handler_event = p.handler_event.getD pcl_msg_handler_event ∧
      obj.handler_create = p.handler_create.getD pcl_msg_handler_create ∧
      obj.handler_retrieve = p.handler_retrieve.getD pcl_msg_handler_retrieve ∧
      obj.handler_update = p.handler_update.getD pcl_msg_handler_update ∧
      obj.handler_delete = p.handler_delete.getD pcl_msg_handler_delete ∧
      obj.handler_alive = p.handler_alive.getD pcl_msg_handler_alive) := by
  have h : pcl_init_obj none = pcl_init_obj (some params_absent) := rfl
  refine ⟨?_, ?_, ?_, ?_, ?_, ?_, ?_⟩
  · unfold pcl_init
    rw [h]
  · exact ⟨by decide, by decide, by decide, rfl, rfl, rfl, rfl, rfl, rfl, rfl, rfl, rfl⟩
  · exact ⟨fun _ => rfl, fun _ => rfl, fun _ => rfl, fun _ => rfl, fun _ => rfl,
      fun _ => rfl, fun _ => rfl⟩
  · exact ⟨rfl, rfl, rfl, snprintf_s_of_fits, rfl, rfl, rfl, rfl, rfl, rfl, rfl, rfl, rfl⟩
  · intro params hok
    rw [pcl_init_success object fd_recv fd_send params env hok]
    exact ⟨_, rfl⟩
  · intro obj hobj
    rw [(pcl_init_object object fd_recv fd_send none env obj hobj).2]
    exact ⟨(by decide : (pcl_init_obj none).service_name = ascii "iot"),
      (by decide : (pcl_init_obj none).url_parodus = ascii "tcp://127.0.0.1:6666"),
      (by decide : (pcl_init_obj none).url_client = ascii "tcp://127.0.0.1:6667"),
      (by decide : (if (pcl_init_obj none).recv.timeout > 0 then
          int32 ((pcl_init_obj none).recv.timeout * 1000)
        else (pcl_init_obj none).recv.timeout) = 2 * 1000),
      rfl, rfl, rfl, rfl, rfl, rfl, rfl, rfl⟩
  · intro obj hobj
    rw [(pcl_init_object object fd_recv fd_send (some p) env obj hobj).2]
    exact ⟨rfl, rfl, rfl, rfl, rfl, rfl, rfl, rfl, rfl, rfl, rfl, rfl⟩

/-- Witness of C16: `pcl_init` succeeds on a record that configures the
service name "config", a receive timeout of 5 seconds and a request handler
answering with the code 12; the session it returns holds the three, with the
receive timeout in milliseconds, and the defaults in the send timeout, the
relay address and the event handler slot. -/
theorem pcl_init_defaults_witness :
    (pcl_init true true true (some params_custom) init_env_ok).result = PCL_RESULT_SUCCESS ∧
    (pcl_init true true true (some params_custom) init_env_ok).object
      = some (pcl_init_session (some params_custom) init_env_ok) ∧
    (pcl_init_session (some params_custom) init_env_ok).service_name = ascii "config" ∧
    (pcl_init_session (some params_custom) init_env_ok).recv.timeout = 5000 ∧
    (pcl_init_session (some params_custom) init_env_ok).handler_request (default : wrp_req_msg)
      = PCL_RESULT_ERROR_SOCK_RECV_CONTENT ∧
    (pcl_init_session (some params_custom) init_env_ok).send.timeout = 2 ∧
    (pcl_init_session (some params_custom) init_env_ok).url_parodus
      = ascii "tcp://127.0.0.1:6666" ∧
    (pcl_init_session (some params_custom) init_env_ok).handler_event = pcl_msg_handler_event :=
  ⟨by decide, rfl,
    ((pcl_init_defaults true true true init_env_ok params_custom).2.2.2.2.2.2
      (pcl_init_session (some params_custom) init_env_ok) rfl).1.trans (by decide),
    ((pcl_init_defaults true true true init_env_ok params_custom).2.2.2.2.2.2
      (pcl_init_session (some params_custom) init_env_ok) rfl).2.2.2.1.trans (by decide),
    congrFun ((pcl_init_defaults true true true init_env_ok params_custom).2.2.2.2.2.2
      (pcl_init_session (some params_custom) init_env_ok) rfl).2.2.2.2.2.1 default,
    ((pcl_init_defaults true true true init_env_ok params_custom).2.2.2.2.2.2
      (pcl_init_session (some params_custom) init_env_ok) rfl).2.2.2.2.1,
    ((pcl_init_defaults true true true init_env_ok params_custom).2.2.2.2.2.2
      (pcl_init_session (some params_custom) init_env_ok) rfl).2.1.trans (by decide),
    ((pcl_init_defaults true true true init_env_ok params_custom).2.2.2.2.2.2
      (pcl_init_session (some params_custom) init_env_ok) rfl).2.2.2.2.2.2.1⟩

/-! # Result texts -/

theorem dec_value_digits_aux :
    ∀ (fuel n : Nat) (acc : List Nat), n < fuel →
      dec_value 0 (dec_digits_aux fuel n acc) = dec_value n acc := by
  intro fuel
  induction fuel with
  | zero => intro n acc h; omega
  | succ fuel ih =>
    intro n acc h
    unfold dec_digits_aux
    by_cases h10 : n < 10
    · simp [h10, dec_value]
    · rw [if_neg h10, ih (n / 10) _ (by omega)]
      simp only [dec_value, List.foldl_cons]
      congr 1
      omega

theorem dec_digits_aux_head :
    ∀ (fuel n : Nat) (acc : List Nat), n < fuel →
      ∃ d t, d < 10 ∧ dec_digits_aux fuel n acc = (48 + d) :: t := by
  intro fuel
  induction fuel with
  | zero => intro n acc h; omega
  | succ fuel ih =>
    intro n acc h
    unfold dec_digits_aux
    by_cases h10 : n < 10
    · exact ⟨n, acc, h10, by simp [h10]⟩
    · rw [if_neg h10]
      exact ih (n / 10) _ (by omega)

theorem dec_digits_aux_length :
    ∀ (fuel k n : Nat) (acc : List Nat), n < 10 ^ (k + 1) →
      (dec_digits_aux fuel n acc).length ≤ k + 1 + acc.length := by
  intro fuel
  induction fuel with
  | zero => intro k n acc _; simp [dec_digits_aux]
  | succ fuel ih =>
    intro k n acc h
    unfold dec_digits_aux
    by_cases h10 : n < 10
    · simp only [h10, if_true, List.length_cons]
      omega
    · rw [if_neg h10]
      cases k with
      | zero => simp at h; omega
      | succ k =>
        have hdiv : n / 10 < 10 ^ (k + 1) := by
          rw [Nat.div_lt_iff_lt_mul (by decide)]
          calc n < 10 ^ (k + 1 + 1) := h
            _ = 10 ^ (k + 1) * 10 := by ring
        have := ih k (n / 10) ((48 + n % 10) :: acc) hdiv
        simp only [List.length_cons] at this
        omega

theorem dec_digits_aux_ne_zero :
    ∀ (fuel n : Nat) (acc : List Nat), 0 ∉ acc → 0 ∉ dec_digits_aux fuel n acc := by
  intro fuel
  induction fuel with
  | zero => intro n acc h; simpa [dec_digits_aux] using h
  | succ fuel ih =>
    intro n acc h
    unfold dec_digits_aux
    by_cases h10 : n < 10
    · simp only [h10, if_true, List.mem_cons, not_or]
      exact ⟨by omega, h⟩
    · rw [if_neg h10]
      apply ih
      simp only [List.mem_cons, not_or]
      exact ⟨by omega, h⟩

theorem fmt_value_fmt_d (n : Int) : fmt_value (fmt_d n) = n := by
  unfold fmt_d
  by_cases hn : n < 0
  · rw [if_pos hn]
    simp only [fmt_value, dec_digits]
    rw [dec_value_digits_aux _ _ _ (by omega)]
    simp only [dec_value, List.foldl_nil]
    omega
  · rw [if_neg hn]
    obtain ⟨d, t, hd, ht⟩ := dec_digits_aux_head (n.toNat + 1) n.toNat [] (by omega)
    have hv := dec_value_digits_aux (n.toNat + 1) n.toNat [] (by omega)
    simp only [dec_digits]
    rw [ht] at hv ⊢
    have hne : 48 + d ≠ 45 := by omega
    have : fmt_value ((48 + d) :: t) = (dec_value 0 ((48 + d) :: t) : Int) := by
      unfold fmt_value
      split
      · rename_i heq
        simp only [List.cons.injEq] at heq
        exact absurd heq.1 hne
      · rfl
    rw [this, hv]
    simp only [dec_value, List.foldl_nil]
    omega

theorem fmt_d_ne_zero (n : Int) : 0 ∉ fmt_d n := by
  unfold fmt_d dec_digits
  by_cases hn : n < 0
  · rw [if_pos hn]
    simp only [List.mem_cons, not_or]
    exact ⟨by omega, dec_digits_aux_ne_zero _ _ _ (by simp)⟩
  · rw [if_neg hn]
    exact dec_digits_aux_ne_zero _ _ _ (by simp)

theorem fmt_d_length (n : Int) (h0 : -2 ^ 31 ≤ n) (h1 : n < 2 ^ 31) :
    (fmt_d n).length ≤ 11 := by
  unfold fmt_d dec_digits
  by_cases hn : n < 0
  · rw [if_pos hn]
    have := dec_digits_aux_length (n.natAbs + 1) 9 n.natAbs [] (by omega)
    simp only [List.length_cons, List.length_nil] at this ⊢
    omega
  · rw [if_neg hn]
    have := dec_digits_aux_length (n.toNat + 1) 9 n.toNat [] (by omega)
    simp only [List.length_nil] at this ⊢
    omega

theorem pcl_invalid_return_untruncated (n : Int) (h0 : -2 ^ 31 ≤ n) (h1 : n < 2 ^ 31) :
    pcl_invalid_return n = ascii "INVALID(" ++ fmt_d n ++ ascii ")" := by
  unfold pcl_invalid_return
  apply snprintf_s_of_fits
  · simp only [List.mem_append, not_or]
    exact ⟨⟨by decide, fmt_d_ne_zero n⟩, by decide⟩
  · have := fmt_d_length n h0 h1
    have h8 : (ascii "INVALID(").length = 8 := by decide
    have h1' : (ascii ")").length = 1 := by decide
    simp only [List.length_append, h8, h1', PCL_INVALID_STR_LEN]
    omega

theorem pcl_result_str_in_range (n : Int) (h0 : 0 ≤ n) (h1 : n ≤ 24) :
    pcl_result_str n = pcl_result_names.getD n.toNat [] := by
  interval_cases n <;> rfl

theorem pcl_result_str_out_of_range (n : Int) (h : n < 0 ∨ 24 < n) :
    pcl_result_str n = pcl_invalid_return n := by
  unfold pcl_result_str
  simp only [PCL_RESULT_SUCCESS, PCL_RESULT_ERROR_PARAMS, PCL_RESULT_ERROR_OUT_OF_MEMORY,
    PCL_RESULT_ERROR_SOCK_RECV_CREATE, PCL_RESULT_ERROR_SOCK_RECV_SETOPT,
    PCL_RESULT_ERROR_SOCK_RECV_GETOPT, PCL_RESULT_ERROR_SOCK_RECV_BIND,
    PCL_RESULT_ERROR_SOCK_RECV_TIMEOUT, PCL_RESULT_ERROR_SOCK_RECV_READ,
    PCL_RESULT_ERROR_SOCK_RECV_WRP, PCL_RESULT_ERROR_SOCK_RECV_SVCNAME,
    PCL_RESULT_ERROR_SOCK_RECV_MSGTYPE, PCL_RESULT_ERROR_SOCK_RECV_CONTENT,
    PCL_RESULT_ERROR_SOCK_RECV_PAYLOAD, PCL_RESULT_ERROR_SOCK_SEND_CREATE,
    PCL_RESULT_ERROR_SOCK_SEND_SETOPT, PCL_RESULT_ERROR_SOCK_SEND_GETOPT,
    PCL_RESULT_ERROR_SOCK_SEND_CONNECT, PCL_RESULT_ERROR_SOCK_SEND_WRP,
    PCL_RESULT_ERROR_SOCK_SEND_WRITE, PCL_RESULT_ERROR_SOCK_SEND_PARTIAL,
    PCL_RESULT_ERROR_SOCK_SEND_AUTH, PCL_RESULT_ERROR_REGISTER, PCL_RESULT_ERROR_INTERNAL,
    PCL_RESULT_INVALID]
  rw [if_neg (show ¬ n = 0 by omega), if_neg (show ¬ n = 1 by omega),
    if_neg (show ¬ n = 2 by omega), if_neg (show ¬ n = 3 by omega),
    if_neg (show ¬ n = 4 by omega), if_neg (show ¬ n = 5 by omega),
    if_neg (show ¬ n = 6 by omega), if_neg (show ¬ n = 7 by omega),
    if_neg (show ¬ n = 8 by omega), if_neg (show ¬ n = 9 by omega),
    if_neg (show ¬ n = 10 by omega), if_neg (show ¬ n = 11 by omega),
    if_neg (show ¬ n = 12 by omega), if_neg (show ¬ n = 13 by omega),
    if_neg (show ¬ n = 14 by omega), if_neg (show ¬ n = 15 by omega),
    if_neg (show ¬ n = 16 by omega), if_neg (show ¬ n = 17 by omega),
    if_neg (show ¬ n = 18 by omega), if_neg (show ¬ n = 19 by omega),
    if_neg (show ¬ n = 20 by omega), if_neg (show ¬ n = 21 by omega),
    if_neg (show ¬ n = 22 by omega), if_neg (show ¬ n = 23 by omega),
    if_neg (show ¬ n = 24 by omega)]

theorem pcl_result_names_no_paren (n : Int) (h0 : 0 ≤ n) (h1 : n ≤ 24) :
    40 ∉ pcl_result_str n := by
  interval_cases n <;> decide

theorem pcl_result_str_in_range_inj (a b : Int) (ha0 : 0 ≤ a) (ha1 : a ≤ 24)
    (hb0 : 0 ≤ b) (hb1 : b ≤ 24) (h : pcl_result_str a = pcl_result_str b) : a = b := by
  have hnodup : pcl_result_names.Nodup := by decide
  have hlen : pcl_result_names.length = 25 := by decide
  rw [pcl_result_str_in_range a ha0 ha1, pcl_result_str_in_range b hb0 hb1] at h
  have hia : a.toNat < pcl_result_names.length := by omega
  have hib : b.toNat < pcl_result_names.length := by omega
  rw [List.getD_eq_getElem _ _ hia, List.getD_eq_getElem _ _ hib] at h
  have := (List.Nodup.getElem_inj_iff hnodup).1 h
  omega

/-- C18: `pcl_result_str` returns for each of the 25 codes 0..24 the enum
identifier of the code without the prefix "PCL_RESULT_"; for every other
32-bit integer `n` it returns "INVALID(" followed by `n` in decimal and ")",
which the 24-byte buffer does not truncate; and two different 32-bit
integers never get the same text. -/
theorem pcl_result_str_texts :
    (pcl_result_str PCL_RESULT_SUCCESS = ascii "SUCCESS" ∧
     pcl_result_str PCL_RESULT_ERROR_PARAMS = ascii "ERROR_PARAMS" ∧
     pcl_result_str PCL_RESULT_ERROR_OUT_OF_MEMORY = ascii "ERROR_OUT_OF_MEMORY" ∧
     pcl_result_str PCL_RESULT_ERROR_SOCK_RECV_CREATE = ascii "ERROR_SOCK_RECV_CREATE" ∧
     pcl_result_str PCL_RESULT_ERROR_SOCK_RECV_SETOPT = ascii "ERROR_SOCK_RECV_SETOPT" ∧
     pcl_result_str PCL_RESULT_ERROR_SOCK_RECV_GETOPT = ascii "ERROR_SOCK_RECV_GETOPT" ∧
     pcl_result_str PCL_RESULT_ERROR_SOCK_RECV_BIND = ascii "ERROR_SOCK_RECV_BIND" ∧
     pcl_result_str PCL_RESULT_ERROR_SOCK_RECV_TIMEOUT = ascii "ERROR_SOCK_RECV_TIMEOUT" ∧
     pcl_result_str PCL_RESULT_ERROR_SOCK_RECV_READ = ascii "ERROR_SOCK_RECV_READ" ∧
     pcl_result_str PCL_RESULT_ERROR_SOCK_RECV_WRP = ascii "ERROR_SOCK_RECV_WRP" ∧
     pcl_result_str PCL_RESULT_ERROR_SOCK_RECV_SVCNAME = ascii "ERROR_SOCK_RECV_SVCNAME" ∧
     pcl_result_str PCL_RESULT_ERROR_SOCK_RECV_MSGTYPE = ascii "ERROR_SOCK_RECV_MSGTYPE" ∧
     pcl_result_str PCL_RESULT_ERROR_SOCK_RECV_CONTENT = ascii "ERROR_SOCK_RECV_CONTENT" ∧
     pcl_result_str PCL_RESULT_ERROR_SOCK_RECV_PAYLOAD = ascii "ERROR_SOCK_RECV_PAYLOAD" ∧
     pcl_result_str PCL_RESULT_ERROR_SOCK_SEND_CREATE = ascii "ERROR_SOCK_SEND_CREATE" ∧
     pcl_result_str PCL_RESULT_ERROR_SOCK_SEND_SETOPT = ascii "ERROR_SOCK_SEND_SETOPT" ∧
     pcl_result_str PCL_RESULT_ERROR_SOCK_SEND_GETOPT = ascii "ERROR_SOCK_SEND_GETOPT" ∧
     pcl_result_str PCL_RESULT_ERROR_SOCK_SEND_CONNECT = ascii "ERROR_SOCK_SEND_CONNECT" ∧
     pcl_result_str PCL_RESULT_ERROR_SOCK_SEND_WRP = ascii "ERROR_SOCK_SEND_WRP" ∧
     pcl_result_str PCL_RESULT_ERROR_SOCK_SEND_WRITE = ascii "ERROR_SOCK_SEND_WRITE" ∧
     pcl_result_str PCL_RESULT_ERROR_SOCK_SEND_PARTIAL = ascii "ERROR_SOCK_SEND_PARTIAL" ∧
     pcl_result_str PCL_RESULT_ERROR_SOCK_SEND_AUTH = ascii "ERROR_SOCK_SEND_AUTH" ∧
     pcl_result_str PCL_RESULT_ERROR_REGISTER = ascii "ERROR_REGISTER" ∧
     pcl_result_str PCL_RESULT_ERROR_INTERNAL = ascii "ERROR_INTERNAL" ∧
     pcl_result_str PCL_RESULT_INVALID = ascii "INVALID") ∧
    (∀ n : Int, -2 ^ 31 ≤ n → n < 2 ^ 31 → (n < 0 ∨ 24 < n) →
      pcl_result_str n = ascii "INVALID(" ++ fmt_d n ++ ascii ")") ∧
    (∀ n : Int, fmt_value (fmt_d n) = n) ∧
    (fmt_d 0 = ascii "0" ∧ fmt_d 25 = ascii "25" ∧
      fmt_d (-2147483648) = ascii "-2147483648" ∧
      pcl_result_str 2147483647 = ascii "INVALID(2147483647)" ∧
      pcl_result_str (-2147483648) = ascii "INVALID(-2147483648)") ∧
    (∀ a b : Int, -2 ^ 31 ≤ a → a < 2 ^ 31 → -2 ^ 31 ≤ b → b < 2 ^ 31 →
      pcl_result_str a = pcl_result_str b → a = b) := by
  refine ⟨by decide, ?_, fmt_value_fmt_d, by decide, ?_⟩
  · intro n h0 h1 hout
    rw [pcl_result_str_out_of_range n hout, pcl_invalid_return_untruncated n h0 h1]
  · intro a b ha0 ha1 hb0 hb1 h
    have hparen : ∀ n : Int, -2 ^ 31 ≤ n → n < 2 ^ 31 → (n < 0 ∨ 24 < n) →
        40 ∈ pcl_result_str n := by
      intro n h0 h1 hout
      rw [pcl_result_str_out_of_range n hout, pcl_invalid_return_untruncated n h0 h1]
      simp only [List.mem_append]
      exact Or.inl (Or.inl (by decide))
    by_cases hain : 0 ≤ a ∧ a ≤ 24
    · by_cases hbin : 0 ≤ b ∧ b ≤ 24
      · exact pcl_result_str_in_range_inj a b hain.1 hain.2 hbin.1 hbin.2 h
      · exfalso
        apply pcl_result_names_no_paren a hain.1 hain.2
        rw [h]
        exact hparen b hb0 hb1 (by omega)
    · by_cases hbin : 0 ≤ b ∧ b ≤ 24
      · exfalso
        apply pcl_result_names_no_paren b hbin.1 hbin.2
        rw [← h]
        exact hparen a ha0 ha1 (by omega)
      · rw [pcl_result_str_out_of_range a (by omega),
          pcl_result_str_out_of_range b (by omega),
          pcl_invalid_return_untruncated a ha0 ha1,
          pcl_invalid_return_untruncated b hb0 hb1] at h
        have h' := List.append_cancel_left (List.append_cancel_right h)
        rw [← fmt_value_fmt_d a, ← fmt_value_fmt_d b, h']

/-- Witness of C18: the texts of the codes 24 and 25 differ. -/
theorem pcl_result_str_texts_witness :
    pcl_result_str 24 = ascii "INVALID" ∧ pcl_result_str 25 = ascii "INVALID(25)" ∧
    (pcl_result_str 24 = pcl_result_str 25 → (24 : Int) = 25) :=
  ⟨by decide, by decide,
    pcl_result_str_texts.2.2.2.2 24 25 (by decide) (by decide) (by decide) (by decide)⟩

/-! # Frame of the session state -/

theorem pcl_recv_switch_frame (obj : pcl_obj_t) (m : wrp_msg_t) :
    same_configuration (pcl_recv_switch obj m).obj obj ∧
    (m.msg_type ≠ wrp_msg_type.AUTH → (pcl_recv_switch obj m).obj = obj) := by
  rcases m with ⟨ty, u⟩
  cases ty <;>
    simp only [pcl_recv_switch, pcl_msg_handler_register, pcl_msg_handler_auth_obj,
      same_configuration] <;>
    first
      | (split <;> simp)
      | simp

/-- C21: every `pcl_send` call returns the session as it was; every `pcl_recv`
call that does not dispatch a decoded AUTH message (read failure, decode
failure, or a decoded message of any other kind, whatever its handler
returns) returns the session as it was, so `authorized` and `auth_status` are
unchanged; and after every `pcl_recv` call, the AUTH case included, the
service name and its length, the two addresses, the endpoint records (handles,
descriptors, timeouts) and the seven handler slots are unchanged. -/
theorem session_frame (obj : pcl_obj_t) (env : recv_env) (msg : Option wrp_msg_t)
    (senv : send_env) :
    (pcl_send (some obj) msg senv).obj = some obj ∧
    ((∀ m, env.decoded = some m → m.msg_type ≠ wrp_msg_type.AUTH) →
      (pcl_recv (some obj) env).obj = some obj) ∧
    (∃ obj', (pcl_recv (some obj) env).obj = some obj' ∧ same_configuration obj' obj) := by
  refine ⟨pcl_send_obj obj msg senv, ?_, ?_⟩
  · intro h
    cases hdec : env.decoded with
    | none => exact (pcl_recv_not_decoded obj env hdec).1
    | some m =>
      rw [pcl_recv_decoded obj env m hdec]
      simp only
      rw [(pcl_recv_switch_frame obj m).2 (h m hdec)]
  · cases hdec : env.decoded with
    | none =>
      refine ⟨obj, (pcl_recv_not_decoded obj env hdec).1, ?_⟩
      simp [same_configuration]
    | some m =>
      rw [pcl_recv_decoded obj env m hdec]
      exact ⟨_, rfl, (pcl_recv_switch_frame obj m).1⟩

/-- Witness of C21: a REQUEST handled with the code 12 leaves an authorized
session authorized, and an AUTH 403 on it changes neither the endpoints nor
the request handler. -/
theorem session_frame_witness :
    ((pcl_recv (some { obj_custom with authorized := true, auth_status := 200 })
        (recv_env_of (req_msg (ascii "mac:AABBCCDDEEFF/iot") []))).obj.map
      fun o => (o.authorized, o.auth_status)) = some (true, 200) ∧
    ∃ obj', (pcl_recv (some obj_fresh) (recv_env_of (auth_msg 403))).obj = some obj' ∧
      same_configuration obj' obj_fresh :=
  ⟨by
      rw [(session_frame { obj_custom with authorized := true, auth_status := 200 }
        (recv_env_of (req_msg (ascii "mac:AABBCCDDEEFF/iot") [])) none (send_env_of 3)).2.1
        (by intro m hm; cases hm; decide)]
      rfl,
    (session_frame obj_fresh (recv_env_of (auth_msg 403)) none (send_env_of 3)).2.2⟩

/-! # Send timeout -/

theorem filter_isSndTimeo_eq (t : List Event) :
    t.filter Event.isSndTimeo = (t.filter Event.isSetsockopt).filter Event.isSndTimeo := by
  rw [List.filter_filter]
  congr 1
  funext e
  cases e <;> simp [Event.isSndTimeo, Event.isSetsockopt]

/-- C22, counterexample: receive and send timeouts both configured as 2147484
seconds.  The outbound endpoint gets the value 2147484, the inbound endpoint
the wrapped `int` -2147483296, which is not 1000 times 2147484. -/
theorem equal_timeouts_not_factor_1000 :
    (0 : Int) < 2147484 ∧ (2147484 : Int) < 2 ^ 31 ∧
    (pcl_init true true true (some (params_of_timeouts 2147484 2147484))
        init_env_ok).trace.filter Event.isSndTimeo
      = [Event.nn_setsockopt 4 nn_option.NN_SNDTIMEO 2147484] ∧
    (pcl_init true true true (some (params_of_timeouts 2147484 2147484))
        init_env_ok).trace.filter Event.isRcvTimeo
      = [Event.nn_setsockopt 3 nn_option.NN_RCVTIMEO (-2147483296)] ∧
    (-2147483296 : Int) ≠ 1000 * 2147484 := by
  refine ⟨by decide, by decide, by decide, by decide, by decide⟩

/-- C22, amended: for a configured send timeout of `t` seconds, whatever the
sign of `t`, every run of `pcl_init` that creates the outbound endpoint makes
exactly one NN_SNDTIMEO call on it, with the value `t` itself; and when the
receive timeout is configured with the same `t` and `0 < t <= 2147483`, the
value applied to the inbound endpoint in that run is `1000 * t`. -/
theorem pcl_init_send_timeout_seconds (object fd_recv fd_send : Bool) (p : pcl_params_t)
    (env : init_env) (t : Int) (hp : p.timeout_send = some t)
    (hreach : object = true ∧ env.malloc_ok = true ∧ 0 ≤ env.recv_socket ∧
      ¬ ((pcl_init_obj (some p)).recv.timeout > 0 ∧ env.recv_setsockopt < 0) ∧
      0 ≤ env.bind ∧ 0 ≤ env.recv_getsockopt ∧ 0 ≤ env.send_socket) :
    (pcl_init object fd_recv fd_send (some p) env).trace.filter Event.isSndTimeo
      = [Event.nn_setsockopt env.send_socket nn_option.NN_SNDTIMEO t] ∧
    (p.timeout_recv = some t → 0 < t → t ≤ 2147483 →
      (pcl_init object fd_recv fd_send (some p) env).trace.filter Event.isRcvTimeo
        = [Event.nn_setsockopt env.recv_socket nn_option.NN_RCVTIMEO (1000 * t)]) := by
  have hsnd : (pcl_init_obj (some p)).send.timeout = t := by
    simp [pcl_init_obj, hp]
  constructor
  · rw [filter_isSndTimeo_eq, pcl_init_setsockopt_calls, List.filter_append,
      if_pos hreach, hsnd]
    by_cases hc : object = true ∧ env.malloc_ok = true ∧ 0 ≤ env.recv_socket ∧
        (pcl_init_obj (some p)).recv.timeout > 0
    · rw [if_pos hc]
      simp [Event.isSndTimeo]
    · rw [if_neg hc]
      simp [Event.isSndTimeo]
  · intro hr hpos hmax
    have hrcv : (pcl_init_obj (some p)).recv.timeout = t := by
      simp [pcl_init_obj, hr]
    have hc : object = true ∧ env.malloc_ok = true ∧ 0 ≤ env.recv_socket ∧
        (pcl_init_obj (some p)).recv.timeout > 0 :=
      ⟨hreach.1, hreach.2.1, hreach.2.2.1, by rw [hrcv]; omega⟩
    rw [filter_isRcvTimeo_eq, pcl_init_setsockopt_calls, List.filter_append,
      if_pos hc, if_pos hreach, hrcv, int32_of_fits (t * 1000) (by omega) (by omega)]
    simp [Event.isRcvTimeo, mul_comm]

/-- Witness of C22 (amended): a send timeout of 0 seconds is passed as 0, and
equal timeouts of 5 seconds give 5 outbound and 5000 inbound. -/
theorem pcl_init_send_timeout_seconds_witness :
    (pcl_init true true true (some (params_of_timeouts 5 0))
        init_env_ok).trace.filter Event.isSndTimeo
      = [Event.nn_setsockopt init_env_ok.send_socket nn_option.NN_SNDTIMEO 0] ∧
    (pcl_init true true true (some (params_of_timeouts 5 5))
        init_env_ok).trace.filter Event.isSndTimeo
      = [Event.nn_setsockopt init_env_ok.send_socket nn_option.NN_SNDTIMEO 5] ∧
    (pcl_init true true true (some (params_of_timeouts 5 5))
        init_env_ok).trace.filter Event.isRcvTimeo
      = [Event.nn_setsockopt init_env_ok.recv_socket nn_option.NN_RCVTIMEO (1000 * 5)] :=
  ⟨(pcl_init_send_timeout_seconds true true true (params_of_timeouts 5 0) init_env_ok 0 rfl
      (by decide)).1,
    (pcl_init_send_timeout_seconds true true true (params_of_timeouts 5 5) init_env_ok 5 rfl
      (by decide)).1,
    (pcl_init_send_timeout_seconds true true true (params_of_timeouts 5 5) init_env_ok 5 rfl
      (by decide)).2 rfl (by decide) (by decide)⟩

/-! # Bytes read by destination matching -/

theorem strncmp_traced_fst : ∀ (n : Nat) (a b : List Nat),
    (strncmp_traced a b n).1 = strncmp a b n := by
  intro n
  induction n with
  | zero => intro a b; rfl
  | succ n ih =>
    intro a b
    unfold strncmp_traced strncmp
    split_ifs
    · rfl
    · rfl
    · exact ih a.tail b.tail

theorem strncmp_traced_snd_le_left : ∀ (n : Nat) (a b : List Nat),
    (strncmp_traced a b n).2 ≤ a.length + 1 := by
  intro n
  induction n with
  | zero => intro a b; simp [strncmp_traced]
  | succ n ih =>
    intro a b
    unfold strncmp_traced
    split_ifs with h1 h2
    · simp
    · simp
    · cases a with
      | nil => exact absurd rfl h2
      | cons x xs =>
        have := ih xs b.tail
        simp only [List.tail_cons, List.length_cons] at this ⊢
        omega

theorem strncmp_traced_snd_le_right : ∀ (n : Nat) (a b : List Nat),
    (strncmp_traced a b n).2 ≤ b.length + 1 := by
  intro n
  induction n with
  | zero => intro a b; simp [strncmp_traced]
  | succ n ih =>
    intro a b
    unfold strncmp_traced
    split_ifs with h1 h2
    · simp
    · simp
    · cases b with
      | nil =>
        exfalso
        apply h2
        have : a.headD 0 = ([] : List Nat).headD 0 := not_not.1 h1
        simpa using this
      | cons y ys =>
        have := ih a.tail ys
        simp only [List.tail_cons, List.length_cons] at this ⊢
        omega

theorem strchr_traced_fst (c : Nat) : ∀ d : List Nat,
    (strchr_traced d c).1 = strchr d c := by
  intro d
  induction d with
  | nil => rfl
  | cons x xs ih =>
    unfold strchr_traced strchr
    split_ifs
    · rfl
    · rfl
    · exact ih

theorem strchr_traced_snd_le (c : Nat) : ∀ d : List Nat,
    (strchr_traced d c).2 ≤ d.length + 1 := by
  intro d
  induction d with
  | nil => simp [strchr_traced]
  | cons x xs ih =>
    unfold strchr_traced
    split_ifs
    · simp
    · simp
    · simp only [List.length_cons]
      omega

/-- C23: for a NUL-free destination `d` (its terminator is at index
`strlen d`; `d` may be empty or shorter than 4 bytes) and a session whose
stored name is NUL-free, shorter than its buffer and of length
`service_name_len`, the instrumented `pcl_service_name_match` returns what
`pcl_service_name_match` returns, every index of `d` it reads is at most
`strlen d`, and `service[service_name_len]` is evaluated only when `d` is
`pre ++ '/' :: rest` with no '/' in `pre` and the stored name a prefix of
`rest`; the index read is then that of the byte after this occurrence of the
name. -/
theorem pcl_service_name_match_reads_in_bounds (obj : pcl_obj_t) (d : List Nat)
    (hd : 0 ∉ d) (hn : 0 ∉ obj.service_name)
    (hlen : obj.service_name_len = (obj.service_name.length : Int))
    (hmax : obj.service_name.length < PCL_SERVICE_NAME_LEN_MAX) :
    (pcl_service_name_match_traced obj d).result = pcl_service_name_match obj d ∧
    (∀ i ∈ (pcl_service_name_match_traced obj d).reads, i ≤ strlen d) ∧
    (∀ i, (pcl_service_name_match_traced obj d).end_read = some i →
      i ∈ (pcl_service_name_match_traced obj d).reads ∧
      ∃ pre rest, d = pre ++ 47 :: rest ∧ 47 ∉ pre ∧ obj.service_name <+: rest ∧
        i = pre.length + 1 + obj.service_name.length) := by
  rw [strlen_of_not_mem d hd]
  have hr1 : ∀ i ∈ List.range (strncmp_traced (ascii "mac:") d 4).2, i ≤ d.length := by
    intro i hi
    have := strncmp_traced_snd_le_right 4 (ascii "mac:") d
    have := List.mem_range.1 hi
    omega
  have hr2 : ∀ i ∈ List.range (strchr_traced d 47).2, i ≤ d.length := by
    intro i hi
    have := strchr_traced_snd_le 47 d
    have := List.mem_range.1 hi
    omega
  unfold pcl_service_name_match_traced pcl_service_name_match
  simp only [strncmp_traced_fst, strchr_traced_fst]
  by_cases hm : strncmp (ascii "mac:") d 4 = 0
  · simp only [hm, if_true]
    cases hs : strchr d 47 with
    | none =>
      simp only
      refine ⟨trivial, ?_, by simp⟩
      intro i hi
      rcases List.mem_append.1 hi with h | h
      · exact hr1 i h
      · exact hr2 i h
    | some slash =>
      obtain ⟨pre, t, hd1, hs1, hpre1⟩ := strchr_eq_some 47 (by decide) d slash hs
      subst hs1
      have hoff : d.length - (47 :: t).length + 1 = pre.length + 1 := by
        rw [hd1]
        simp only [List.length_append, List.length_cons]
        omega
      have hdlen : d.length = pre.length + 1 + t.length := by
        rw [hd1]
        simp only [List.length_append, List.length_cons]
        omega
      simp only [List.tail_cons, hoff]
      rw [hlen, size_t_of_int_length _ hmax]
      have hr3 : ∀ i ∈ (List.range
          (strncmp_traced t obj.service_name obj.service_name.length).2).map
            (fun j => pre.length + 1 + j), i ≤ d.length := by
        intro i hi
        obtain ⟨j, hj, hij⟩ := List.mem_map.1 hi
        have := strncmp_traced_snd_le_left obj.service_name.length t obj.service_name
        have := List.mem_range.1 hj
        omega
      by_cases hc : strncmp t obj.service_name obj.service_name.length = 0
      · simp only [hc, if_true, Int.toNat_ofNat]
        have hpfx : obj.service_name <+: t := (strncmp_prefix_right _ hn t).1 hc
        have hle : obj.service_name.length ≤ t.length := List.IsPrefix.length_le hpfx
        refine ⟨trivial, ?_, ?_⟩
        · intro i hi
          rcases List.mem_append.1 hi with h | h
          · rcases List.mem_append.1 h with h | h
            · rcases List.mem_append.1 h with h | h
              · exact hr1 i h
              · exact hr2 i h
            · exact hr3 i h
          · rw [List.mem_singleton.1 h]
            omega
        · intro i hi
          simp only [Option.some.injEq] at hi
          subst hi
          exact ⟨by simp, pre, t, hd1, hpre1, hpfx, rfl⟩
      · simp only [hc, if_false]
        refine ⟨trivial, ?_, by simp⟩
        intro i hi
        rcases List.mem_append.1 hi with h | h
        · rcases List.mem_append.1 h with h | h
          · exact hr1 i h
          · exact hr2 i h
        · exact hr3 i h
  · simp only [hm, if_false]
    exact ⟨trivial, hr1, by simp⟩

/-- Witness of C23: on the two-byte destination "ma" the default session
reads the indices 0, 1 and 2 (the terminator) and nothing else. -/
theorem pcl_service_name_match_reads_in_bounds_witness :
    (0 ∉ ascii "ma") ∧
    (pcl_service_name_match_traced (pcl_init_obj none) (ascii "ma")).reads = [0, 1, 2] ∧
    (pcl_service_name_match_traced (pcl_init_obj none) (ascii "")).reads = [0] ∧
    (pcl_service_name_match_traced (pcl_init_obj none) (ascii "mac:x/iot")).end_read
      = some 9 ∧
    ∀ i ∈ (pcl_service_name_match_traced (pcl_init_obj none) (ascii "ma")).reads,
      i ≤ strlen (ascii "ma") :=
  ⟨by decide, by decide, by decide, by decide,
    (pcl_service_name_match_reads_in_bounds (pcl_init_obj none) (ascii "ma") (by decide)
      (by decide) (by decide) (by decide)).2.1⟩

end Paroduscl
